import Mathlib

/-!
Verification development for the graspologic seeded-graph-matching (SGM)
matcher and the omnibus-embedding module `omni.py`.  The SGM matcher itself is
not present in the repository sources (only its test suite
`tests/test_match.py` is), so every definition of the matcher below is
modelled from the specification (its doc comment says so); the omnibus module
is embedded from the source file `graphstats/embed/omni.py`.

All arithmetic is exact rational arithmetic; matrices are row-major lists of
rows.  Every definition is executable, so concrete runs of the modelled
matcher are settled by kernel evaluation.
-/

namespace Graspologic

/-! Exact rational arithmetic, written out over `mkRat` and integer
operations (numerator and denominator arithmetic followed by normalization),
so that every value is a normalized `ℚ` and every operation evaluates by
kernel reduction.  The bridge lemmas in the theorems section below show they
agree with the standard rational operations. -/

/-- Rational addition: `a/b + c/d = (ad + cb) / bd`, normalized. -/
def qadd (a b : ℚ) : ℚ := mkRat (a.num * b.den + b.num * a.den) (a.den * b.den)

/-- Rational negation. -/
def qneg (a : ℚ) : ℚ := mkRat (-a.num) a.den

/-- Rational subtraction: `a/b − c/d = (ad − cb) / bd`, normalized. -/
def qsub (a b : ℚ) : ℚ := mkRat (a.num * b.den - b.num * a.den) (a.den * b.den)

/-- Rational multiplication. -/
def qmul (a b : ℚ) : ℚ := mkRat (a.num * b.num) (a.den * b.den)

/-- Rational inverse (`0⁻¹ = 0`, as in the standard library). -/
def qinv (a : ℚ) : ℚ :=
  if a.num < 0 then mkRat (-(a.den : Int)) a.num.natAbs
  else mkRat (a.den : Int) a.num.natAbs

/-- Rational division. -/
def qdiv (a b : ℚ) : ℚ := qmul a (qinv b)

/-- Rational strict order, by cross-multiplication (denominators are
positive). -/
def qlt (a b : ℚ) : Prop := a.num * (b.den : Int) < b.num * (a.den : Int)

instance (a b : ℚ) : Decidable (qlt a b) := by
  unfold qlt; infer_instance

/-- Rational order, by cross-multiplication. -/
def qle (a b : ℚ) : Prop := a.num * (b.den : Int) ≤ b.num * (a.den : Int)

instance (a b : ℚ) : Decidable (qle a b) := by
  unfold qle; infer_instance

/-- A numeric matrix, row-major, entries rational. -/
abbrev Mat := List (List ℚ)

/-- Entry access with zero default outside bounds. -/
def mget (M : Mat) (i j : Nat) : ℚ := (M.getD i []).getD j 0

/-- Build an `r × c` matrix from an entry function. -/
def mkMat (r c : Nat) (f : Nat → Nat → ℚ) : Mat :=
  (List.range r).map (fun i => (List.range c).map (fun j => f i j))

/-- Sum of `f 0 + ... + f (s-1)`. -/
def rsum (s : Nat) (f : Nat → ℚ) : ℚ :=
  ((List.range s).map f).foldr qadd 0

/-- Matrix product of an `r × s` and an `s × c` matrix. -/
def matMul (r s c : Nat) (A B : Mat) : Mat :=
  mkMat r c (fun i j => rsum s (fun l => qmul (mget A i l) (mget B l j)))

/-- Entrywise sum of two `r × c` matrices. -/
def matAdd (r c : Nat) (A B : Mat) : Mat :=
  mkMat r c (fun i j => qadd (mget A i j) (mget B i j))

/-- Entrywise difference of two `r × c` matrices. -/
def matSub (r c : Nat) (A B : Mat) : Mat :=
  mkMat r c (fun i j => qsub (mget A i j) (mget B i j))

/-- Transpose of an `r × c` matrix. -/
def matTr (r c : Nat) (A : Mat) : Mat := mkMat c r (fun i j => mget A j i)

/-- Frobenius inner product of two `r × c` matrices. -/
def matDot (r c : Nat) (A B : Mat) : ℚ :=
  rsum r (fun i => rsum c (fun j => qmul (mget A i j) (mget B i j)))

/-- Scalar multiple of an `r × c` matrix. -/
def matSmul (r c : Nat) (q : ℚ) (A : Mat) : Mat :=
  mkMat r c (fun i j => qmul q (mget A i j))

/-- Contiguous sub-block `[r0, r1) × [c0, c1)` of a matrix. -/
def subBlock (M : Mat) (r0 r1 c0 c1 : Nat) : Mat :=
  mkMat (r1 - r0) (c1 - c0) (fun i j => mget M (r0 + i) (c0 + j))

/-- The permutation matrix of `p` (row `i` has a one in column `p i`). -/
def permToMat (p : List Nat) : Mat :=
  mkMat p.length p.length (fun i j => if p.getD i 0 = j then 1 else 0)

/-! ### Linear Assignment Solver

Modelled from the spec: §4.2 requires an exact minimum-cost assignment
subroutine for arbitrary rational square cost matrices, polynomial in `n`
(the classical assignment problem); it is realised here by the classical
Hungarian algorithm with dual potentials (rows and columns are 1-indexed,
index 0 is a sentinel; `none` plays `+∞`). -/

/-- State of the Hungarian algorithm: row and column potentials `u`, `v`,
column assignments `p` (column `j` is matched to row `p j`, `0` = free) and
the alternating-tree parent pointers `way`, all of length `n + 1`. -/
structure LapState where
  u : List ℚ
  v : List ℚ
  p : List Nat
  way : List Nat
deriving DecidableEq

/-- Comparison on `Option ℚ` where `none` is `+∞`. -/
def oLt (a b : Option ℚ) : Bool :=
  match a, b with
  | none, _ => false
  | some _, none => true
  | some x, some y => decide (qlt x y)

/-- One scan over the columns `1..n`: update the tentative distances `minv`
and parents `way` from tree column `j0` (whose row is `i0`), and locate the
unused column `j1` of least tentative distance `delta`. -/
def lapScan (n : Nat) (c : Mat) (i0 j0 : Nat) (u v : List ℚ) (used : List Bool)
    (minv0 : List (Option ℚ)) (way0 : List Nat) :
    List (Option ℚ) × List Nat × Option ℚ × Nat :=
  (List.range' 1 n).foldl
    (fun st j =>
      let minv := st.1
      let way := st.2.1
      let delta := st.2.2.1
      let j1 := st.2.2.2
      if used.getD j false then st
      else
        let cur : ℚ := qsub (qsub (mget c (i0 - 1) (j - 1)) (u.getD i0 0)) (v.getD j 0)
        let upd : Bool := oLt (some cur) (minv.getD j none)
        let minv' := if upd then minv.set j (some cur) else minv
        let way' := if upd then way.set j j0 else way
        let mj := minv'.getD j none
        let take : Bool :=
          match delta, mj with
          | none, _ => true
          | some d, some x => decide (qlt x d)
          | some _, none => false
        if take then (minv', way', mj, j) else (minv', way', delta, j1))
    (minv0, way0, none, 0)

/-- Dual update after a scan: add `delta` to the potentials along the
alternating tree and subtract it from the remaining tentative distances. -/
def lapUpdate (n : Nat) (st : LapState) (used : List Bool)
    (minv : List (Option ℚ)) (delta : ℚ) : LapState × List (Option ℚ) :=
  (List.range (n + 1)).foldl
    (fun acc j =>
      let s := acc.1
      let mv := acc.2
      if used.getD j false then
        let r := s.p.getD j 0
        (⟨s.u.set r (qadd (s.u.getD r 0) delta), s.v.set j (qsub (s.v.getD j 0) delta),
          s.p, s.way⟩, mv)
      else
        match mv.getD j none with
        | none => (s, mv)
        | some x => (s, mv.set j (some (qsub x delta))))
    (st, minv)

/-- One turn of the alternating-tree growth: mark column `j0` visited, scan
from it, and apply the dual update; returns the new state, distances, visited
set and the next tree column. -/
def lapTurn (n : Nat) (c : Mat) (st : LapState) (minv : List (Option ℚ))
    (used : List Bool) (j0 : Nat) :
    LapState × List (Option ℚ) × List Bool × Nat :=
  let used' := used.set j0 true
  let i0 := st.p.getD j0 0
  let scan := lapScan n c i0 j0 st.u st.v used' minv st.way
  let minv' := scan.1
  let way' := scan.2.1
  let delta := scan.2.2.1
  let j1 := scan.2.2.2
  let st1 : LapState := ⟨st.u, st.v, st.p, way'⟩
  let upd := lapUpdate n st1 used' minv' (delta.getD 0)
  (upd.1, upd.2, used', j1)

/-- Grow the alternating tree until a free column is reached; `fuel` bounds
the loop (at most `n + 1` turns, each visiting one fresh column). -/
def lapLoop (n : Nat) (c : Mat) :
    Nat → LapState → List (Option ℚ) → List Bool → Nat → LapState × Nat
  | 0, st, _, _, j0 => (st, j0)
  | Nat.succ fuel, st, minv, used, j0 =>
    let t := lapTurn n c st minv used j0
    if t.1.p.getD t.2.2.2 0 = 0 then (t.1, t.2.2.2)
    else lapLoop n c fuel t.1 t.2.1 t.2.2.1 t.2.2.2

/-- Flip the matched edges along the alternating path ending at column `j0`. -/
def lapAug (way : List Nat) : Nat → List Nat → Nat → List Nat
  | 0, p, _ => p
  | Nat.succ fuel, p, j0 =>
    let j1 := way.getD j0 0
    let p' := p.set j0 (p.getD j1 0)
    if j1 = 0 then p' else lapAug way fuel p' j1

/-- One phase of the Hungarian algorithm: assign row `i`. -/
def lapRow (n : Nat) (c : Mat) (st : LapState) (i : Nat) : LapState :=
  let st0 : LapState := ⟨st.u, st.v, st.p.set 0 i, st.way⟩
  let res := lapLoop n c (n + 2) st0 ((List.range (n + 1)).map (fun _ => none))
    ((List.range (n + 1)).map (fun _ => false)) 0
  let st1 := res.1
  ⟨st1.u, st1.v, lapAug st1.way (n + 2) st1.p res.2, st1.way⟩

/-- The all-zero initial Hungarian state for an `n × n` problem. -/
def lapInit (n : Nat) : LapState :=
  ⟨(List.range (n + 1)).map (fun _ => 0), (List.range (n + 1)).map (fun _ => 0),
   (List.range (n + 1)).map (fun _ => 0), (List.range (n + 1)).map (fun _ => 0)⟩

/-- Run all `n` assignment phases. -/
def lapFold (n : Nat) (c : Mat) : LapState :=
  (List.range' 1 n).foldl (lapRow n c) (lapInit n)

/-- Convert the column-to-row assignment `p` into a 0-based row-to-column
assignment list. -/
def lapExtract (n : Nat) (p : List Nat) : List Nat :=
  (List.range n).map
    (fun r => ((List.range' 1 n).find? (fun j => p.getD j 0 = r + 1)).getD 0 - 1)

/-- Minimum-cost assignment for the `n × n` cost matrix `c`: returns the list
`q` with row `i` assigned to column `q i`, minimising `∑ i, c i (q i)`. -/
def lap (n : Nat) (c : Mat) : List Nat := lapExtract n (lapFold n c).p

/-! ### Frank–Wolfe optimizer

Modelled from the spec: §4.3.  The working matrices have the seeds occupying
the leading `k` of the `n` indices; the iterates `P` range over the
`m × m` non-seeded block, `m = n - k`.  The objective minimised (for
`gmp = false`) is `F(P) = ∑ i j, A i j * (Q Bᵀ Qᵀ) i j − ∑ i, S i (q i)`
over full assignment matrices `Q = I_k ⊕ P`; §9 leaves the exact sign policy
to be pinned by the §8 benchmark scores, and this convention matches them
(the chr12c optimum 11156 is attained as a minimum).  The gradient restricted
to the non-seeded block is `K + A₂₂ P B₂₂ + A₂₂ᵀ P B₂₂ᵀ` with the
seed-induced linear term `K = A₁₂ᵀ B₂₁ᵀ + A₂₁ B₁₂ − S₂₂`.  The `gmp`
variant flag flips the optimisation direction (maximisation), sharing the
same iteration structure (§4.3). -/

/-- Precomputed data for one Frank–Wolfe run on the non-seeded block. -/
structure FWCtx where
  m : Nat
  A22 : Mat
  B22 : Mat
  A22t : Mat
  B22t : Mat
  K : Mat
  gmp : Bool
  eps : ℚ
deriving DecidableEq

/-- Exact minimiser of the quadratic `a·α² + b·α` over `α ∈ [0, 1]`
(the analytic line search of §4.3). -/
def lineAlpha (a b : ℚ) : ℚ :=
  if qlt 0 a then
    let x := qdiv (qneg b) (qmul 2 a)
    if qlt x 0 then 0 else if qlt 1 x then 1 else x
  else if qlt a 0 then (if qlt (qadd a b) 0 then 1 else 0)
  else (if qlt b 0 then 1 else 0)

/-- Gradient of the relaxed objective at `P`, restricted to the non-seeded
block. -/
def fwGrad (ctx : FWCtx) (P : Mat) : Mat :=
  matAdd ctx.m ctx.m ctx.K (matAdd ctx.m ctx.m
    (matMul ctx.m ctx.m ctx.m (matMul ctx.m ctx.m ctx.m ctx.A22 P) ctx.B22)
    (matMul ctx.m ctx.m ctx.m (matMul ctx.m ctx.m ctx.m ctx.A22t P) ctx.B22t))

/-- Cost matrix handed to the assignment solver (negated for the maximising
`gmp` variant). -/
def fwCost (ctx : FWCtx) (P : Mat) : Mat :=
  if ctx.gmp then matSmul ctx.m ctx.m (-1) (fwGrad ctx P) else fwGrad ctx P

/-- Search direction of one Frank–Wolfe step: the extreme point minimising
the linearised objective. -/
def fwDir (ctx : FWCtx) (P : Mat) : List Nat := lap ctx.m (fwCost ctx P)

/-- Rest of a Frank–Wolfe step once the direction `q` is known: analytic
line search along `P + α (Q − P)`; returns the next iterate and the squared
Frobenius norm of the move. -/
def fwStepAt (ctx : FWCtx) (P : Mat) (q : List Nat) : Mat × ℚ :=
  let m := ctx.m
  let Q := permToMat q
  let R := matSub m m Q P
  let a0 := matDot m m ctx.A22 (matMul m m m (matMul m m m R ctx.B22t) (matTr m m R))
  let b0 := matDot m m (fwGrad ctx P) R
  let a := if ctx.gmp then qneg a0 else a0
  let b := if ctx.gmp then qneg b0 else b0
  let al := lineAlpha a b
  let step := matSmul m m al R
  (matAdd m m P step, matDot m m step step)

/-- One full Frank–Wolfe step. -/
def fwStep (ctx : FWCtx) (P : Mat) : Mat × ℚ := fwStepAt ctx P (fwDir ctx P)

/-- Iterate Frank–Wolfe steps until the normalized move
`‖P_{k+1} − P_k‖_F / √m` falls below `eps` (compared in squares, so exactly
`∑ (ΔP)² < eps² · m`) or the fuel (`max_iter`) runs out.  §4.3 fixes the
stopping criterion only up to its normalization and §9 pins such policies by
the §8 benchmark bounds, which this normalization satisfies.  Returns the
final iterate and the number of iterations consumed. -/
def fwLoop (ctx : FWCtx) : Nat → Mat → Nat → Mat × Nat
  | 0, P, done => (P, done)
  | Nat.succ fuel, P, done =>
    let s := fwStep ctx P
    if qlt s.2 (qmul (qmul ctx.eps ctx.eps) (mkRat ctx.m 1)) then (s.1, done + 1)
    else fwLoop ctx fuel s.1 (done + 1)

/-- Terminal projection of §4.3: snap the final doubly-stochastic iterate to
the nearest permutation by one more assignment call on `−P`. -/
def fwProject (ctx : FWCtx) (r : Mat × Nat) : List Nat × Nat :=
  (lap ctx.m (matSmul ctx.m ctx.m (-1) r.1), r.2)

/-- One optimizer run: Frank–Wolfe iterations from `P0`, then the terminal
projection to a hard permutation of the non-seeded block. -/
def fwRun (ctx : FWCtx) (maxIter : Nat) (P0 : Mat) : List Nat × Nat :=
  fwProject ctx (fwLoop ctx maxIter P0 0)

end Graspologic

namespace Graspologic

/-! ### Public matcher interface

Modelled from the spec: §4.5, §6 and §7.  Error kinds follow the §7
taxonomy collapsed onto the Python exception types the tests observe
(`TypeError`, `ValueError`) plus the §4.1 `ShapeError`. -/

/-- Error kinds surfaced by the matcher (§7). -/
inductive Err where
  | typeError
  | valueError
  | shapeError
deriving DecidableEq

/-- Initializer strategy (§4.3, §9): barycenter, random perturbation, or a
caller-supplied matrix for the non-seeded block. -/
inductive InitStrategy where
  | barycenter
  | rand
  | explicitM (P : Mat)
deriving DecidableEq

/-- Padding policy (§4.1). -/
inductive PaddingMode where
  | naive
  | adopted
deriving DecidableEq

/-- Validated matcher configuration (§6). -/
structure Config where
  n_init : Nat
  init : InitStrategy
  max_iter : Nat
  shuffle_input : Bool
  eps : ℚ
  gmp : Bool
  padding : PaddingMode
deriving DecidableEq

/-- Result of a match call (§3 MatchResult). -/
structure MatchResult where
  perm_inds_ : List Nat
  score_ : ℚ
  n_iter_ : Nat
deriving DecidableEq

instance {ε α : Type} [DecidableEq ε] [DecidableEq α] : DecidableEq (Except ε α) :=
  fun x y =>
    match x, y with
    | Except.ok u, Except.ok v =>
      if h : u = v then isTrue (by rw [h])
      else isFalse (by intro hc; cases hc; exact h rfl)
    | Except.error u, Except.error v =>
      if h : u = v then isTrue (by rw [h])
      else isFalse (by intro hc; cases hc; exact h rfl)
    | Except.ok _, Except.error _ => isFalse (by intro hc; cases hc)
    | Except.error _, Except.ok _ => isFalse (by intro hc; cases hc)

/-- A matrix is a well-formed square 2-D array. -/
def isSquare (M : Mat) : Prop := ∀ row ∈ M, row.length = M.length

instance (M : Mat) : Decidable (isSquare M) := by
  unfold isSquare; infer_instance

/-- Mean edge weight of a square matrix (total weight over entry count);
zero for an empty matrix. -/
def meanEdge (M : Mat) : ℚ :=
  qdiv (rsum M.length (fun i => rsum M.length (fun j => mget M i j)))
    (mkRat (M.length * M.length) 1)

/-- Pad a square matrix up to size `n` (§4.1): `naive` fills with zeros,
`adopted` fills the padded region with the mean edge weight of the smaller
graph. -/
def pad (mode : PaddingMode) (M : Mat) (n : Nat) : Mat :=
  if M.length = n then M
  else
    let fill := match mode with
      | PaddingMode.naive => 0
      | PaddingMode.adopted => meanEdge M
    mkMat n n (fun i j => if i < M.length ∧ j < M.length then mget M i j else fill)

/-- Validity of the seed sequences (§4.5): equal lengths, entries
non-negative and within the (padded) vertex count, no duplicates. -/
def seedsOk (sA sB : List Int) (n : Nat) : Prop :=
  sA.length = sB.length ∧ (∀ x ∈ sA, 0 ≤ x ∧ x.toNat < n) ∧
    (∀ x ∈ sB, 0 ≤ x ∧ x.toNat < n) ∧ sA.Nodup ∧ sB.Nodup

instance (sA sB : List Int) (n : Nat) : Decidable (seedsOk sA sB n) := by
  unfold seedsOk; infer_instance

/-- Validity of the optional similarity matrix (§4.5): its shape must equal
the common (post-padding) shape `(n, n)`. -/
def simOk (S : Option Mat) (n : Nat) : Prop :=
  match S with
  | none => True
  | some M => M.length = n ∧ ∀ row ∈ M, row.length = n

instance (S : Option Mat) (n : Nat) : Decidable (simOk S n) := by
  unfold simOk; cases S <;> infer_instance

/-- Validity of a caller-supplied initializer for a non-seeded block of size
`m` (§4.3): correct shape, non-negative entries, unit row and column sums
(the spec's "within numerical tolerance" is modelled as exact). -/
def initOk (ini : InitStrategy) (m : Nat) : Prop :=
  match ini with
  | InitStrategy.explicitM P =>
      P.length = m ∧ (∀ row ∈ P, row.length = m) ∧
        (∀ i < m, ∀ j < m, qle 0 (mget P i j)) ∧
        (∀ i < m, rsum m (fun j => mget P i j) = 1) ∧
        (∀ j < m, rsum m (fun i => mget P i j) = 1)
  | _ => True

instance (ini : InitStrategy) (m : Nat) : Decidable (initOk ini m) := by
  unfold initOk; cases ini <;> infer_instance

/-- Remove the element at index `i`. -/
def removeAt (l : List Nat) (i : Nat) : List Nat := l.take i ++ l.drop (i + 1)

/-- Fisher–Yates-style shuffle driven by the random stream `rng`. -/
def fyGo (rng : Nat → Nat) : Nat → List Nat → Nat → List Nat
  | 0, _, _ => []
  | Nat.succ fuel, l, t =>
    if l.length = 0 then []
    else
      let i := rng t % l.length
      l.getD i 0 :: fyGo rng fuel (removeAt l i) (t + 1)

/-- Shuffle a list using the random stream `rng`. -/
def fyShuffle (rng : Nat → Nat) (l : List Nat) : List Nat := fyGo rng l.length l 0

/-- The non-seeded vertices of a graph with `n` vertices, in their working
order: ascending, or randomly relabelled when `shuffle_input` is set
(§4.3 input shuffling; consistently inverted at output by `assemble`). -/
def runOrder (shuffle : Bool) (rng : Nat → Nat) (s : List Nat) (n : Nat) :
    List Nat :=
  let rest := (List.range n).filter (fun v => ¬ v ∈ s)
  if shuffle then fyShuffle rng rest else rest

/-- Reindexing of §4.1: seeded vertices first (in seed order), then the
remaining vertices. -/
def reindex (s : List Nat) (rest : List Nat) : List Nat := s ++ rest

/-- Conjugate a matrix by a vertex relabelling `r` (entry `(i, j)` of the
working matrix is entry `(r i, r j)` of the original). -/
def applyReindex (n : Nat) (r : List Nat) (M : Mat) : Mat :=
  mkMat n n (fun i j => mget M (r.getD i 0) (r.getD j 0))

/-- Rows indexed through `rA`, columns through `rB` (for the similarity
matrix, whose rows live in graph A and columns in graph B). -/
def applyReindex2 (n : Nat) (rA rB : List Nat) (M : Mat) : Mat :=
  mkMat n n (fun i j => mget M (rA.getD i 0) (rB.getD j 0))

/-- Build the Frank–Wolfe context from the working matrices (seeds first). -/
def mkCtx (Ar Br Sr : Mat) (k n : Nat) (gmp : Bool) (eps : ℚ) : FWCtx :=
  let m := n - k
  let A12 := subBlock Ar 0 k k n
  let A21 := subBlock Ar k n 0 k
  let A22 := subBlock Ar k n k n
  let B12 := subBlock Br 0 k k n
  let B21 := subBlock Br k n 0 k
  let B22 := subBlock Br k n k n
  let S22 := subBlock Sr k n k n
  let K := matSub m m
    (matAdd m m (matMul m k m (matTr k m A12) (matTr m k B21)) (matMul m k m A21 B12))
    S22
  ⟨m, A22, B22, matTr m m A22, matTr m m B22, K, gmp, eps⟩

/-- Initial iterate of a run (§4.3): the barycenter `J/m`, a random
doubly-stochastic perturbation of it (the mean of the barycenter and a random
permutation matrix, drawn from `rng`), or the caller-supplied matrix reused
verbatim (§4.4). -/
def initMat (ini : InitStrategy) (rng : Nat → Nat) (runIdx m : Nat) : Mat :=
  match ini with
  | InitStrategy.barycenter => mkMat m m (fun _ _ => mkRat 1 m)
  | InitStrategy.explicitM P => P
  | InitStrategy.rand =>
      let sig := fyShuffle (fun t => rng (runIdx * 1000003 + t)) (List.range m)
      matSmul m m (mkRat 1 2) (matAdd m m (mkMat m m (fun _ _ => mkRat 1 m)) (permToMat sig))

/-- The full working permutation: identity on the `k` seeds, then the block
permutation `q` shifted past the seeds. -/
def fullPerm (k : Nat) (q : List Nat) : List Nat :=
  List.range k ++ q.map (fun x => x + k)

/-- Exact objective value of a hard assignment `w` on the working matrices
(§4.1, with the minimising sign policy pinned by the §8 benchmarks). -/
def scoreOf (Ar Br Sr : Mat) (n : Nat) (w : List Nat) : ℚ :=
  qsub
    (rsum n (fun i => rsum n (fun j =>
      qmul (mget Ar i j) (mget Br (w.getD i 0) (w.getD j 0)))))
    (rsum n (fun i => mget Sr i (w.getD i 0)))

/-- One multi-start restart (§4.4): run the optimizer from this restart's
initial iterate and score its projected permutation. -/
def oneRun (cfg : Config) (rng : Nat → Nat) (Ar Br Sr : Mat) (k n : Nat)
    (runIdx : Nat) : List Nat × ℚ × Nat :=
  let ctx := mkCtx Ar Br Sr k n cfg.gmp cfg.eps
  let r := fwRun ctx cfg.max_iter (initMat cfg.init rng runIdx (n - k))
  let w := fullPerm k r.1
  (w, scoreOf Ar Br Sr n w, r.2)

/-- Multi-start driver (§4.4): `n_init` restarts, keep the lowest score,
ties resolved by first found. -/
def multiStart (cfg : Config) (rng : Nat → Nat) (Ar Br Sr : Mat) (k n : Nat) :
    List Nat × ℚ × Nat :=
  let runs := (List.range cfg.n_init).map (oneRun cfg rng Ar Br Sr k n)
  match runs with
  | [] => ([], 0, 0)
  | r0 :: rest => rest.foldl (fun best r => if r.2.1 < best.2.1 then r else best) r0

/-- Map the working permutation `w` back to the caller's original index
space: original vertex `rA i` of graph A is matched to original vertex
`rB (w i)` of graph B (§4.5). -/
def assemble (rA rB : List Nat) (n : Nat) (w : List Nat) : List Nat :=
  (List.range n).map
    (fun v => rB.getD (w.getD (rA.findIdx (fun x => x == v)) 0) 0)

/-- Post-validation pipeline: reindex the padded matrices so seeds lead,
run the multi-start driver, and assemble the result (§4.5). -/
def solve (cfg : Config) (rng : Nat → Nat) (Ap Bp Sp : Mat)
    (sa sb : List Nat) (n : Nat) : Except Err MatchResult :=
  let k := sa.length
  if ¬ initOk cfg.init (n - k) then Except.error Err.valueError
  else
    let rA := reindex sa (runOrder cfg.shuffle_input (fun t => rng (2 * t)) sa n)
    let rB := reindex sb (runOrder cfg.shuffle_input (fun t => rng (2 * t + 1)) sb n)
    let Ar := applyReindex n rA Ap
    let Br := applyReindex n rB Bp
    let Sr := applyReindex2 n rA rB Sp
    let best := multiStart cfg rng Ar Br Sr k n
    Except.ok ⟨assemble rA rB n best.1, best.2.1, best.2.2⟩

/-- The match call `fit(A, B, seeds_A, seeds_B, S)` (§4.5): eager validation
(square inputs, then seeds, then the padding precondition of §4.1, then the
similarity shape), padding to the common size, then the solver pipeline.
`rng` is the random stream feeding the `rand` initializer and the optional
input shuffling; it is ignored on every other path. -/
def fit (cfg : Config) (rng : Nat → Nat) (A B : Mat) (sA sB : List Int)
    (S : Option Mat) : Except Err MatchResult :=
  if ¬ (isSquare A ∧ isSquare B) then Except.error Err.valueError
  else
    let n := max A.length B.length
    if ¬ seedsOk sA sB n then Except.error Err.valueError
    else if A.length = 0 ∧ B.length = 0 then Except.error Err.shapeError
    else if ¬ simOk S n then Except.error Err.valueError
    else
      solve cfg rng (pad cfg.padding A n) (pad cfg.padding B n)
        ((S.getD (mkMat n n (fun _ _ => 0))))
        (sA.map Int.toNat) (sB.map Int.toNat) n

end Graspologic

namespace Graspologic

/-! ### Constructor-time validation (§4.5, §6)

Modelled from the spec: the parameter table of §4.5 with the §6 defaults.
Python-level argument values are embedded as a small sum type recording the
distinctions the table draws (integer / float / boolean / other); the
string-valued `init` and `padding` parameters are embedded as sum types with
an explicit "unrecognized string" and (for padding) "non-string" case. -/

/-- A Python scalar argument as far as validation can see it. -/
inductive PyVal where
  | int (i : Int)
  | float (q : ℚ)
  | bool (b : Bool)
  | other
deriving DecidableEq

/-- The `init` argument: one of the two recognised strings, an explicit
matrix, or an unrecognised string. -/
inductive InitArg where
  | barycenter
  | rand
  | custom (P : Mat)
  | otherString
deriving DecidableEq

/-- The `padding` argument. -/
inductive PadArg where
  | naive
  | adopted
  | otherString
  | nonString
deriving DecidableEq

/-- Is the value a (strictly) positive number? -/
def isPosNum (v : PyVal) : Prop :=
  match v with
  | PyVal.int i => 0 < i
  | PyVal.float q => qlt 0 q
  | _ => False

instance (v : PyVal) : Decidable (isPosNum v) := by
  unfold isPosNum; cases v <;> infer_instance

/-- Constructor validation (§4.5 table): `n_init` integer ≥ 1 (`TypeError`
then `ValueError`), `init` recognised, `max_iter` integer, `shuffle_input`
boolean, `eps` a positive number else `TypeError`, `gmp` boolean, `padding`
a recognised string (`TypeError` if not a string, `ValueError` if
unrecognised). -/
def mkGraphMatch (n_init : PyVal) (init : InitArg) (max_iter : PyVal)
    (shuffle_input : PyVal) (eps : PyVal) (gmp : PyVal) (padding : PadArg) :
    Except Err Config :=
  match n_init with
  | PyVal.int ni =>
    if ni < 1 then Except.error Err.valueError
    else
      match init with
      | InitArg.otherString => Except.error Err.valueError
      | _ =>
        match max_iter with
        | PyVal.int mi =>
          match shuffle_input with
          | PyVal.bool sh =>
            if ¬ isPosNum eps then Except.error Err.typeError
            else
              match gmp with
              | PyVal.bool g =>
                match padding with
                | PadArg.nonString => Except.error Err.typeError
                | PadArg.otherString => Except.error Err.valueError
                | PadArg.naive =>
                  Except.ok ⟨ni.toNat, (match init with
                    | InitArg.rand => InitStrategy.rand
                    | InitArg.custom P => InitStrategy.explicitM P
                    | _ => InitStrategy.barycenter), mi.toNat, sh,
                    (match eps with
                      | PyVal.int i => mkRat i 1
                      | PyVal.float q => q
                      | _ => 0), g, PaddingMode.naive⟩
                | PadArg.adopted =>
                  Except.ok ⟨ni.toNat, (match init with
                    | InitArg.rand => InitStrategy.rand
                    | InitArg.custom P => InitStrategy.explicitM P
                    | _ => InitStrategy.barycenter), mi.toNat, sh,
                    (match eps with
                      | PyVal.int i => mkRat i 1
                      | PyVal.float q => q
                      | _ => 0), g, PaddingMode.adopted⟩
              | _ => Except.error Err.typeError
          | _ => Except.error Err.typeError
        | _ => Except.error Err.typeError
  | _ => Except.error Err.typeError

/-- The §6 default arguments of the `GraphMatch` constructor. -/
def defaultNInit : PyVal := PyVal.int 1
def defaultInit : InitArg := InitArg.barycenter
def defaultMaxIter : PyVal := PyVal.int 30
def defaultShuffle : PyVal := PyVal.bool false
def defaultEps : PyVal := PyVal.float (mkRat 1 10)
def defaultGmp : PyVal := PyVal.bool false
def defaultPadding : PadArg := PadArg.naive

/-- A 1-D or 2-D integer array, as the seed arguments arrive from Python. -/
inductive NdArray where
  | vec (xs : List Int)
  | mat (rows : List (List Int))
deriving DecidableEq

/-- `fit` on raw array seed inputs: non-1-D seed input fails with
`ValueError` before anything else is examined (§4.5, §8). -/
def fitNd (cfg : Config) (rng : Nat → Nat) (A B : Mat) (sA sB : NdArray)
    (S : Option Mat) : Except Err MatchResult :=
  match sA, sB with
  | NdArray.vec a, NdArray.vec b => fit cfg rng A B a b S
  | _, _ => Except.error Err.valueError

end Graspologic

namespace Graphstats

/-! ### The omnibus embedding module, embedded from
`src/graphstats/embed/omni.py`. -/

/-- A (rectangular) numpy array: a shape plus a total entry function. -/
structure NDMat where
  rows : Nat
  cols : Nat
  entry : Nat → Nat → ℚ

/-- The default (empty) array. -/
def ndDefault : NDMat := ⟨0, 0, fun _ _ => 0⟩

/-- `np.shape`. -/
def npShape (M : NDMat) : Nat × Nat := (M.rows, M.cols)

/-- `np.hstack(graphs)` for a list of same-shape arrays: concatenate along
the column axis. -/
def hstack (gs : List NDMat) : NDMat :=
  let w := (gs.getD 0 ndDefault).cols
  ⟨(gs.getD 0 ndDefault).rows, gs.length * w,
   fun r c => (gs.getD (c / w) ndDefault).entry r (c % w)⟩

/-- `np.vstack(graphs)` for a list of same-shape arrays: concatenate along
the row axis. -/
def vstack (gs : List NDMat) : NDMat :=
  let h := (gs.getD 0 ndDefault).rows
  ⟨gs.length * h, (gs.getD 0 ndDefault).cols,
   fun r c => (gs.getD (r / h) ndDefault).entry (r % h) c⟩

/-- `np.tile(X, (m, 1))`: stack `m` vertical copies. -/
def tileV (M : NDMat) (m : Nat) : NDMat :=
  ⟨m * M.rows, M.cols, fun r c => M.entry (r % M.rows) c⟩

/-- `np.tile(X, (1, m))`: stack `m` horizontal copies. -/
def tileH (M : NDMat) (m : Nat) : NDMat :=
  ⟨M.rows, m * M.cols, fun r c => M.entry r (c % M.cols)⟩

/-- `_get_omni_matrix(graphs)`:
`(np.tile(np.hstack(graphs), (n, 1)) + np.tile(np.vstack(graphs), (1, n))) / 2`
with `n = len(graphs)`. -/
def getOmniMatrix (gs : List NDMat) : NDMat :=
  let n := gs.length
  let X := tileV (hstack gs) n
  let Y := tileH (vstack gs) n
  ⟨X.rows, X.cols, fun r c => (X.entry r c + Y.entry r c) / 2⟩

/-- Python exception kinds observed by the module. -/
inductive PyErr where
  | valueError
  | nameError
deriving DecidableEq

/-- `_check_valid_graphs(graphs)`: collect the distinct shapes; more than
one distinct shape, or an empty input list, raises `ValueError`. -/
def checkValidGraphs (gs : List NDMat) : Except PyErr Unit :=
  let shapes := (gs.map npShape).dedup
  if 1 < shapes.length then Except.error PyErr.valueError
  else if shapes.length = 0 then Except.error PyErr.valueError
  else Except.ok ()

/-- The names bound or referenced during the execution of `omni.py`. -/
inductive PyName where
  | np
  | checkIsFitted
  | baseEmbed
  | importGraph
  | underCheckValidGraphs
  | underGetOmniMatrix
  | selectSVD
  | underReduceDim
  | omnibusEmbed
deriving DecidableEq

/-- A top-level statement of the module, as far as name binding and
class-creation-time evaluation are concerned: imports bind names, `def`s
bind their name, and a `class` statement evaluates its body — in particular
every default-argument expression of its methods — in the enclosing
(module) scope before binding the class name. -/
inductive Stmt where
  | importBinds (names : List PyName)
  | defBinds (name : PyName)
  | classStmt (name : PyName) (defaultArgRefs : List PyName)
deriving DecidableEq

/-- The top-level statements of `omni.py`, in source order: the four
imports, the two helper `def`s, then `class OmnibusEmbed`, whose
`__init__` signature `def __init__(self, method=selectSVD, ...)` evaluates
the name `selectSVD` at class-creation time. -/
def omniModule : List Stmt :=
  [Stmt.importBinds [PyName.np],
   Stmt.importBinds [PyName.checkIsFitted],
   Stmt.importBinds [PyName.baseEmbed],
   Stmt.importBinds [PyName.importGraph],
   Stmt.defBinds PyName.underCheckValidGraphs,
   Stmt.defBinds PyName.underGetOmniMatrix,
   Stmt.classStmt PyName.omnibusEmbed [PyName.selectSVD]]

/-- Execute one statement against the module environment. -/
def execStmt (env : List PyName) : Stmt → Except PyErr (List PyName)
  | Stmt.importBinds ns => Except.ok (ns ++ env)
  | Stmt.defBinds n => Except.ok (n :: env)
  | Stmt.classStmt n refs =>
    if refs.all (fun r => r ∈ env) then Except.ok (n :: env)
    else Except.error PyErr.nameError

/-- Execute a statement list (module import). -/
def execModule : List PyName → List Stmt → Except PyErr (List PyName)
  | env, [] => Except.ok env
  | env, s :: rest =>
    match execStmt env s with
    | Except.error e => Except.error e
    | Except.ok env' => execModule env' rest

/-- Every name ever bound by a statement of the module. -/
def boundNames (stmts : List Stmt) : List PyName :=
  stmts.foldl
    (fun acc s => match s with
      | Stmt.importBinds ns => ns ++ acc
      | Stmt.defBinds n => n :: acc
      | Stmt.classStmt n _ => n :: acc) []

end Graphstats

namespace Graphstats

/-- The shape, block-formula and symmetry description of the omnibus
matrix of a non-empty list of same-shape `n × n` graphs. -/
def omniBlockProp (gs : List NDMat) (n : Nat) : Prop :=
  npShape (getOmniMatrix gs) = (gs.length * n, gs.length * n) ∧
  (∀ i j a b, i < gs.length → j < gs.length → a < n → b < n →
    (getOmniMatrix gs).entry (i * n + a) (j * n + b) =
      ((gs.getD i ndDefault).entry a b + (gs.getD j ndDefault).entry a b) / 2) ∧
  ((∀ g ∈ gs, ∀ a b, g.entry a b = g.entry b a) →
    ∀ r c, r < gs.length * n → c < gs.length * n →
      (getOmniMatrix gs).entry r c = (getOmniMatrix gs).entry c r)

/-- A concrete 2 × 2 graph. -/
def omniG1 : NDMat := ⟨2, 2, fun r c => if r = c then 0 else 1⟩

/-- A second concrete 2 × 2 graph. -/
def omniG2 : NDMat := ⟨2, 2, fun r c => if r = c then 0 else 3⟩

/-- A concrete two-graph input list. -/
def omniW : List NDMat := [omniG1, omniG2]

end Graphstats


namespace Graspologic

def chr12cA : Mat :=
  [[0, 90, 10, 0, 0, 0, 0, 0, 0, 0, 0, 0],
   [90, 0, 0, 23, 0, 0, 0, 0, 0, 0, 0, 0],
   [10, 0, 0, 0, 43, 0, 0, 0, 0, 0, 0, 0],
   [0, 23, 0, 0, 0, 88, 0, 0, 0, 0, 0, 0],
   [0, 0, 43, 0, 0, 0, 26, 0, 0, 0, 0, 0],
   [0, 0, 0, 88, 0, 0, 0, 16, 0, 0, 0, 0],
   [0, 0, 0, 0, 26, 0, 0, 0, 1, 0, 0, 0],
   [0, 0, 0, 0, 0, 16, 0, 0, 0, 96, 0, 0],
   [0, 0, 0, 0, 0, 0, 1, 0, 0, 0, 29, 0],
   [0, 0, 0, 0, 0, 0, 0, 96, 0, 0, 0, 37],
   [0, 0, 0, 0, 0, 0, 0, 0, 29, 0, 0, 0],
   [0, 0, 0, 0, 0, 0, 0, 0, 0, 37, 0, 0]]

def chr12cB : Mat :=
  [[0, 36, 54, 26, 59, 72, 9, 34, 79, 17, 46, 95],
   [36, 0, 73, 35, 90, 58, 30, 78, 35, 44, 79, 36],
   [54, 73, 0, 21, 10, 97, 58, 66, 69, 61, 54, 63],
   [26, 35, 21, 0, 93, 12, 46, 40, 37, 48, 68, 85],
   [59, 90, 10, 93, 0, 64, 5, 29, 76, 16, 5, 76],
   [72, 58, 97, 12, 64, 0, 96, 55, 38, 54, 0, 34],
   [9, 30, 58, 46, 5, 96, 0, 83, 35, 11, 56, 37],
   [34, 78, 66, 40, 29, 55, 83, 0, 44, 12, 15, 80],
   [79, 35, 69, 37, 76, 38, 35, 44, 0, 64, 39, 33],
   [17, 44, 61, 48, 16, 54, 11, 12, 64, 0, 70, 86],
   [46, 79, 54, 68, 5, 0, 56, 15, 39, 70, 0, 18],
   [95, 36, 63, 85, 76, 34, 37, 80, 33, 86, 18, 0]]

/-- The optimal chr12c assignment (0-based), objective value 11156. -/
def chr12cPi : List Nat := [6, 4, 0, 2, 9, 3, 7, 5, 8, 10, 1, 11]

/-- A fixed, arbitrary random stream for closed theorem statements. -/
def rng0 : Nat → Nat := fun _ => 0

/-- The configuration of the custom-initializer chr12c run: `n_init = 1`,
the optimal permutation matrix as initializer, defaults elsewhere
(`shuffle_input = false` per §6). -/
def c2Config : Config :=
  ⟨1, InitStrategy.explicitM (permToMat chr12cPi), 30, false, mkRat 1 10, false,
   PaddingMode.naive⟩

end Graspologic

namespace Graspologic

/-- A second fixed random stream, distinct from `rng0`, for the
determinism statements. -/
def rng1 : Nat → Nat := fun _ => 1

/-- Barycenter-initialized configuration with naive padding and the §6
defaults elsewhere. -/
def baryNaiveCfg : Config :=
  ⟨1, InitStrategy.barycenter, 30, false, mkRat 1 10, false, PaddingMode.naive⟩

/-- Barycenter-initialized configuration with adopted padding and the §6
defaults elsewhere. -/
def baryAdoptedCfg : Config :=
  ⟨1, InitStrategy.barycenter, 30, false, mkRat 1 10, false, PaddingMode.adopted⟩

/-- A 4-vertex weighted graph for the padding counterexample. -/
def c5xA : Mat := [[0, 4, 9, 3], [4, 0, 6, 8], [9, 6, 0, 2], [3, 8, 2, 0]]

/-- `c5xA` with its last vertex removed. -/
def c5xB : Mat := [[0, 4, 9], [4, 0, 6], [9, 6, 0]]

/-- A 4-vertex weighted graph on which padded matching does recover the
identity correspondence. -/
def c5oA : Mat := [[0, 5, 5, 1], [5, 0, 5, 7], [5, 5, 0, 3], [1, 7, 3, 0]]

/-- `c5oA` with its last vertex removed. -/
def c5oB : Mat := [[0, 5, 5], [5, 0, 5], [5, 5, 0]]

/-- A 3-vertex graph for the similarity-shape scenario (matched against the
4-vertex `c4B`, so the post-padding common size is 4). -/
def c4A : Mat := [[0, 1, 2], [1, 0, 3], [2, 3, 0]]

/-- A 4-vertex graph for the similarity-shape scenario. -/
def c4B : Mat :=
  [[0, 1, 2, 3], [1, 0, 4, 5], [2, 4, 0, 6], [3, 5, 6, 0]]

/-- An all-ones similarity matrix of the post-padding shape `(4, 4)`. -/
def c4S : Mat := [[1, 1, 1, 1], [1, 1, 1, 1], [1, 1, 1, 1], [1, 1, 1, 1]]

/-- An all-ones similarity matrix of the pre-padding shape `(3, 3)` of the
smaller graph — the wrong shape once padding has been applied. -/
def c4Sbad : Mat := [[1, 1, 1], [1, 1, 1], [1, 1, 1]]

/-- A 4-vertex graph for the seeded-run witness. -/
def c3A : Mat := [[0, 7, 1, 2], [7, 0, 3, 5], [1, 3, 0, 4], [2, 5, 4, 0]]

/-- A second 4-vertex graph for the seeded-run witness. -/
def c3B : Mat := [[0, 2, 6, 1], [2, 0, 3, 4], [6, 3, 0, 8], [1, 4, 8, 0]]

/-- The result of the seeded witness run. -/
def c3Res : MatchResult := ⟨[1, 2, 3, 0], 174, 3⟩

end Graspologic

namespace Graspologic

/-- Non-seeded block of graph A in the C2 run (all of `chr12cA`). -/
def c2A22 : Mat :=
  [[(0 : ℚ), (90 : ℚ), (10 : ℚ), (0 : ℚ), (0 : ℚ), (0 : ℚ), (0 : ℚ), (0 : ℚ), (0 : ℚ), (0 : ℚ), (0 : ℚ), (0 : ℚ)],
   [(90 : ℚ), (0 : ℚ), (0 : ℚ), (23 : ℚ), (0 : ℚ), (0 : ℚ), (0 : ℚ), (0 : ℚ), (0 : ℚ), (0 : ℚ), (0 : ℚ), (0 : ℚ)],
   [(10 : ℚ), (0 : ℚ), (0 : ℚ), (0 : ℚ), (43 : ℚ), (0 : ℚ), (0 : ℚ), (0 : ℚ), (0 : ℚ), (0 : ℚ), (0 : ℚ), (0 : ℚ)],
   [(0 : ℚ), (23 : ℚ), (0 : ℚ), (0 : ℚ), (0 : ℚ), (88 : ℚ), (0 : ℚ), (0 : ℚ), (0 : ℚ), (0 : ℚ), (0 : ℚ), (0 : ℚ)],
   [(0 : ℚ), (0 : ℚ), (43 : ℚ), (0 : ℚ), (0 : ℚ), (0 : ℚ), (26 : ℚ), (0 : ℚ), (0 : ℚ), (0 : ℚ), (0 : ℚ), (0 : ℚ)],
   [(0 : ℚ), (0 : ℚ), (0 : ℚ), (88 : ℚ), (0 : ℚ), (0 : ℚ), (0 : ℚ), (16 : ℚ), (0 : ℚ), (0 : ℚ), (0 : ℚ), (0 : ℚ)],
   [(0 : ℚ), (0 : ℚ), (0 : ℚ), (0 : ℚ), (26 : ℚ), (0 : ℚ), (0 : ℚ), (0 : ℚ), (1 : ℚ), (0 : ℚ), (0 : ℚ), (0 : ℚ)],
   [(0 : ℚ), (0 : ℚ), (0 : ℚ), (0 : ℚ), (0 : ℚ), (16 : ℚ), (0 : ℚ), (0 : ℚ), (0 : ℚ), (96 : ℚ), (0 : ℚ), (0 : ℚ)],
   [(0 : ℚ), (0 : ℚ), (0 : ℚ), (0 : ℚ), (0 : ℚ), (0 : ℚ), (1 : ℚ), (0 : ℚ), (0 : ℚ), (0 : ℚ), (29 : ℚ), (0 : ℚ)],
   [(0 : ℚ), (0 : ℚ), (0 : ℚ), (0 : ℚ), (0 : ℚ), (0 : ℚ), (0 : ℚ), (96 : ℚ), (0 : ℚ), (0 : ℚ), (0 : ℚ), (37 : ℚ)],
   [(0 : ℚ), (0 : ℚ), (0 : ℚ), (0 : ℚ), (0 : ℚ), (0 : ℚ), (0 : ℚ), (0 : ℚ), (29 : ℚ), (0 : ℚ), (0 : ℚ), (0 : ℚ)],
   [(0 : ℚ), (0 : ℚ), (0 : ℚ), (0 : ℚ), (0 : ℚ), (0 : ℚ), (0 : ℚ), (0 : ℚ), (0 : ℚ), (37 : ℚ), (0 : ℚ), (0 : ℚ)]]

/-- Non-seeded block of graph B in the C2 run. -/
def c2B22 : Mat :=
  [[(0 : ℚ), (36 : ℚ), (54 : ℚ), (26 : ℚ), (59 : ℚ), (72 : ℚ), (9 : ℚ), (34 : ℚ), (79 : ℚ), (17 : ℚ), (46 : ℚ), (95 : ℚ)],
   [(36 : ℚ), (0 : ℚ), (73 : ℚ), (35 : ℚ), (90 : ℚ), (58 : ℚ), (30 : ℚ), (78 : ℚ), (35 : ℚ), (44 : ℚ), (79 : ℚ), (36 : ℚ)],
   [(54 : ℚ), (73 : ℚ), (0 : ℚ), (21 : ℚ), (10 : ℚ), (97 : ℚ), (58 : ℚ), (66 : ℚ), (69 : ℚ), (61 : ℚ), (54 : ℚ), (63 : ℚ)],
   [(26 : ℚ), (35 : ℚ), (21 : ℚ), (0 : ℚ), (93 : ℚ), (12 : ℚ), (46 : ℚ), (40 : ℚ), (37 : ℚ), (48 : ℚ), (68 : ℚ), (85 : ℚ)],
   [(59 : ℚ), (90 : ℚ), (10 : ℚ), (93 : ℚ), (0 : ℚ), (64 : ℚ), (5 : ℚ), (29 : ℚ), (76 : ℚ), (16 : ℚ), (5 : ℚ), (76 : ℚ)],
   [(72 : ℚ), (58 : ℚ), (97 : ℚ), (12 : ℚ), (64 : ℚ), (0 : ℚ), (96 : ℚ), (55 : ℚ), (38 : ℚ), (54 : ℚ), (0 : ℚ), (34 : ℚ)],
   [(9 : ℚ), (30 : ℚ), (58 : ℚ), (46 : ℚ), (5 : ℚ), (96 : ℚ), (0 : ℚ), (83 : ℚ), (35 : ℚ), (11 : ℚ), (56 : ℚ), (37 : ℚ)],
   [(34 : ℚ), (78 : ℚ), (66 : ℚ), (40 : ℚ), (29 : ℚ), (55 : ℚ), (83 : ℚ), (0 : ℚ), (44 : ℚ), (12 : ℚ), (15 : ℚ), (80 : ℚ)],
   [(79 : ℚ), (35 : ℚ), (69 : ℚ), (37 : ℚ), (76 : ℚ), (38 : ℚ), (35 : ℚ), (44 : ℚ), (0 : ℚ), (64 : ℚ), (39 : ℚ), (33 : ℚ)],
   [(17 : ℚ), (44 : ℚ), (61 : ℚ), (48 : ℚ), (16 : ℚ), (54 : ℚ), (11 : ℚ), (12 : ℚ), (64 : ℚ), (0 : ℚ), (70 : ℚ), (86 : ℚ)],
   [(46 : ℚ), (79 : ℚ), (54 : ℚ), (68 : ℚ), (5 : ℚ), (0 : ℚ), (56 : ℚ), (15 : ℚ), (39 : ℚ), (70 : ℚ), (0 : ℚ), (18 : ℚ)],
   [(95 : ℚ), (36 : ℚ), (63 : ℚ), (85 : ℚ), (76 : ℚ), (34 : ℚ), (37 : ℚ), (80 : ℚ), (33 : ℚ), (86 : ℚ), (18 : ℚ), (0 : ℚ)]]

/-- Transpose of `c2A22`. -/
def c2A22t : Mat :=
  [[(0 : ℚ), (90 : ℚ), (10 : ℚ), (0 : ℚ), (0 : ℚ), (0 : ℚ), (0 : ℚ), (0 : ℚ), (0 : ℚ), (0 : ℚ), (0 : ℚ), (0 : ℚ)],
   [(90 : ℚ), (0 : ℚ), (0 : ℚ), (23 : ℚ), (0 : ℚ), (0 : ℚ), (0 : ℚ), (0 : ℚ), (0 : ℚ), (0 : ℚ), (0 : ℚ), (0 : ℚ)],
   [(10 : ℚ), (0 : ℚ), (0 : ℚ), (0 : ℚ), (43 : ℚ), (0 : ℚ), (0 : ℚ), (0 : ℚ), (0 : ℚ), (0 : ℚ), (0 : ℚ), (0 : ℚ)],
   [(0 : ℚ), (23 : ℚ), (0 : ℚ), (0 : ℚ), (0 : ℚ), (88 : ℚ), (0 : ℚ), (0 : ℚ), (0 : ℚ), (0 : ℚ), (0 : ℚ), (0 : ℚ)],
   [(0 : ℚ), (0 : ℚ), (43 : ℚ), (0 : ℚ), (0 : ℚ), (0 : ℚ), (26 : ℚ), (0 : ℚ), (0 : ℚ), (0 : ℚ), (0 : ℚ), (0 : ℚ)],
   [(0 : ℚ), (0 : ℚ), (0 : ℚ), (88 : ℚ), (0 : ℚ), (0 : ℚ), (0 : ℚ), (16 : ℚ), (0 : ℚ), (0 : ℚ), (0 : ℚ), (0 : ℚ)],
   [(0 : ℚ), (0 : ℚ), (0 : ℚ), (0 : ℚ), (26 : ℚ), (0 : ℚ), (0 : ℚ), (0 : ℚ), (1 : ℚ), (0 : ℚ), (0 : ℚ), (0 : ℚ)],
   [(0 : ℚ), (0 : ℚ), (0 : ℚ), (0 : ℚ), (0 : ℚ), (16 : ℚ), (0 : ℚ), (0 : ℚ), (0 : ℚ), (96 : ℚ), (0 : ℚ), (0 : ℚ)],
   [(0 : ℚ), (0 : ℚ), (0 : ℚ), (0 : ℚ), (0 : ℚ), (0 : ℚ), (1 : ℚ), (0 : ℚ), (0 : ℚ), (0 : ℚ), (29 : ℚ), (0 : ℚ)],
   [(0 : ℚ), (0 : ℚ), (0 : ℚ), (0 : ℚ), (0 : ℚ), (0 : ℚ), (0 : ℚ), (96 : ℚ), (0 : ℚ), (0 : ℚ), (0 : ℚ), (37 : ℚ)],
   [(0 : ℚ), (0 : ℚ), (0 : ℚ), (0 : ℚ), (0 : ℚ), (0 : ℚ), (0 : ℚ), (0 : ℚ), (29 : ℚ), (0 : ℚ), (0 : ℚ), (0 : ℚ)],
   [(0 : ℚ), (0 : ℚ), (0 : ℚ), (0 : ℚ), (0 : ℚ), (0 : ℚ), (0 : ℚ), (0 : ℚ), (0 : ℚ), (37 : ℚ), (0 : ℚ), (0 : ℚ)]]

/-- Transpose of `c2B22`. -/
def c2B22t : Mat :=
  [[(0 : ℚ), (36 : ℚ), (54 : ℚ), (26 : ℚ), (59 : ℚ), (72 : ℚ), (9 : ℚ), (34 : ℚ), (79 : ℚ), (17 : ℚ), (46 : ℚ), (95 : ℚ)],
   [(36 : ℚ), (0 : ℚ), (73 : ℚ), (35 : ℚ), (90 : ℚ), (58 : ℚ), (30 : ℚ), (78 : ℚ), (35 : ℚ), (44 : ℚ), (79 : ℚ), (36 : ℚ)],
   [(54 : ℚ), (73 : ℚ), (0 : ℚ), (21 : ℚ), (10 : ℚ), (97 : ℚ), (58 : ℚ), (66 : ℚ), (69 : ℚ), (61 : ℚ), (54 : ℚ), (63 : ℚ)],
   [(26 : ℚ), (35 : ℚ), (21 : ℚ), (0 : ℚ), (93 : ℚ), (12 : ℚ), (46 : ℚ), (40 : ℚ), (37 : ℚ), (48 : ℚ), (68 : ℚ), (85 : ℚ)],
   [(59 : ℚ), (90 : ℚ), (10 : ℚ), (93 : ℚ), (0 : ℚ), (64 : ℚ), (5 : ℚ), (29 : ℚ), (76 : ℚ), (16 : ℚ), (5 : ℚ), (76 : ℚ)],
   [(72 : ℚ), (58 : ℚ), (97 : ℚ), (12 : ℚ), (64 : ℚ), (0 : ℚ), (96 : ℚ), (55 : ℚ), (38 : ℚ), (54 : ℚ), (0 : ℚ), (34 : ℚ)],
   [(9 : ℚ), (30 : ℚ), (58 : ℚ), (46 : ℚ), (5 : ℚ), (96 : ℚ), (0 : ℚ), (83 : ℚ), (35 : ℚ), (11 : ℚ), (56 : ℚ), (37 : ℚ)],
   [(34 : ℚ), (78 : ℚ), (66 : ℚ), (40 : ℚ), (29 : ℚ), (55 : ℚ), (83 : ℚ), (0 : ℚ), (44 : ℚ), (12 : ℚ), (15 : ℚ), (80 : ℚ)],
   [(79 : ℚ), (35 : ℚ), (69 : ℚ), (37 : ℚ), (76 : ℚ), (38 : ℚ), (35 : ℚ), (44 : ℚ), (0 : ℚ), (64 : ℚ), (39 : ℚ), (33 : ℚ)],
   [(17 : ℚ), (44 : ℚ), (61 : ℚ), (48 : ℚ), (16 : ℚ), (54 : ℚ), (11 : ℚ), (12 : ℚ), (64 : ℚ), (0 : ℚ), (70 : ℚ), (86 : ℚ)],
   [(46 : ℚ), (79 : ℚ), (54 : ℚ), (68 : ℚ), (5 : ℚ), (0 : ℚ), (56 : ℚ), (15 : ℚ), (39 : ℚ), (70 : ℚ), (0 : ℚ), (18 : ℚ)],
   [(95 : ℚ), (36 : ℚ), (63 : ℚ), (85 : ℚ), (76 : ℚ), (34 : ℚ), (37 : ℚ), (80 : ℚ), (33 : ℚ), (86 : ℚ), (18 : ℚ), (0 : ℚ)]]

/-- Seed-induced linear term of the C2 run (zero: no seeds, no similarity). -/
def c2K : Mat :=
  [[(0 : ℚ), (0 : ℚ), (0 : ℚ), (0 : ℚ), (0 : ℚ), (0 : ℚ), (0 : ℚ), (0 : ℚ), (0 : ℚ), (0 : ℚ), (0 : ℚ), (0 : ℚ)],
   [(0 : ℚ), (0 : ℚ), (0 : ℚ), (0 : ℚ), (0 : ℚ), (0 : ℚ), (0 : ℚ), (0 : ℚ), (0 : ℚ), (0 : ℚ), (0 : ℚ), (0 : ℚ)],
   [(0 : ℚ), (0 : ℚ), (0 : ℚ), (0 : ℚ), (0 : ℚ), (0 : ℚ), (0 : ℚ), (0 : ℚ), (0 : ℚ), (0 : ℚ), (0 : ℚ), (0 : ℚ)],
   [(0 : ℚ), (0 : ℚ), (0 : ℚ), (0 : ℚ), (0 : ℚ), (0 : ℚ), (0 : ℚ), (0 : ℚ), (0 : ℚ), (0 : ℚ), (0 : ℚ), (0 : ℚ)],
   [(0 : ℚ), (0 : ℚ), (0 : ℚ), (0 : ℚ), (0 : ℚ), (0 : ℚ), (0 : ℚ), (0 : ℚ), (0 : ℚ), (0 : ℚ), (0 : ℚ), (0 : ℚ)],
   [(0 : ℚ), (0 : ℚ), (0 : ℚ), (0 : ℚ), (0 : ℚ), (0 : ℚ), (0 : ℚ), (0 : ℚ), (0 : ℚ), (0 : ℚ), (0 : ℚ), (0 : ℚ)],
   [(0 : ℚ), (0 : ℚ), (0 : ℚ), (0 : ℚ), (0 : ℚ), (0 : ℚ), (0 : ℚ), (0 : ℚ), (0 : ℚ), (0 : ℚ), (0 : ℚ), (0 : ℚ)],
   [(0 : ℚ), (0 : ℚ), (0 : ℚ), (0 : ℚ), (0 : ℚ), (0 : ℚ), (0 : ℚ), (0 : ℚ), (0 : ℚ), (0 : ℚ), (0 : ℚ), (0 : ℚ)],
   [(0 : ℚ), (0 : ℚ), (0 : ℚ), (0 : ℚ), (0 : ℚ), (0 : ℚ), (0 : ℚ), (0 : ℚ), (0 : ℚ), (0 : ℚ), (0 : ℚ), (0 : ℚ)],
   [(0 : ℚ), (0 : ℚ), (0 : ℚ), (0 : ℚ), (0 : ℚ), (0 : ℚ), (0 : ℚ), (0 : ℚ), (0 : ℚ), (0 : ℚ), (0 : ℚ), (0 : ℚ)],
   [(0 : ℚ), (0 : ℚ), (0 : ℚ), (0 : ℚ), (0 : ℚ), (0 : ℚ), (0 : ℚ), (0 : ℚ), (0 : ℚ), (0 : ℚ), (0 : ℚ), (0 : ℚ)],
   [(0 : ℚ), (0 : ℚ), (0 : ℚ), (0 : ℚ), (0 : ℚ), (0 : ℚ), (0 : ℚ), (0 : ℚ), (0 : ℚ), (0 : ℚ), (0 : ℚ), (0 : ℚ)]]

/-- The Frank–Wolfe context of the chr12c custom-initializer run of C2 (no seeds, `m = 12`), as `mkCtx` evaluates it. -/
def c2Ctx : FWCtx :=
  ⟨12, c2A22, c2B22, c2A22t, c2B22t, c2K, false, mkRat 1 10⟩

/-- Initial iterate of the C2 run: the optimal permutation matrix. -/
def c2P0 : Mat :=
  [[(0 : ℚ), (0 : ℚ), (0 : ℚ), (0 : ℚ), (0 : ℚ), (0 : ℚ), (1 : ℚ), (0 : ℚ), (0 : ℚ), (0 : ℚ), (0 : ℚ), (0 : ℚ)],
   [(0 : ℚ), (0 : ℚ), (0 : ℚ), (0 : ℚ), (1 : ℚ), (0 : ℚ), (0 : ℚ), (0 : ℚ), (0 : ℚ), (0 : ℚ), (0 : ℚ), (0 : ℚ)],
   [(1 : ℚ), (0 : ℚ), (0 : ℚ), (0 : ℚ), (0 : ℚ), (0 : ℚ), (0 : ℚ), (0 : ℚ), (0 : ℚ), (0 : ℚ), (0 : ℚ), (0 : ℚ)],
   [(0 : ℚ), (0 : ℚ), (1 : ℚ), (0 : ℚ), (0 : ℚ), (0 : ℚ), (0 : ℚ), (0 : ℚ), (0 : ℚ), (0 : ℚ), (0 : ℚ), (0 : ℚ)],
   [(0 : ℚ), (0 : ℚ), (0 : ℚ), (0 : ℚ), (0 : ℚ), (0 : ℚ), (0 : ℚ), (0 : ℚ), (0 : ℚ), (1 : ℚ), (0 : ℚ), (0 : ℚ)],
   [(0 : ℚ), (0 : ℚ), (0 : ℚ), (1 : ℚ), (0 : ℚ), (0 : ℚ), (0 : ℚ), (0 : ℚ), (0 : ℚ), (0 : ℚ), (0 : ℚ), (0 : ℚ)],
   [(0 : ℚ), (0 : ℚ), (0 : ℚ), (0 : ℚ), (0 : ℚ), (0 : ℚ), (0 : ℚ), (1 : ℚ), (0 : ℚ), (0 : ℚ), (0 : ℚ), (0 : ℚ)],
   [(0 : ℚ), (0 : ℚ), (0 : ℚ), (0 : ℚ), (0 : ℚ), (1 : ℚ), (0 : ℚ), (0 : ℚ), (0 : ℚ), (0 : ℚ), (0 : ℚ), (0 : ℚ)],
   [(0 : ℚ), (0 : ℚ), (0 : ℚ), (0 : ℚ), (0 : ℚ), (0 : ℚ), (0 : ℚ), (0 : ℚ), (1 : ℚ), (0 : ℚ), (0 : ℚ), (0 : ℚ)],
   [(0 : ℚ), (0 : ℚ), (0 : ℚ), (0 : ℚ), (0 : ℚ), (0 : ℚ), (0 : ℚ), (0 : ℚ), (0 : ℚ), (0 : ℚ), (1 : ℚ), (0 : ℚ)],
   [(0 : ℚ), (1 : ℚ), (0 : ℚ), (0 : ℚ), (0 : ℚ), (0 : ℚ), (0 : ℚ), (0 : ℚ), (0 : ℚ), (0 : ℚ), (0 : ℚ), (0 : ℚ)],
   [(0 : ℚ), (0 : ℚ), (0 : ℚ), (0 : ℚ), (0 : ℚ), (0 : ℚ), (0 : ℚ), (0 : ℚ), (0 : ℚ), (0 : ℚ), (0 : ℚ), (1 : ℚ)]]

/-- Product `A22 · P` at iteration 0 of the C2 run. -/
def c2GA0 : Mat :=
  [[(10 : ℚ), (0 : ℚ), (0 : ℚ), (0 : ℚ), (90 : ℚ), (0 : ℚ), (0 : ℚ), (0 : ℚ), (0 : ℚ), (0 : ℚ), (0 : ℚ), (0 : ℚ)],
   [(0 : ℚ), (0 : ℚ), (23 : ℚ), (0 : ℚ), (0 : ℚ), (0 : ℚ), (90 : ℚ), (0 : ℚ), (0 : ℚ), (0 : ℚ), (0 : ℚ), (0 : ℚ)],
   [(0 : ℚ), (0 : ℚ), (0 : ℚ), (0 : ℚ), (0 : ℚ), (0 : ℚ), (10 : ℚ), (0 : ℚ), (0 : ℚ), (43 : ℚ), (0 : ℚ), (0 : ℚ)],
   [(0 : ℚ), (0 : ℚ), (0 : ℚ), (88 : ℚ), (23 : ℚ), (0 : ℚ), (0 : ℚ), (0 : ℚ), (0 : ℚ), (0 : ℚ), (0 : ℚ), (0 : ℚ)],
   [(43 : ℚ), (0 : ℚ), (0 : ℚ), (0 : ℚ), (0 : ℚ), (0 : ℚ), (0 : ℚ), (26 : ℚ), (0 : ℚ), (0 : ℚ), (0 : ℚ), (0 : ℚ)],
   [(0 : ℚ), (0 : ℚ), (88 : ℚ), (0 : ℚ), (0 : ℚ), (16 : ℚ), (0 : ℚ), (0 : ℚ), (0 : ℚ), (0 : ℚ), (0 : ℚ), (0 : ℚ)],
   [(0 : ℚ), (0 : ℚ), (0 : ℚ), (0 : ℚ), (0 : ℚ), (0 : ℚ), (0 : ℚ), (0 : ℚ), (1 : ℚ), (26 : ℚ), (0 : ℚ), (0 : ℚ)],
   [(0 : ℚ), (0 : ℚ), (0 : ℚ), (16 : ℚ), (0 : ℚ), (0 : ℚ), (0 : ℚ), (0 : ℚ), (0 : ℚ), (0 : ℚ), (96 : ℚ), (0 : ℚ)],
   [(0 : ℚ), (29 : ℚ), (0 : ℚ), (0 : ℚ), (0 : ℚ), (0 : ℚ), (0 : ℚ), (1 : ℚ), (0 : ℚ), (0 : ℚ), (0 : ℚ), (0 : ℚ)],
   [(0 : ℚ), (0 : ℚ), (0 : ℚ), (0 : ℚ), (0 : ℚ), (96 : ℚ), (0 : ℚ), (0 : ℚ), (0 : ℚ), (0 : ℚ), (0 : ℚ), (37 : ℚ)],
   [(0 : ℚ), (0 : ℚ), (0 : ℚ), (0 : ℚ), (0 : ℚ), (0 : ℚ), (0 : ℚ), (0 : ℚ), (29 : ℚ), (0 : ℚ), (0 : ℚ), (0 : ℚ)],
   [(0 : ℚ), (0 : ℚ), (0 : ℚ), (0 : ℚ), (0 : ℚ), (0 : ℚ), (0 : ℚ), (0 : ℚ), (0 : ℚ), (0 : ℚ), (37 : ℚ), (0 : ℚ)]]

/-- Product `A22 · P · B22` at iteration 0 of the C2 run. -/
def c2GAB0 : Mat :=
  [[(5310 : ℚ), (8460 : ℚ), (1440 : ℚ), (8630 : ℚ), (590 : ℚ), (6480 : ℚ), (540 : ℚ), (2950 : ℚ), (7630 : ℚ), (1610 : ℚ), (910 : ℚ), (7790 : ℚ)],
   [(2052 : ℚ), (4379 : ℚ), (5220 : ℚ), (4623 : ℚ), (680 : ℚ), (10871 : ℚ), (1334 : ℚ), (8988 : ℚ), (4737 : ℚ), (2393 : ℚ), (6282 : ℚ), (4779 : ℚ)],
   [(821 : ℚ), (2192 : ℚ), (3203 : ℚ), (2524 : ℚ), (738 : ℚ), (3282 : ℚ), (473 : ℚ), (1346 : ℚ), (3102 : ℚ), (110 : ℚ), (3570 : ℚ), (4068 : ℚ)],
   [(3645 : ℚ), (5150 : ℚ), (2078 : ℚ), (2139 : ℚ), (8184 : ℚ), (2528 : ℚ), (4163 : ℚ), (4187 : ℚ), (5004 : ℚ), (4592 : ℚ), (6099 : ℚ), (9228 : ℚ)],
   [(884 : ℚ), (3576 : ℚ), (4038 : ℚ), (2158 : ℚ), (3291 : ℚ), (4526 : ℚ), (2545 : ℚ), (1462 : ℚ), (4541 : ℚ), (1043 : ℚ), (2368 : ℚ), (6165 : ℚ)],
   [(5904 : ℚ), (7352 : ℚ), (1552 : ℚ), (2040 : ℚ), (1904 : ℚ), (8536 : ℚ), (6640 : ℚ), (6688 : ℚ), (6680 : ℚ), (6232 : ℚ), (4752 : ℚ), (6088 : ℚ)],
   [(521 : ℚ), (1179 : ℚ), (1655 : ℚ), (1285 : ℚ), (492 : ℚ), (1442 : ℚ), (321 : ℚ), (356 : ℚ), (1664 : ℚ), (64 : ℚ), (1859 : ℚ), (2269 : ℚ)],
   [(4832 : ℚ), (8144 : ℚ), (5520 : ℚ), (6528 : ℚ), (1968 : ℚ), (192 : ℚ), (6112 : ℚ), (2080 : ℚ), (4336 : ℚ), (7488 : ℚ), (1088 : ℚ), (3088 : ℚ)],
   [(1078 : ℚ), (78 : ℚ), (2183 : ℚ), (1055 : ℚ), (2639 : ℚ), (1737 : ℚ), (953 : ℚ), (2262 : ℚ), (1059 : ℚ), (1288 : ℚ), (2306 : ℚ), (1124 : ℚ)],
   [(10427 : ℚ), (6900 : ℚ), (11643 : ℚ), (4297 : ℚ), (8956 : ℚ), (1258 : ℚ), (10585 : ℚ), (8240 : ℚ), (4869 : ℚ), (8366 : ℚ), (666 : ℚ), (3264 : ℚ)],
   [(2291 : ℚ), (1015 : ℚ), (2001 : ℚ), (1073 : ℚ), (2204 : ℚ), (1102 : ℚ), (1015 : ℚ), (1276 : ℚ), (0 : ℚ), (1856 : ℚ), (1131 : ℚ), (957 : ℚ)],
   [(1702 : ℚ), (2923 : ℚ), (1998 : ℚ), (2516 : ℚ), (185 : ℚ), (0 : ℚ), (2072 : ℚ), (555 : ℚ), (1443 : ℚ), (2590 : ℚ), (0 : ℚ), (666 : ℚ)]]

/-- Product `A22ᵀ · P` at iteration 0 of the C2 run. -/
def c2GT0 : Mat :=
  [[(10 : ℚ), (0 : ℚ), (0 : ℚ), (0 : ℚ), (90 : ℚ), (0 : ℚ), (0 : ℚ), (0 : ℚ), (0 : ℚ), (0 : ℚ), (0 : ℚ), (0 : ℚ)],
   [(0 : ℚ), (0 : ℚ), (23 : ℚ), (0 : ℚ), (0 : ℚ), (0 : ℚ), (90 : ℚ), (0 : ℚ), (0 : ℚ), (0 : ℚ), (0 : ℚ), (0 : ℚ)],
   [(0 : ℚ), (0 : ℚ), (0 : ℚ), (0 : ℚ), (0 : ℚ), (0 : ℚ), (10 : ℚ), (0 : ℚ), (0 : ℚ), (43 : ℚ), (0 : ℚ), (0 : ℚ)],
   [(0 : ℚ), (0 : ℚ), (0 : ℚ), (88 : ℚ), (23 : ℚ), (0 : ℚ), (0 : ℚ), (0 : ℚ), (0 : ℚ), (0 : ℚ), (0 : ℚ), (0 : ℚ)],
   [(43 : ℚ), (0 : ℚ), (0 : ℚ), (0 : ℚ), (0 : ℚ), (0 : ℚ), (0 : ℚ), (26 : ℚ), (0 : ℚ), (0 : ℚ), (0 : ℚ), (0 : ℚ)],
   [(0 : ℚ), (0 : ℚ), (88 : ℚ), (0 : ℚ), (0 : ℚ), (16 : ℚ), (0 : ℚ), (0 : ℚ), (0 : ℚ), (0 : ℚ), (0 : ℚ), (0 : ℚ)],
   [(0 : ℚ), (0 : ℚ), (0 : ℚ), (0 : ℚ), (0 : ℚ), (0 : ℚ), (0 : ℚ), (0 : ℚ), (1 : ℚ), (26 : ℚ), (0 : ℚ), (0 : ℚ)],
   [(0 : ℚ), (0 : ℚ), (0 : ℚ), (16 : ℚ), (0 : ℚ), (0 : ℚ), (0 : ℚ), (0 : ℚ), (0 : ℚ), (0 : ℚ), (96 : ℚ), (0 : ℚ)],
   [(0 : ℚ), (29 : ℚ), (0 : ℚ), (0 : ℚ), (0 : ℚ), (0 : ℚ), (0 : ℚ), (1 : ℚ), (0 : ℚ), (0 : ℚ), (0 : ℚ), (0 : ℚ)],
   [(0 : ℚ), (0 : ℚ), (0 : ℚ), (0 : ℚ), (0 : ℚ), (96 : ℚ), (0 : ℚ), (0 : ℚ), (0 : ℚ), (0 : ℚ), (0 : ℚ), (37 : ℚ)],
   [(0 : ℚ), (0 : ℚ), (0 : ℚ), (0 : ℚ), (0 : ℚ), (0 : ℚ), (0 : ℚ), (0 : ℚ), (29 : ℚ), (0 : ℚ), (0 : ℚ), (0 : ℚ)],
   [(0 : ℚ), (0 : ℚ), (0 : ℚ), (0 : ℚ), (0 : ℚ), (0 : ℚ), (0 : ℚ), (0 : ℚ), (0 : ℚ), (0 : ℚ), (37 : ℚ), (0 : ℚ)]]

/-- Product `A22ᵀ · P · B22ᵀ` at iteration 0 of the C2 run. -/
def c2GTB0 : Mat :=
  [[(5310 : ℚ), (8460 : ℚ), (1440 : ℚ), (8630 : ℚ), (590 : ℚ), (6480 : ℚ), (540 : ℚ), (2950 : ℚ), (7630 : ℚ), (1610 : ℚ), (910 : ℚ), (7790 : ℚ)],
   [(2052 : ℚ), (4379 : ℚ), (5220 : ℚ), (4623 : ℚ), (680 : ℚ), (10871 : ℚ), (1334 : ℚ), (8988 : ℚ), (4737 : ℚ), (2393 : ℚ), (6282 : ℚ), (4779 : ℚ)],
   [(821 : ℚ), (2192 : ℚ), (3203 : ℚ), (2524 : ℚ), (738 : ℚ), (3282 : ℚ), (473 : ℚ), (1346 : ℚ), (3102 : ℚ), (110 : ℚ), (3570 : ℚ), (4068 : ℚ)],
   [(3645 : ℚ), (5150 : ℚ), (2078 : ℚ), (2139 : ℚ), (8184 : ℚ), (2528 : ℚ), (4163 : ℚ), (4187 : ℚ), (5004 : ℚ), (4592 : ℚ), (6099 : ℚ), (9228 : ℚ)],
   [(884 : ℚ), (3576 : ℚ), (4038 : ℚ), (2158 : ℚ), (3291 : ℚ), (4526 : ℚ), (2545 : ℚ), (1462 : ℚ), (4541 : ℚ), (1043 : ℚ), (2368 : ℚ), (6165 : ℚ)],
   [(5904 : ℚ), (7352 : ℚ), (1552 : ℚ), (2040 : ℚ), (1904 : ℚ), (8536 : ℚ), (6640 : ℚ), (6688 : ℚ), (6680 : ℚ), (6232 : ℚ), (4752 : ℚ), (6088 : ℚ)],
   [(521 : ℚ), (1179 : ℚ), (1655 : ℚ), (1285 : ℚ), (492 : ℚ), (1442 : ℚ), (321 : ℚ), (356 : ℚ), (1664 : ℚ), (64 : ℚ), (1859 : ℚ), (2269 : ℚ)],
   [(4832 : ℚ), (8144 : ℚ), (5520 : ℚ), (6528 : ℚ), (1968 : ℚ), (192 : ℚ), (6112 : ℚ), (2080 : ℚ), (4336 : ℚ), (7488 : ℚ), (1088 : ℚ), (3088 : ℚ)],
   [(1078 : ℚ), (78 : ℚ), (2183 : ℚ), (1055 : ℚ), (2639 : ℚ), (1737 : ℚ), (953 : ℚ), (2262 : ℚ), (1059 : ℚ), (1288 : ℚ), (2306 : ℚ), (1124 : ℚ)],
   [(10427 : ℚ), (6900 : ℚ), (11643 : ℚ), (4297 : ℚ), (8956 : ℚ), (1258 : ℚ), (10585 : ℚ), (8240 : ℚ), (4869 : ℚ), (8366 : ℚ), (666 : ℚ), (3264 : ℚ)],
   [(2291 : ℚ), (1015 : ℚ), (2001 : ℚ), (1073 : ℚ), (2204 : ℚ), (1102 : ℚ), (1015 : ℚ), (1276 : ℚ), (0 : ℚ), (1856 : ℚ), (1131 : ℚ), (957 : ℚ)],
   [(1702 : ℚ), (2923 : ℚ), (1998 : ℚ), (2516 : ℚ), (185 : ℚ), (0 : ℚ), (2072 : ℚ), (555 : ℚ), (1443 : ℚ), (2590 : ℚ), (0 : ℚ), (666 : ℚ)]]

/-- Cost matrix (gradient) of iteration 0 of the C2 run. -/
def c2C0 : Mat :=
  [[(10620 : ℚ), (16920 : ℚ), (2880 : ℚ), (17260 : ℚ), (1180 : ℚ), (12960 : ℚ), (1080 : ℚ), (5900 : ℚ), (15260 : ℚ), (3220 : ℚ), (1820 : ℚ), (15580 : ℚ)],
   [(4104 : ℚ), (8758 : ℚ), (10440 : ℚ), (9246 : ℚ), (1360 : ℚ), (21742 : ℚ), (2668 : ℚ), (17976 : ℚ), (9474 : ℚ), (4786 : ℚ), (12564 : ℚ), (9558 : ℚ)],
   [(1642 : ℚ), (4384 : ℚ), (6406 : ℚ), (5048 : ℚ), (1476 : ℚ), (6564 : ℚ), (946 : ℚ), (2692 : ℚ), (6204 : ℚ), (220 : ℚ), (7140 : ℚ), (8136 : ℚ)],
   [(7290 : ℚ), (10300 : ℚ), (4156 : ℚ), (4278 : ℚ), (16368 : ℚ), (5056 : ℚ), (8326 : ℚ), (8374 : ℚ), (10008 : ℚ), (9184 : ℚ), (12198 : ℚ), (18456 : ℚ)],
   [(1768 : ℚ), (7152 : ℚ), (8076 : ℚ), (4316 : ℚ), (6582 : ℚ), (9052 : ℚ), (5090 : ℚ), (2924 : ℚ), (9082 : ℚ), (2086 : ℚ), (4736 : ℚ), (12330 : ℚ)],
   [(11808 : ℚ), (14704 : ℚ), (3104 : ℚ), (4080 : ℚ), (3808 : ℚ), (17072 : ℚ), (13280 : ℚ), (13376 : ℚ), (13360 : ℚ), (12464 : ℚ), (9504 : ℚ), (12176 : ℚ)],
   [(1042 : ℚ), (2358 : ℚ), (3310 : ℚ), (2570 : ℚ), (984 : ℚ), (2884 : ℚ), (642 : ℚ), (712 : ℚ), (3328 : ℚ), (128 : ℚ), (3718 : ℚ), (4538 : ℚ)],
   [(9664 : ℚ), (16288 : ℚ), (11040 : ℚ), (13056 : ℚ), (3936 : ℚ), (384 : ℚ), (12224 : ℚ), (4160 : ℚ), (8672 : ℚ), (14976 : ℚ), (2176 : ℚ), (6176 : ℚ)],
   [(2156 : ℚ), (156 : ℚ), (4366 : ℚ), (2110 : ℚ), (5278 : ℚ), (3474 : ℚ), (1906 : ℚ), (4524 : ℚ), (2118 : ℚ), (2576 : ℚ), (4612 : ℚ), (2248 : ℚ)],
   [(20854 : ℚ), (13800 : ℚ), (23286 : ℚ), (8594 : ℚ), (17912 : ℚ), (2516 : ℚ), (21170 : ℚ), (16480 : ℚ), (9738 : ℚ), (16732 : ℚ), (1332 : ℚ), (6528 : ℚ)],
   [(4582 : ℚ), (2030 : ℚ), (4002 : ℚ), (2146 : ℚ), (4408 : ℚ), (2204 : ℚ), (2030 : ℚ), (2552 : ℚ), (0 : ℚ), (3712 : ℚ), (2262 : ℚ), (1914 : ℚ)],
   [(3404 : ℚ), (5846 : ℚ), (3996 : ℚ), (5032 : ℚ), (370 : ℚ), (0 : ℚ), (4144 : ℚ), (1110 : ℚ), (2886 : ℚ), (5180 : ℚ), (0 : ℚ), (1332 : ℚ)]]

/-- Assignment of iteration 0 of the C2 run. -/
def c2q0 : List Nat := [6, 4, 9, 3, 0, 2, 7, 5, 1, 10, 8, 11]

/-- Iterate 1 of the C2 run. -/
def c2P1 : Mat :=
  [[(0 : ℚ), (0 : ℚ), (0 : ℚ), (0 : ℚ), (0 : ℚ), (0 : ℚ), (1 : ℚ), (0 : ℚ), (0 : ℚ), (0 : ℚ), (0 : ℚ), (0 : ℚ)],
   [(0 : ℚ), (0 : ℚ), (0 : ℚ), (0 : ℚ), (1 : ℚ), (0 : ℚ), (0 : ℚ), (0 : ℚ), (0 : ℚ), (0 : ℚ), (0 : ℚ), (0 : ℚ)],
   [mkRat 11083 14376, (0 : ℚ), (0 : ℚ), (0 : ℚ), (0 : ℚ), (0 : ℚ), (0 : ℚ), (0 : ℚ), (0 : ℚ), mkRat 3293 14376, (0 : ℚ), (0 : ℚ)],
   [(0 : ℚ), (0 : ℚ), mkRat 11083 14376, mkRat 3293 14376, (0 : ℚ), (0 : ℚ), (0 : ℚ), (0 : ℚ), (0 : ℚ), (0 : ℚ), (0 : ℚ), (0 : ℚ)],
   [mkRat 3293 14376, (0 : ℚ), (0 : ℚ), (0 : ℚ), (0 : ℚ), (0 : ℚ), (0 : ℚ), (0 : ℚ), (0 : ℚ), mkRat 11083 14376, (0 : ℚ), (0 : ℚ)],
   [(0 : ℚ), (0 : ℚ), mkRat 3293 14376, mkRat 11083 14376, (0 : ℚ), (0 : ℚ), (0 : ℚ), (0 : ℚ), (0 : ℚ), (0 : ℚ), (0 : ℚ), (0 : ℚ)],
   [(0 : ℚ), (0 : ℚ), (0 : ℚ), (0 : ℚ), (0 : ℚ), (0 : ℚ), (0 : ℚ), (1 : ℚ), (0 : ℚ), (0 : ℚ), (0 : ℚ), (0 : ℚ)],
   [(0 : ℚ), (0 : ℚ), (0 : ℚ), (0 : ℚ), (0 : ℚ), (1 : ℚ), (0 : ℚ), (0 : ℚ), (0 : ℚ), (0 : ℚ), (0 : ℚ), (0 : ℚ)],
   [(0 : ℚ), mkRat 3293 14376, (0 : ℚ), (0 : ℚ), (0 : ℚ), (0 : ℚ), (0 : ℚ), (0 : ℚ), mkRat 11083 14376, (0 : ℚ), (0 : ℚ), (0 : ℚ)],
   [(0 : ℚ), (0 : ℚ), (0 : ℚ), (0 : ℚ), (0 : ℚ), (0 : ℚ), (0 : ℚ), (0 : ℚ), (0 : ℚ), (0 : ℚ), (1 : ℚ), (0 : ℚ)],
   [(0 : ℚ), mkRat 11083 14376, (0 : ℚ), (0 : ℚ), (0 : ℚ), (0 : ℚ), (0 : ℚ), (0 : ℚ), mkRat 3293 14376, (0 : ℚ), (0 : ℚ), (0 : ℚ)],
   [(0 : ℚ), (0 : ℚ), (0 : ℚ), (0 : ℚ), (0 : ℚ), (0 : ℚ), (0 : ℚ), (0 : ℚ), (0 : ℚ), (0 : ℚ), (0 : ℚ), (1 : ℚ)]]

/-- Squared Frobenius move of iteration 0 of the C2 run. -/
def c2d0 : ℚ := mkRat 10843849 17222448

/-- Hungarian state after row 1 of assignment 0 of the C2 run. -/
def c2K0R1 : LapState :=
  ⟨[(0 : ℚ), (1080 : ℚ), (0 : ℚ), (0 : ℚ), (0 : ℚ), (0 : ℚ), (0 : ℚ), (0 : ℚ), (0 : ℚ), (0 : ℚ), (0 : ℚ), (0 : ℚ), (0 : ℚ)],
  [(-1080 : ℚ), (0 : ℚ), (0 : ℚ), (0 : ℚ), (0 : ℚ), (0 : ℚ), (0 : ℚ), (0 : ℚ), (0 : ℚ), (0 : ℚ), (0 : ℚ), (0 : ℚ), (0 : ℚ)],
  [1, 0, 0, 0, 0, 0, 0, 1, 0, 0, 0, 0, 0], [0, 0, 0, 0, 0, 0, 0, 0, 0, 0, 0, 0, 0]⟩

/-- Hungarian state after row 2 of assignment 0 of the C2 run. -/
def c2K0R2 : LapState :=
  ⟨[(0 : ℚ), (1080 : ℚ), (1360 : ℚ), (0 : ℚ), (0 : ℚ), (0 : ℚ), (0 : ℚ), (0 : ℚ), (0 : ℚ), (0 : ℚ), (0 : ℚ), (0 : ℚ), (0 : ℚ)],
  [(-2440 : ℚ), (0 : ℚ), (0 : ℚ), (0 : ℚ), (0 : ℚ), (0 : ℚ), (0 : ℚ), (0 : ℚ), (0 : ℚ), (0 : ℚ), (0 : ℚ), (0 : ℚ), (0 : ℚ)],
  [2, 0, 0, 0, 0, 2, 0, 1, 0, 0, 0, 0, 0], [0, 0, 0, 0, 0, 0, 0, 0, 0, 0, 0, 0, 0]⟩

/-- Hungarian state after row 3 of assignment 0 of the C2 run. -/
def c2K0R3 : LapState :=
  ⟨[(0 : ℚ), (1080 : ℚ), (1360 : ℚ), (220 : ℚ), (0 : ℚ), (0 : ℚ), (0 : ℚ), (0 : ℚ), (0 : ℚ), (0 : ℚ), (0 : ℚ), (0 : ℚ), (0 : ℚ)],
  [(-2660 : ℚ), (0 : ℚ), (0 : ℚ), (0 : ℚ), (0 : ℚ), (0 : ℚ), (0 : ℚ), (0 : ℚ), (0 : ℚ), (0 : ℚ), (0 : ℚ), (0 : ℚ), (0 : ℚ)],
  [3, 0, 0, 0, 0, 2, 0, 1, 0, 0, 3, 0, 0], [0, 0, 0, 0, 0, 0, 0, 0, 0, 0, 0, 0, 0]⟩

/-- Hungarian state after row 4 of assignment 0 of the C2 run. -/
def c2K0R4 : LapState :=
  ⟨[(0 : ℚ), (1080 : ℚ), (1360 : ℚ), (220 : ℚ), (4156 : ℚ), (0 : ℚ), (0 : ℚ), (0 : ℚ), (0 : ℚ), (0 : ℚ), (0 : ℚ), (0 : ℚ), (0 : ℚ)],
  [(-6816 : ℚ), (0 : ℚ), (0 : ℚ), (0 : ℚ), (0 : ℚ), (0 : ℚ), (0 : ℚ), (0 : ℚ), (0 : ℚ), (0 : ℚ), (0 : ℚ), (0 : ℚ), (0 : ℚ)],
  [4, 0, 0, 4, 0, 2, 0, 1, 0, 0, 3, 0, 0], [0, 0, 0, 0, 0, 0, 0, 0, 0, 0, 0, 0, 0]⟩

/-- Hungarian state after row 5 of assignment 0 of the C2 run. -/
def c2K0R5 : LapState :=
  ⟨[(0 : ℚ), (1080 : ℚ), (1360 : ℚ), (220 : ℚ), (4156 : ℚ), (1768 : ℚ), (0 : ℚ), (0 : ℚ), (0 : ℚ), (0 : ℚ), (0 : ℚ), (0 : ℚ), (0 : ℚ)],
  [(-8584 : ℚ), (0 : ℚ), (0 : ℚ), (0 : ℚ), (0 : ℚ), (0 : ℚ), (0 : ℚ), (0 : ℚ), (0 : ℚ), (0 : ℚ), (0 : ℚ), (0 : ℚ), (0 : ℚ)],
  [5, 5, 0, 4, 0, 2, 0, 1, 0, 0, 3, 0, 0], [0, 0, 0, 0, 0, 0, 0, 0, 0, 0, 0, 0, 0]⟩

/-- Hungarian state after row 6 of assignment 0 of the C2 run. -/
def c2K0R6 : LapState :=
  ⟨[(0 : ℚ), (1080 : ℚ), (1360 : ℚ), (220 : ℚ), (4278 : ℚ), (1768 : ℚ), (3226 : ℚ), (0 : ℚ), (0 : ℚ), (0 : ℚ), (0 : ℚ), (0 : ℚ), (0 : ℚ)],
  [(-11810 : ℚ), (0 : ℚ), (0 : ℚ), (-122 : ℚ), (0 : ℚ), (0 : ℚ), (0 : ℚ), (0 : ℚ), (0 : ℚ), (0 : ℚ), (0 : ℚ), (0 : ℚ), (0 : ℚ)],
  [6, 5, 0, 6, 4, 2, 0, 1, 0, 0, 3, 0, 0], [0, 3, 3, 0, 3, 0, 3, 3, 3, 3, 3, 0, 0]⟩

/-- Hungarian state after row 7 of assignment 0 of the C2 run. -/
def c2K0R7 : LapState :=
  ⟨[(0 : ℚ), (1150 : ℚ), (1360 : ℚ), (804 : ℚ), (4278 : ℚ), (1768 : ℚ), (3226 : ℚ), (712 : ℚ), (0 : ℚ), (0 : ℚ), (0 : ℚ), (0 : ℚ), (0 : ℚ)],
  [(-12522 : ℚ), (0 : ℚ), (0 : ℚ), (-122 : ℚ), (0 : ℚ), (0 : ℚ), (0 : ℚ), (-70 : ℚ), (0 : ℚ), (0 : ℚ), (-584 : ℚ), (0 : ℚ), (0 : ℚ)],
  [7, 5, 0, 6, 4, 2, 0, 1, 7, 0, 3, 0, 0], [0, 0, 0, 7, 0, 7, 0, 0, 0, 0, 0, 7, 0]⟩

/-- Hungarian state after row 8 of assignment 0 of the C2 run. -/
def c2K0R8 : LapState :=
  ⟨[(0 : ℚ), (1150 : ℚ), (1360 : ℚ), (804 : ℚ), (4278 : ℚ), (1768 : ℚ), (3226 : ℚ), (712 : ℚ), (384 : ℚ), (0 : ℚ), (0 : ℚ), (0 : ℚ), (0 : ℚ)],
  [(-12906 : ℚ), (0 : ℚ), (0 : ℚ), (-122 : ℚ), (0 : ℚ), (0 : ℚ), (0 : ℚ), (-70 : ℚ), (0 : ℚ), (0 : ℚ), (-584 : ℚ), (0 : ℚ), (0 : ℚ)],
  [8, 5, 0, 6, 4, 2, 8, 1, 7, 0, 3, 0, 0], [0, 0, 0, 0, 0, 0, 0, 0, 0, 0, 0, 0, 0]⟩

/-- Hungarian state after row 9 of assignment 0 of the C2 run. -/
def c2K0R9 : LapState :=
  ⟨[(0 : ℚ), (1150 : ℚ), (1360 : ℚ), (804 : ℚ), (4278 : ℚ), (1768 : ℚ), (3226 : ℚ), (712 : ℚ), (384 : ℚ), (156 : ℚ), (0 : ℚ), (0 : ℚ), (0 : ℚ)],
  [(-13062 : ℚ), (0 : ℚ), (0 : ℚ), (-122 : ℚ), (0 : ℚ), (0 : ℚ), (0 : ℚ), (-70 : ℚ), (0 : ℚ), (0 : ℚ), (-584 : ℚ), (0 : ℚ), (0 : ℚ)],
  [9, 5, 9, 6, 4, 2, 8, 1, 7, 0, 3, 0, 0], [0, 0, 0, 0, 0, 0, 0, 0, 0, 0, 0, 0, 0]⟩

/-- Hungarian state after row 10 of assignment 0 of the C2 run. -/
def c2K0R10 : LapState :=
  ⟨[(0 : ℚ), (1150 : ℚ), (1360 : ℚ), (804 : ℚ), (4278 : ℚ), (1768 : ℚ), (3226 : ℚ), (712 : ℚ), (384 : ℚ), (156 : ℚ), (1332 : ℚ), (0 : ℚ), (0 : ℚ)],
  [(-14394 : ℚ), (0 : ℚ), (0 : ℚ), (-122 : ℚ), (0 : ℚ), (0 : ℚ), (0 : ℚ), (-70 : ℚ), (0 : ℚ), (0 : ℚ), (-584 : ℚ), (0 : ℚ), (0 : ℚ)],
  [10, 5, 9, 6, 4, 2, 8, 1, 7, 0, 3, 10, 0], [0, 0, 0, 0, 0, 0, 0, 0, 0, 0, 0, 0, 0]⟩

/-- Hungarian state after row 11 of assignment 0 of the C2 run. -/
def c2K0R11 : LapState :=
  ⟨[(0 : ℚ), (1150 : ℚ), (1360 : ℚ), (804 : ℚ), (4278 : ℚ), (1768 : ℚ), (3226 : ℚ), (712 : ℚ), (384 : ℚ), (156 : ℚ), (1332 : ℚ), (0 : ℚ), (0 : ℚ)],
  [(-14394 : ℚ), (0 : ℚ), (0 : ℚ), (-122 : ℚ), (0 : ℚ), (0 : ℚ), (0 : ℚ), (-70 : ℚ), (0 : ℚ), (0 : ℚ), (-584 : ℚ), (0 : ℚ), (0 : ℚ)],
  [11, 5, 9, 6, 4, 2, 8, 1, 7, 11, 3, 10, 0], [0, 0, 0, 0, 0, 0, 0, 0, 0, 0, 0, 0, 0]⟩

/-- Hungarian state after row 12 of assignment 0 of the C2 run. -/
def c2K0R12 : LapState :=
  ⟨[(0 : ℚ), (1372 : ℚ), (2322 : ℚ), (1026 : ℚ), (4278 : ℚ), (1768 : ℚ), (3226 : ℚ), (934 : ℚ), (1716 : ℚ), (156 : ℚ), (2664 : ℚ), (0 : ℚ), (1332 : ℚ)],
  [(-15726 : ℚ), (0 : ℚ), (0 : ℚ), (-122 : ℚ), (0 : ℚ), (-962 : ℚ), (-1332 : ℚ), (-292 : ℚ), (-222 : ℚ), (0 : ℚ), (-806 : ℚ), (-1332 : ℚ), (0 : ℚ)],
  [12, 5, 9, 6, 4, 2, 8, 1, 7, 11, 3, 10, 12], [0, 8, 8, 7, 8, 0, 0, 8, 0, 0, 8, 0, 0]⟩

/-- Step direction matrix `Q − P` at iteration 0 of the C2 run. -/
def c2R0 : Mat :=
  [[(0 : ℚ), (0 : ℚ), (0 : ℚ), (0 : ℚ), (0 : ℚ), (0 : ℚ), (0 : ℚ), (0 : ℚ), (0 : ℚ), (0 : ℚ), (0 : ℚ), (0 : ℚ)],
   [(0 : ℚ), (0 : ℚ), (0 : ℚ), (0 : ℚ), (0 : ℚ), (0 : ℚ), (0 : ℚ), (0 : ℚ), (0 : ℚ), (0 : ℚ), (0 : ℚ), (0 : ℚ)],
   [(-1 : ℚ), (0 : ℚ), (0 : ℚ), (0 : ℚ), (0 : ℚ), (0 : ℚ), (0 : ℚ), (0 : ℚ), (0 : ℚ), (1 : ℚ), (0 : ℚ), (0 : ℚ)],
   [(0 : ℚ), (0 : ℚ), (-1 : ℚ), (1 : ℚ), (0 : ℚ), (0 : ℚ), (0 : ℚ), (0 : ℚ), (0 : ℚ), (0 : ℚ), (0 : ℚ), (0 : ℚ)],
   [(1 : ℚ), (0 : ℚ), (0 : ℚ), (0 : ℚ), (0 : ℚ), (0 : ℚ), (0 : ℚ), (0 : ℚ), (0 : ℚ), (-1 : ℚ), (0 : ℚ), (0 : ℚ)],
   [(0 : ℚ), (0 : ℚ), (1 : ℚ), (-1 : ℚ), (0 : ℚ), (0 : ℚ), (0 : ℚ), (0 : ℚ), (0 : ℚ), (0 : ℚ), (0 : ℚ), (0 : ℚ)],
   [(0 : ℚ), (0 : ℚ), (0 : ℚ), (0 : ℚ), (0 : ℚ), (0 : ℚ), (0 : ℚ), (0 : ℚ), (0 : ℚ), (0 : ℚ), (0 : ℚ), (0 : ℚ)],
   [(0 : ℚ), (0 : ℚ), (0 : ℚ), (0 : ℚ), (0 : ℚ), (0 : ℚ), (0 : ℚ), (0 : ℚ), (0 : ℚ), (0 : ℚ), (0 : ℚ), (0 : ℚ)],
   [(0 : ℚ), (1 : ℚ), (0 : ℚ), (0 : ℚ), (0 : ℚ), (0 : ℚ), (0 : ℚ), (0 : ℚ), (-1 : ℚ), (0 : ℚ), (0 : ℚ), (0 : ℚ)],
   [(0 : ℚ), (0 : ℚ), (0 : ℚ), (0 : ℚ), (0 : ℚ), (0 : ℚ), (0 : ℚ), (0 : ℚ), (0 : ℚ), (0 : ℚ), (0 : ℚ), (0 : ℚ)],
   [(0 : ℚ), (-1 : ℚ), (0 : ℚ), (0 : ℚ), (0 : ℚ), (0 : ℚ), (0 : ℚ), (0 : ℚ), (1 : ℚ), (0 : ℚ), (0 : ℚ), (0 : ℚ)],
   [(0 : ℚ), (0 : ℚ), (0 : ℚ), (0 : ℚ), (0 : ℚ), (0 : ℚ), (0 : ℚ), (0 : ℚ), (0 : ℚ), (0 : ℚ), (0 : ℚ), (0 : ℚ)]]

/-- Transpose of `c2R0`. -/
def c2RT0 : Mat :=
  [[(0 : ℚ), (0 : ℚ), (-1 : ℚ), (0 : ℚ), (1 : ℚ), (0 : ℚ), (0 : ℚ), (0 : ℚ), (0 : ℚ), (0 : ℚ), (0 : ℚ), (0 : ℚ)],
   [(0 : ℚ), (0 : ℚ), (0 : ℚ), (0 : ℚ), (0 : ℚ), (0 : ℚ), (0 : ℚ), (0 : ℚ), (1 : ℚ), (0 : ℚ), (-1 : ℚ), (0 : ℚ)],
   [(0 : ℚ), (0 : ℚ), (0 : ℚ), (-1 : ℚ), (0 : ℚ), (1 : ℚ), (0 : ℚ), (0 : ℚ), (0 : ℚ), (0 : ℚ), (0 : ℚ), (0 : ℚ)],
   [(0 : ℚ), (0 : ℚ), (0 : ℚ), (1 : ℚ), (0 : ℚ), (-1 : ℚ), (0 : ℚ), (0 : ℚ), (0 : ℚ), (0 : ℚ), (0 : ℚ), (0 : ℚ)],
   [(0 : ℚ), (0 : ℚ), (0 : ℚ), (0 : ℚ), (0 : ℚ), (0 : ℚ), (0 : ℚ), (0 : ℚ), (0 : ℚ), (0 : ℚ), (0 : ℚ), (0 : ℚ)],
   [(0 : ℚ), (0 : ℚ), (0 : ℚ), (0 : ℚ), (0 : ℚ), (0 : ℚ), (0 : ℚ), (0 : ℚ), (0 : ℚ), (0 : ℚ), (0 : ℚ), (0 : ℚ)],
   [(0 : ℚ), (0 : ℚ), (0 : ℚ), (0 : ℚ), (0 : ℚ), (0 : ℚ), (0 : ℚ), (0 : ℚ), (0 : ℚ), (0 : ℚ), (0 : ℚ), (0 : ℚ)],
   [(0 : ℚ), (0 : ℚ), (0 : ℚ), (0 : ℚ), (0 : ℚ), (0 : ℚ), (0 : ℚ), (0 : ℚ), (0 : ℚ), (0 : ℚ), (0 : ℚ), (0 : ℚ)],
   [(0 : ℚ), (0 : ℚ), (0 : ℚ), (0 : ℚ), (0 : ℚ), (0 : ℚ), (0 : ℚ), (0 : ℚ), (-1 : ℚ), (0 : ℚ), (1 : ℚ), (0 : ℚ)],
   [(0 : ℚ), (0 : ℚ), (1 : ℚ), (0 : ℚ), (-1 : ℚ), (0 : ℚ), (0 : ℚ), (0 : ℚ), (0 : ℚ), (0 : ℚ), (0 : ℚ), (0 : ℚ)],
   [(0 : ℚ), (0 : ℚ), (0 : ℚ), (0 : ℚ), (0 : ℚ), (0 : ℚ), (0 : ℚ), (0 : ℚ), (0 : ℚ), (0 : ℚ), (0 : ℚ), (0 : ℚ)],
   [(0 : ℚ), (0 : ℚ), (0 : ℚ), (0 : ℚ), (0 : ℚ), (0 : ℚ), (0 : ℚ), (0 : ℚ), (0 : ℚ), (0 : ℚ), (0 : ℚ), (0 : ℚ)]]

/-- Product `R · B22ᵀ` at iteration 0 of the C2 run. -/
def c2M1x0 : Mat :=
  [[(0 : ℚ), (0 : ℚ), (0 : ℚ), (0 : ℚ), (0 : ℚ), (0 : ℚ), (0 : ℚ), (0 : ℚ), (0 : ℚ), (0 : ℚ), (0 : ℚ), (0 : ℚ)],
   [(0 : ℚ), (0 : ℚ), (0 : ℚ), (0 : ℚ), (0 : ℚ), (0 : ℚ), (0 : ℚ), (0 : ℚ), (0 : ℚ), (0 : ℚ), (0 : ℚ), (0 : ℚ)],
   [(17 : ℚ), (8 : ℚ), (7 : ℚ), (22 : ℚ), (-43 : ℚ), (-18 : ℚ), (2 : ℚ), (-22 : ℚ), (-15 : ℚ), (-17 : ℚ), (24 : ℚ), (-9 : ℚ)],
   [(-28 : ℚ), (-38 : ℚ), (21 : ℚ), (-21 : ℚ), (83 : ℚ), (-85 : ℚ), (-12 : ℚ), (-26 : ℚ), (-32 : ℚ), (-13 : ℚ), (14 : ℚ), (22 : ℚ)],
   [(-17 : ℚ), (-8 : ℚ), (-7 : ℚ), (-22 : ℚ), (43 : ℚ), (18 : ℚ), (-2 : ℚ), (22 : ℚ), (15 : ℚ), (17 : ℚ), (-24 : ℚ), (9 : ℚ)],
   [(28 : ℚ), (38 : ℚ), (-21 : ℚ), (21 : ℚ), (-83 : ℚ), (85 : ℚ), (12 : ℚ), (26 : ℚ), (32 : ℚ), (13 : ℚ), (-14 : ℚ), (-22 : ℚ)],
   [(0 : ℚ), (0 : ℚ), (0 : ℚ), (0 : ℚ), (0 : ℚ), (0 : ℚ), (0 : ℚ), (0 : ℚ), (0 : ℚ), (0 : ℚ), (0 : ℚ), (0 : ℚ)],
   [(0 : ℚ), (0 : ℚ), (0 : ℚ), (0 : ℚ), (0 : ℚ), (0 : ℚ), (0 : ℚ), (0 : ℚ), (0 : ℚ), (0 : ℚ), (0 : ℚ), (0 : ℚ)],
   [(-43 : ℚ), (-35 : ℚ), (4 : ℚ), (-2 : ℚ), (14 : ℚ), (20 : ℚ), (-5 : ℚ), (34 : ℚ), (35 : ℚ), (-20 : ℚ), (40 : ℚ), (3 : ℚ)],
   [(0 : ℚ), (0 : ℚ), (0 : ℚ), (0 : ℚ), (0 : ℚ), (0 : ℚ), (0 : ℚ), (0 : ℚ), (0 : ℚ), (0 : ℚ), (0 : ℚ), (0 : ℚ)],
   [(43 : ℚ), (35 : ℚ), (-4 : ℚ), (2 : ℚ), (-14 : ℚ), (-20 : ℚ), (5 : ℚ), (-34 : ℚ), (-35 : ℚ), (20 : ℚ), (-40 : ℚ), (-3 : ℚ)],
   [(0 : ℚ), (0 : ℚ), (0 : ℚ), (0 : ℚ), (0 : ℚ), (0 : ℚ), (0 : ℚ), (0 : ℚ), (0 : ℚ), (0 : ℚ), (0 : ℚ), (0 : ℚ)]]

/-- Product `R · B22ᵀ · Rᵀ` at iteration 0 of the C2 run. -/
def c2M2x0 : Mat :=
  [[(0 : ℚ), (0 : ℚ), (0 : ℚ), (0 : ℚ), (0 : ℚ), (0 : ℚ), (0 : ℚ), (0 : ℚ), (0 : ℚ), (0 : ℚ), (0 : ℚ), (0 : ℚ)],
   [(0 : ℚ), (0 : ℚ), (0 : ℚ), (0 : ℚ), (0 : ℚ), (0 : ℚ), (0 : ℚ), (0 : ℚ), (0 : ℚ), (0 : ℚ), (0 : ℚ), (0 : ℚ)],
   [(0 : ℚ), (0 : ℚ), (-34 : ℚ), (15 : ℚ), (34 : ℚ), (-15 : ℚ), (0 : ℚ), (0 : ℚ), (23 : ℚ), (0 : ℚ), (-23 : ℚ), (0 : ℚ)],
   [(0 : ℚ), (0 : ℚ), (15 : ℚ), (-42 : ℚ), (-15 : ℚ), (42 : ℚ), (0 : ℚ), (0 : ℚ), (-6 : ℚ), (0 : ℚ), (6 : ℚ), (0 : ℚ)],
   [(0 : ℚ), (0 : ℚ), (34 : ℚ), (-15 : ℚ), (-34 : ℚ), (15 : ℚ), (0 : ℚ), (0 : ℚ), (-23 : ℚ), (0 : ℚ), (23 : ℚ), (0 : ℚ)],
   [(0 : ℚ), (0 : ℚ), (-15 : ℚ), (42 : ℚ), (15 : ℚ), (-42 : ℚ), (0 : ℚ), (0 : ℚ), (6 : ℚ), (0 : ℚ), (-6 : ℚ), (0 : ℚ)],
   [(0 : ℚ), (0 : ℚ), (0 : ℚ), (0 : ℚ), (0 : ℚ), (0 : ℚ), (0 : ℚ), (0 : ℚ), (0 : ℚ), (0 : ℚ), (0 : ℚ), (0 : ℚ)],
   [(0 : ℚ), (0 : ℚ), (0 : ℚ), (0 : ℚ), (0 : ℚ), (0 : ℚ), (0 : ℚ), (0 : ℚ), (0 : ℚ), (0 : ℚ), (0 : ℚ), (0 : ℚ)],
   [(0 : ℚ), (0 : ℚ), (23 : ℚ), (-6 : ℚ), (-23 : ℚ), (6 : ℚ), (0 : ℚ), (0 : ℚ), (-70 : ℚ), (0 : ℚ), (70 : ℚ), (0 : ℚ)],
   [(0 : ℚ), (0 : ℚ), (0 : ℚ), (0 : ℚ), (0 : ℚ), (0 : ℚ), (0 : ℚ), (0 : ℚ), (0 : ℚ), (0 : ℚ), (0 : ℚ), (0 : ℚ)],
   [(0 : ℚ), (0 : ℚ), (-23 : ℚ), (6 : ℚ), (23 : ℚ), (-6 : ℚ), (0 : ℚ), (0 : ℚ), (70 : ℚ), (0 : ℚ), (-70 : ℚ), (0 : ℚ)],
   [(0 : ℚ), (0 : ℚ), (0 : ℚ), (0 : ℚ), (0 : ℚ), (0 : ℚ), (0 : ℚ), (0 : ℚ), (0 : ℚ), (0 : ℚ), (0 : ℚ), (0 : ℚ)]]

/-- Product `A22 · P` at iteration 1 of the C2 run. -/
def c2GA1 : Mat :=
  [[mkRat 55415 7188, (0 : ℚ), (0 : ℚ), (0 : ℚ), (90 : ℚ), (0 : ℚ), (0 : ℚ), (0 : ℚ), (0 : ℚ), mkRat 16465 7188, (0 : ℚ), (0 : ℚ)],
   [(0 : ℚ), (0 : ℚ), mkRat 254909 14376, mkRat 75739 14376, (0 : ℚ), (0 : ℚ), (90 : ℚ), (0 : ℚ), (0 : ℚ), (0 : ℚ), (0 : ℚ), (0 : ℚ)],
   [mkRat 141599 14376, (0 : ℚ), (0 : ℚ), (0 : ℚ), (0 : ℚ), (0 : ℚ), (10 : ℚ), (0 : ℚ), (0 : ℚ), mkRat 476569 14376, (0 : ℚ), (0 : ℚ)],
   [(0 : ℚ), (0 : ℚ), mkRat 36223 1797, mkRat 121913 1797, (23 : ℚ), (0 : ℚ), (0 : ℚ), (0 : ℚ), (0 : ℚ), (0 : ℚ), (0 : ℚ), (0 : ℚ)],
   [mkRat 476569 14376, (0 : ℚ), (0 : ℚ), (0 : ℚ), (0 : ℚ), (0 : ℚ), (0 : ℚ), (26 : ℚ), (0 : ℚ), mkRat 141599 14376, (0 : ℚ), (0 : ℚ)],
   [(0 : ℚ), (0 : ℚ), mkRat 121913 1797, mkRat 36223 1797, (0 : ℚ), (16 : ℚ), (0 : ℚ), (0 : ℚ), (0 : ℚ), (0 : ℚ), (0 : ℚ), (0 : ℚ)],
   [mkRat 42809 7188, mkRat 3293 14376, (0 : ℚ), (0 : ℚ), (0 : ℚ), (0 : ℚ), (0 : ℚ), (0 : ℚ), mkRat 11083 14376, mkRat 144079 7188, (0 : ℚ), (0 : ℚ)],
   [(0 : ℚ), (0 : ℚ), mkRat 6586 1797, mkRat 22166 1797, (0 : ℚ), (0 : ℚ), (0 : ℚ), (0 : ℚ), (0 : ℚ), (0 : ℚ), (96 : ℚ), (0 : ℚ)],
   [(0 : ℚ), mkRat 321407 14376, (0 : ℚ), (0 : ℚ), (0 : ℚ), (0 : ℚ), (0 : ℚ), (1 : ℚ), mkRat 95497 14376, (0 : ℚ), (0 : ℚ), (0 : ℚ)],
   [(0 : ℚ), (0 : ℚ), (0 : ℚ), (0 : ℚ), (0 : ℚ), (96 : ℚ), (0 : ℚ), (0 : ℚ), (0 : ℚ), (0 : ℚ), (0 : ℚ), (37 : ℚ)],
   [(0 : ℚ), mkRat 95497 14376, (0 : ℚ), (0 : ℚ), (0 : ℚ), (0 : ℚ), (0 : ℚ), (0 : ℚ), mkRat 321407 14376, (0 : ℚ), (0 : ℚ), (0 : ℚ)],
   [(0 : ℚ), (0 : ℚ), (0 : ℚ), (0 : ℚ), (0 : ℚ), (0 : ℚ), (0 : ℚ), (0 : ℚ), (0 : ℚ), (0 : ℚ), (37 : ℚ), (0 : ℚ)]]

/-- Product `A22 · P · B22` at iteration 1 of the C2 run. -/
def c2GAB1 : Mat :=
  [[mkRat 38448185 7188, mkRat 15235550 1797, mkRat 10465975 7188, mkRat 31197335 3594, mkRat 3532925 7188, mkRat 7713645 1198, mkRat 1957225 3594, mkRat 10421185 3594, mkRat 18199155 2396, mkRat 11292775 7188, mkRat 578020 599, mkRat 18615445 2396],
   [mkRat 6844715 3594, mkRat 30037211 7188, mkRat 25544413 4792, mkRat 21623243 4792, mkRat 16062017 14376, mkRat 149843681 14376, mkRat 1522393 1198, mkRat 63621137 7188, mkRat 8209433 1797, mkRat 33417161 14376, mkRat 45685189 7188, mkRat 35184581 7188],
   [mkRat 9395513 14376, mkRat 3797425 1797, mkRat 45055135 14376, mkRat 16584923 7188, mkRat 16698245 14376, mkRat 8288469 2396, mkRat 3258325 7188, mkRat 11232637 7188, mkRat 15572779 4792, mkRat 3988543 14376, mkRat 1996831 599, mkRat 19918653 4792],
   [mkRat 7564309 1797, mkRat 10631024 1797, mkRat 991161 599, mkRat 1534822 599, mkRat 11700139 1797, mkRat 7621771 1797, mkRat 2638529 599, mkRat 8465837 1797, mkRat 10151324 1797, mkRat 8722723 1797, mkRat 10452781 1797, mkRat 15785810 1797],
   [mkRat 15115567 14376, mkRat 6567671 1797, mkRat 59041481 14376, mkRat 17069293 7188, mkRat 41222659 14376, mkRat 10419499 2396, mkRat 18435059 7188, mkRat 8951267 7188, mkRat 21052477 4792, mkRat 12586985 14376, mkRat 1560031 599, mkRat 29117883 4792],
   [mkRat 9595244 1797, mkRat 11835070 1797, mkRat 1183209 599, mkRat 968399 599, mkRat 6427997 1797, mkRat 12260237 1797, mkRat 3832468 599, mkRat 11076538 1797, mkRat 10844824 1797, mkRat 10728005 1797, mkRat 9046466 1797, mkRat 11737042 1797],
   [mkRat 5892791 14376, mkRat 5383035 4792, mkRat 11603063 7188, mkRat 8291489 7188, mkRat 2700167 3594, mkRat 2792147 1797, mkRat 1475665 4792, mkRat 1185569 2396, mkRat 25321189 14376, mkRat 1154855 7188, mkRat 3100234 1797, mkRat 11133195 4792],
   [mkRat 8867512 1797, mkRat 14885036 1797, mkRat 3260378 599, mkRat 3956374 599, mkRat 2989858 1797, mkRat 904834 1797, mkRat 3687432 599, mkRat 3908996 1797, mkRat 8002544 1797, mkRat 13541554 1797, mkRat 1862932 1797, mkRat 5404244 1797],
   [mkRat 19603699 14376, mkRat 4463723 14376, mkRat 7750205 3594, mkRat 7678837 7188, mkRat 18300653 7188, mkRat 5765293 3594, mkRat 14177813 14376, mkRat 14635807 7188, mkRat 11881789 14376, mkRat 5106557 3594, mkRat 3666397 1797, mkRat 5290711 4792],
   [(10427 : ℚ), (6900 : ℚ), (11643 : ℚ), (4297 : ℚ), (8956 : ℚ), (1258 : ℚ), (10585 : ℚ), (8240 : ℚ), (4869 : ℚ), (8366 : ℚ), (666 : ℚ), (3264 : ℚ)],
   [mkRat 28829045 14376, mkRat 11249245 14376, mkRat 7287091 3594, mkRat 7617227 7188, mkRat 16510831 7188, mkRat 4438073 3594, mkRat 14114155 14376, mkRat 10795337 7188, mkRat 3342395 14376, mkRat 6192979 3594, mkRat 2509892 1797, mkRat 4681441 4792],
   [(1702 : ℚ), (2923 : ℚ), (1998 : ℚ), (2516 : ℚ), (185 : ℚ), (0 : ℚ), (2072 : ℚ), (555 : ℚ), (1443 : ℚ), (2590 : ℚ), (0 : ℚ), (666 : ℚ)]]

/-- Product `A22ᵀ · P` at iteration 1 of the C2 run. -/
def c2GT1 : Mat :=
  [[mkRat 55415 7188, (0 : ℚ), (0 : ℚ), (0 : ℚ), (90 : ℚ), (0 : ℚ), (0 : ℚ), (0 : ℚ), (0 : ℚ), mkRat 16465 7188, (0 : ℚ), (0 : ℚ)],
   [(0 : ℚ), (0 : ℚ), mkRat 254909 14376, mkRat 75739 14376, (0 : ℚ), (0 : ℚ), (90 : ℚ), (0 : ℚ), (0 : ℚ), (0 : ℚ), (0 : ℚ), (0 : ℚ)],
   [mkRat 141599 14376, (0 : ℚ), (0 : ℚ), (0 : ℚ), (0 : ℚ), (0 : ℚ), (10 : ℚ), (0 : ℚ), (0 : ℚ), mkRat 476569 14376, (0 : ℚ), (0 : ℚ)],
   [(0 : ℚ), (0 : ℚ), mkRat 36223 1797, mkRat 121913 1797, (23 : ℚ), (0 : ℚ), (0 : ℚ), (0 : ℚ), (0 : ℚ), (0 : ℚ), (0 : ℚ), (0 : ℚ)],
   [mkRat 476569 14376, (0 : ℚ), (0 : ℚ), (0 : ℚ), (0 : ℚ), (0 : ℚ), (0 : ℚ), (26 : ℚ), (0 : ℚ), mkRat 141599 14376, (0 : ℚ), (0 : ℚ)],
   [(0 : ℚ), (0 : ℚ), mkRat 121913 1797, mkRat 36223 1797, (0 : ℚ), (16 : ℚ), (0 : ℚ), (0 : ℚ), (0 : ℚ), (0 : ℚ), (0 : ℚ), (0 : ℚ)],
   [mkRat 42809 7188, mkRat 3293 14376, (0 : ℚ), (0 : ℚ), (0 : ℚ), (0 : ℚ), (0 : ℚ), (0 : ℚ), mkRat 11083 14376, mkRat 144079 7188, (0 : ℚ), (0 : ℚ)],
   [(0 : ℚ), (0 : ℚ), mkRat 6586 1797, mkRat 22166 1797, (0 : ℚ), (0 : ℚ), (0 : ℚ), (0 : ℚ), (0 : ℚ), (0 : ℚ), (96 : ℚ), (0 : ℚ)],
   [(0 : ℚ), mkRat 321407 14376, (0 : ℚ), (0 : ℚ), (0 : ℚ), (0 : ℚ), (0 : ℚ), (1 : ℚ), mkRat 95497 14376, (0 : ℚ), (0 : ℚ), (0 : ℚ)],
   [(0 : ℚ), (0 : ℚ), (0 : ℚ), (0 : ℚ), (0 : ℚ), (96 : ℚ), (0 : ℚ), (0 : ℚ), (0 : ℚ), (0 : ℚ), (0 : ℚ), (37 : ℚ)],
   [(0 : ℚ), mkRat 95497 14376, (0 : ℚ), (0 : ℚ), (0 : ℚ), (0 : ℚ), (0 : ℚ), (0 : ℚ), mkRat 321407 14376, (0 : ℚ), (0 : ℚ), (0 : ℚ)],
   [(0 : ℚ), (0 : ℚ), (0 : ℚ), (0 : ℚ), (0 : ℚ), (0 : ℚ), (0 : ℚ), (0 : ℚ), (0 : ℚ), (0 : ℚ), (37 : ℚ), (0 : ℚ)]]

/-- Product `A22ᵀ · P · B22ᵀ` at iteration 1 of the C2 run. -/
def c2GTB1 : Mat :=
  [[mkRat 38448185 7188, mkRat 15235550 1797, mkRat 10465975 7188, mkRat 31197335 3594, mkRat 3532925 7188, mkRat 7713645 1198, mkRat 1957225 3594, mkRat 10421185 3594, mkRat 18199155 2396, mkRat 11292775 7188, mkRat 578020 599, mkRat 18615445 2396],
   [mkRat 6844715 3594, mkRat 30037211 7188, mkRat 25544413 4792, mkRat 21623243 4792, mkRat 16062017 14376, mkRat 149843681 14376, mkRat 1522393 1198, mkRat 63621137 7188, mkRat 8209433 1797, mkRat 33417161 14376, mkRat 45685189 7188, mkRat 35184581 7188],
   [mkRat 9395513 14376, mkRat 3797425 1797, mkRat 45055135 14376, mkRat 16584923 7188, mkRat 16698245 14376, mkRat 8288469 2396, mkRat 3258325 7188, mkRat 11232637 7188, mkRat 15572779 4792, mkRat 3988543 14376, mkRat 1996831 599, mkRat 19918653 4792],
   [mkRat 7564309 1797, mkRat 10631024 1797, mkRat 991161 599, mkRat 1534822 599, mkRat 11700139 1797, mkRat 7621771 1797, mkRat 2638529 599, mkRat 8465837 1797, mkRat 10151324 1797, mkRat 8722723 1797, mkRat 10452781 1797, mkRat 15785810 1797],
   [mkRat 15115567 14376, mkRat 6567671 1797, mkRat 59041481 14376, mkRat 17069293 7188, mkRat 41222659 14376, mkRat 10419499 2396, mkRat 18435059 7188, mkRat 8951267 7188, mkRat 21052477 4792, mkRat 12586985 14376, mkRat 1560031 599, mkRat 29117883 4792],
   [mkRat 9595244 1797, mkRat 11835070 1797, mkRat 1183209 599, mkRat 968399 599, mkRat 6427997 1797, mkRat 12260237 1797, mkRat 3832468 599, mkRat 11076538 1797, mkRat 10844824 1797, mkRat 10728005 1797, mkRat 9046466 1797, mkRat 11737042 1797],
   [mkRat 5892791 14376, mkRat 5383035 4792, mkRat 11603063 7188, mkRat 8291489 7188, mkRat 2700167 3594, mkRat 2792147 1797, mkRat 1475665 4792, mkRat 1185569 2396, mkRat 25321189 14376, mkRat 1154855 7188, mkRat 3100234 1797, mkRat 11133195 4792],
   [mkRat 8867512 1797, mkRat 14885036 1797, mkRat 3260378 599, mkRat 3956374 599, mkRat 2989858 1797, mkRat 904834 1797, mkRat 3687432 599, mkRat 3908996 1797, mkRat 8002544 1797, mkRat 13541554 1797, mkRat 1862932 1797, mkRat 5404244 1797],
   [mkRat 19603699 14376, mkRat 4463723 14376, mkRat 7750205 3594, mkRat 7678837 7188, mkRat 18300653 7188, mkRat 5765293 3594, mkRat 14177813 14376, mkRat 14635807 7188, mkRat 11881789 14376, mkRat 5106557 3594, mkRat 3666397 1797, mkRat 5290711 4792],
   [(10427 : ℚ), (6900 : ℚ), (11643 : ℚ), (4297 : ℚ), (8956 : ℚ), (1258 : ℚ), (10585 : ℚ), (8240 : ℚ), (4869 : ℚ), (8366 : ℚ), (666 : ℚ), (3264 : ℚ)],
   [mkRat 28829045 14376, mkRat 11249245 14376, mkRat 7287091 3594, mkRat 7617227 7188, mkRat 16510831 7188, mkRat 4438073 3594, mkRat 14114155 14376, mkRat 10795337 7188, mkRat 3342395 14376, mkRat 6192979 3594, mkRat 2509892 1797, mkRat 4681441 4792],
   [(1702 : ℚ), (2923 : ℚ), (1998 : ℚ), (2516 : ℚ), (185 : ℚ), (0 : ℚ), (2072 : ℚ), (555 : ℚ), (1443 : ℚ), (2590 : ℚ), (0 : ℚ), (666 : ℚ)]]

/-- Cost matrix (gradient) of iteration 1 of the C2 run. -/
def c2C1 : Mat :=
  [[mkRat 38448185 3594, mkRat 30471100 1797, mkRat 10465975 3594, mkRat 31197335 1797, mkRat 3532925 3594, mkRat 7713645 599, mkRat 1957225 1797, mkRat 10421185 1797, mkRat 18199155 1198, mkRat 11292775 3594, mkRat 1156040 599, mkRat 18615445 1198],
   [mkRat 6844715 1797, mkRat 30037211 3594, mkRat 25544413 2396, mkRat 21623243 2396, mkRat 16062017 7188, mkRat 149843681 7188, mkRat 1522393 599, mkRat 63621137 3594, mkRat 16418866 1797, mkRat 33417161 7188, mkRat 45685189 3594, mkRat 35184581 3594],
   [mkRat 9395513 7188, mkRat 7594850 1797, mkRat 45055135 7188, mkRat 16584923 3594, mkRat 16698245 7188, mkRat 8288469 1198, mkRat 3258325 3594, mkRat 11232637 3594, mkRat 15572779 2396, mkRat 3988543 7188, mkRat 3993662 599, mkRat 19918653 2396],
   [mkRat 15128618 1797, mkRat 21262048 1797, mkRat 1982322 599, mkRat 3069644 599, mkRat 23400278 1797, mkRat 15243542 1797, mkRat 5277058 599, mkRat 16931674 1797, mkRat 20302648 1797, mkRat 17445446 1797, mkRat 20905562 1797, mkRat 31571620 1797],
   [mkRat 15115567 7188, mkRat 13135342 1797, mkRat 59041481 7188, mkRat 17069293 3594, mkRat 41222659 7188, mkRat 10419499 1198, mkRat 18435059 3594, mkRat 8951267 3594, mkRat 21052477 2396, mkRat 12586985 7188, mkRat 3120062 599, mkRat 29117883 2396],
   [mkRat 19190488 1797, mkRat 23670140 1797, mkRat 2366418 599, mkRat 1936798 599, mkRat 12855994 1797, mkRat 24520474 1797, mkRat 7664936 599, mkRat 22153076 1797, mkRat 21689648 1797, mkRat 21456010 1797, mkRat 18092932 1797, mkRat 23474084 1797],
   [mkRat 5892791 7188, mkRat 5383035 2396, mkRat 11603063 3594, mkRat 8291489 3594, mkRat 2700167 1797, mkRat 5584294 1797, mkRat 1475665 2396, mkRat 1185569 1198, mkRat 25321189 7188, mkRat 1154855 3594, mkRat 6200468 1797, mkRat 11133195 2396],
   [mkRat 17735024 1797, mkRat 29770072 1797, mkRat 6520756 599, mkRat 7912748 599, mkRat 5979716 1797, mkRat 1809668 1797, mkRat 7374864 599, mkRat 7817992 1797, mkRat 16005088 1797, mkRat 27083108 1797, mkRat 3725864 1797, mkRat 10808488 1797],
   [mkRat 19603699 7188, mkRat 4463723 7188, mkRat 7750205 1797, mkRat 7678837 3594, mkRat 18300653 3594, mkRat 5765293 1797, mkRat 14177813 7188, mkRat 14635807 3594, mkRat 11881789 7188, mkRat 5106557 1797, mkRat 7332794 1797, mkRat 5290711 2396],
   [(20854 : ℚ), (13800 : ℚ), (23286 : ℚ), (8594 : ℚ), (17912 : ℚ), (2516 : ℚ), (21170 : ℚ), (16480 : ℚ), (9738 : ℚ), (16732 : ℚ), (1332 : ℚ), (6528 : ℚ)],
   [mkRat 28829045 7188, mkRat 11249245 7188, mkRat 7287091 1797, mkRat 7617227 3594, mkRat 16510831 3594, mkRat 4438073 1797, mkRat 14114155 7188, mkRat 10795337 3594, mkRat 3342395 7188, mkRat 6192979 1797, mkRat 5019784 1797, mkRat 4681441 2396],
   [(3404 : ℚ), (5846 : ℚ), (3996 : ℚ), (5032 : ℚ), (370 : ℚ), (0 : ℚ), (4144 : ℚ), (1110 : ℚ), (2886 : ℚ), (5180 : ℚ), (0 : ℚ), (1332 : ℚ)]]

/-- Assignment of iteration 1 of the C2 run. -/
def c2q1 : List Nat := [6, 4, 9, 2, 0, 3, 7, 5, 1, 10, 8, 11]

/-- Iterate 2 of the C2 run. -/
def c2P2 : Mat :=
  [[(0 : ℚ), (0 : ℚ), (0 : ℚ), (0 : ℚ), (0 : ℚ), (0 : ℚ), (1 : ℚ), (0 : ℚ), (0 : ℚ), (0 : ℚ), (0 : ℚ), (0 : ℚ)],
   [(0 : ℚ), (0 : ℚ), (0 : ℚ), (0 : ℚ), (1 : ℚ), (0 : ℚ), (0 : ℚ), (0 : ℚ), (0 : ℚ), (0 : ℚ), (0 : ℚ), (0 : ℚ)],
   [mkRat 521409765115 938022628584, (0 : ℚ), (0 : ℚ), (0 : ℚ), (0 : ℚ), (0 : ℚ), (0 : ℚ), (0 : ℚ), (0 : ℚ), mkRat 416612863469 938022628584, (0 : ℚ), (0 : ℚ)],
   [(0 : ℚ), (0 : ℚ), mkRat 783100463419 938022628584, mkRat 154922165165 938022628584, (0 : ℚ), (0 : ℚ), (0 : ℚ), (0 : ℚ), (0 : ℚ), (0 : ℚ), (0 : ℚ), (0 : ℚ)],
   [mkRat 416612863469 938022628584, (0 : ℚ), (0 : ℚ), (0 : ℚ), (0 : ℚ), (0 : ℚ), (0 : ℚ), (0 : ℚ), (0 : ℚ), mkRat 521409765115 938022628584, (0 : ℚ), (0 : ℚ)],
   [(0 : ℚ), (0 : ℚ), mkRat 154922165165 938022628584, mkRat 783100463419 938022628584, (0 : ℚ), (0 : ℚ), (0 : ℚ), (0 : ℚ), (0 : ℚ), (0 : ℚ), (0 : ℚ), (0 : ℚ)],
   [(0 : ℚ), (0 : ℚ), (0 : ℚ), (0 : ℚ), (0 : ℚ), (0 : ℚ), (0 : ℚ), (1 : ℚ), (0 : ℚ), (0 : ℚ), (0 : ℚ), (0 : ℚ)],
   [(0 : ℚ), (0 : ℚ), (0 : ℚ), (0 : ℚ), (0 : ℚ), (1 : ℚ), (0 : ℚ), (0 : ℚ), (0 : ℚ), (0 : ℚ), (0 : ℚ), (0 : ℚ)],
   [(0 : ℚ), mkRat 416612863469 938022628584, (0 : ℚ), (0 : ℚ), (0 : ℚ), (0 : ℚ), (0 : ℚ), (0 : ℚ), mkRat 521409765115 938022628584, (0 : ℚ), (0 : ℚ), (0 : ℚ)],
   [(0 : ℚ), (0 : ℚ), (0 : ℚ), (0 : ℚ), (0 : ℚ), (0 : ℚ), (0 : ℚ), (0 : ℚ), (0 : ℚ), (0 : ℚ), (1 : ℚ), (0 : ℚ)],
   [(0 : ℚ), mkRat 521409765115 938022628584, (0 : ℚ), (0 : ℚ), (0 : ℚ), (0 : ℚ), (0 : ℚ), (0 : ℚ), mkRat 416612863469 938022628584, (0 : ℚ), (0 : ℚ), (0 : ℚ)],
   [(0 : ℚ), (0 : ℚ), (0 : ℚ), (0 : ℚ), (0 : ℚ), (0 : ℚ), (0 : ℚ), (0 : ℚ), (0 : ℚ), (0 : ℚ), (0 : ℚ), (1 : ℚ)]]

/-- Squared Frobenius move of iteration 1 of the C2 run. -/
def c2d1 : ℚ := mkRat 590257645360018941228 1527580645374369468481

/-- Hungarian state after row 1 of assignment 1 of the C2 run. -/
def c2K1R1 : LapState :=
  ⟨[(0 : ℚ), mkRat 3532925 3594, (0 : ℚ), (0 : ℚ), (0 : ℚ), (0 : ℚ), (0 : ℚ), (0 : ℚ), (0 : ℚ), (0 : ℚ), (0 : ℚ), (0 : ℚ), (0 : ℚ)],
  [mkRat (-3532925) 3594, (0 : ℚ), (0 : ℚ), (0 : ℚ), (0 : ℚ), (0 : ℚ), (0 : ℚ), (0 : ℚ), (0 : ℚ), (0 : ℚ), (0 : ℚ), (0 : ℚ), (0 : ℚ)],
  [1, 0, 0, 0, 0, 1, 0, 0, 0, 0, 0, 0, 0], [0, 0, 0, 0, 0, 0, 0, 0, 0, 0, 0, 0, 0]⟩

/-- Hungarian state after row 2 of assignment 1 of the C2 run. -/
def c2K1R2 : LapState :=
  ⟨[(0 : ℚ), mkRat 1957225 1797, mkRat 16825067 7188, (0 : ℚ), (0 : ℚ), (0 : ℚ), (0 : ℚ), (0 : ℚ), (0 : ℚ), (0 : ℚ), (0 : ℚ), (0 : ℚ), (0 : ℚ)],
  [mkRat (-7963639) 2396, (0 : ℚ), (0 : ℚ), (0 : ℚ), (0 : ℚ), mkRat (-127175) 1198, (0 : ℚ), (0 : ℚ), (0 : ℚ), (0 : ℚ), (0 : ℚ), (0 : ℚ), (0 : ℚ)],
  [2, 0, 0, 0, 0, 2, 0, 1, 0, 0, 0, 0, 0], [0, 0, 0, 5, 0, 0, 5, 5, 5, 0, 5, 5, 0]⟩

/-- Hungarian state after row 3 of assignment 1 of the C2 run. -/
def c2K1R3 : LapState :=
  ⟨[(0 : ℚ), mkRat 1957225 1797, mkRat 16825067 7188, mkRat 3988543 7188, (0 : ℚ), (0 : ℚ), (0 : ℚ), (0 : ℚ), (0 : ℚ), (0 : ℚ), (0 : ℚ), (0 : ℚ), (0 : ℚ)],
  [mkRat (-6969865) 1797, (0 : ℚ), (0 : ℚ), (0 : ℚ), (0 : ℚ), mkRat (-127175) 1198, (0 : ℚ), (0 : ℚ), (0 : ℚ), (0 : ℚ), (0 : ℚ), (0 : ℚ), (0 : ℚ)],
  [3, 0, 0, 0, 0, 2, 0, 1, 0, 0, 3, 0, 0], [0, 0, 0, 0, 0, 0, 0, 0, 0, 0, 0, 0, 0]⟩

/-- Hungarian state after row 4 of assignment 1 of the C2 run. -/
def c2K1R4 : LapState :=
  ⟨[(0 : ℚ), mkRat 1957225 1797, mkRat 16825067 7188, mkRat 3988543 7188, mkRat 1982322 599, (0 : ℚ), (0 : ℚ), (0 : ℚ), (0 : ℚ), (0 : ℚ), (0 : ℚ), (0 : ℚ), (0 : ℚ)],
  [mkRat (-12916831) 1797, (0 : ℚ), (0 : ℚ), (0 : ℚ), (0 : ℚ), mkRat (-127175) 1198, (0 : ℚ), (0 : ℚ), (0 : ℚ), (0 : ℚ), (0 : ℚ), (0 : ℚ), (0 : ℚ)],
  [4, 0, 0, 4, 0, 2, 0, 1, 0, 0, 3, 0, 0], [0, 0, 0, 0, 0, 0, 0, 0, 0, 0, 0, 0, 0]⟩

/-- Hungarian state after row 5 of assignment 1 of the C2 run. -/
def c2K1R5 : LapState :=
  ⟨[(0 : ℚ), mkRat 7829375 7188, mkRat 2804257 1198, mkRat 2172375 2396, mkRat 1982322 599, mkRat 15115567 7188, (0 : ℚ), (0 : ℚ), (0 : ℚ), (0 : ℚ), (0 : ℚ), (0 : ℚ), (0 : ℚ)],
  [mkRat (-66782891) 7188, (0 : ℚ), (0 : ℚ), (0 : ℚ), (0 : ℚ), mkRat (-763525) 7188, (0 : ℚ), mkRat (-475) 7188, (0 : ℚ), (0 : ℚ), mkRat (-1264291) 3594, (0 : ℚ), (0 : ℚ)],
  [5, 5, 0, 4, 0, 2, 0, 1, 0, 0, 3, 0, 0], [0, 0, 10, 7, 0, 7, 10, 10, 0, 10, 0, 7, 10]⟩

/-- Hungarian state after row 6 of assignment 1 of the C2 run. -/
def c2K1R6 : LapState :=
  ⟨[(0 : ℚ), mkRat 7829375 7188, mkRat 2804257 1198, mkRat 2172375 2396, mkRat 1982322 599, mkRat 15115567 7188, mkRat 1936798 599, (0 : ℚ), (0 : ℚ), (0 : ℚ), (0 : ℚ), (0 : ℚ), (0 : ℚ)],
  [mkRat (-90024467) 7188, (0 : ℚ), (0 : ℚ), (0 : ℚ), (0 : ℚ), mkRat (-763525) 7188, (0 : ℚ), mkRat (-475) 7188, (0 : ℚ), (0 : ℚ), mkRat (-1264291) 3594, (0 : ℚ), (0 : ℚ)],
  [6, 5, 0, 4, 6, 2, 0, 1, 0, 0, 3, 0, 0], [0, 0, 0, 0, 0, 0, 0, 0, 0, 0, 0, 0, 0]⟩

/-- Hungarian state after row 7 of assignment 1 of the C2 run. -/
def c2K1R7 : LapState :=
  ⟨[(0 : ℚ), mkRat 10515319 7188, mkRat 9755743 3594, mkRat 2930749 2396, mkRat 1982322 599, mkRat 8168095 3594, mkRat 1936798 599, mkRat 1185569 1198, (0 : ℚ), (0 : ℚ), (0 : ℚ), (0 : ℚ), (0 : ℚ)],
  [mkRat (-97137881) 7188, mkRat (-1220623) 7188, (0 : ℚ), (0 : ℚ), (0 : ℚ), mkRat (-1149823) 2396, (0 : ℚ), mkRat (-895473) 2396, (0 : ℚ), (0 : ℚ), mkRat (-1200926) 1797, (0 : ℚ), (0 : ℚ)],
  [7, 5, 0, 4, 6, 2, 0, 1, 7, 0, 3, 0, 0], [0, 0, 0, 7, 0, 7, 0, 0, 0, 0, 0, 7, 0]⟩

/-- Hungarian state after row 8 of assignment 1 of the C2 run. -/
def c2K1R8 : LapState :=
  ⟨[(0 : ℚ), mkRat 10515319 7188, mkRat 9755743 3594, mkRat 2930749 2396, mkRat 1982322 599, mkRat 8168095 3594, mkRat 1936798 599, mkRat 1185569 1198, mkRat 1809668 1797, (0 : ℚ), (0 : ℚ), (0 : ℚ), (0 : ℚ)],
  [mkRat (-104376553) 7188, mkRat (-1220623) 7188, (0 : ℚ), (0 : ℚ), (0 : ℚ), mkRat (-1149823) 2396, (0 : ℚ), mkRat (-895473) 2396, (0 : ℚ), (0 : ℚ), mkRat (-1200926) 1797, (0 : ℚ), (0 : ℚ)],
  [8, 5, 0, 4, 6, 2, 8, 1, 7, 0, 3, 0, 0], [0, 0, 0, 0, 0, 0, 0, 0, 0, 0, 0, 0, 0]⟩

/-- Hungarian state after row 9 of assignment 1 of the C2 run. -/
def c2K1R9 : LapState :=
  ⟨[(0 : ℚ), mkRat 10515319 7188, mkRat 9755743 3594, mkRat 2930749 2396, mkRat 1982322 599, mkRat 8168095 3594, mkRat 1936798 599, mkRat 1185569 1198, mkRat 1809668 1797, mkRat 4463723 7188, (0 : ℚ), (0 : ℚ), (0 : ℚ)],
  [mkRat (-9070023) 599, mkRat (-1220623) 7188, (0 : ℚ), (0 : ℚ), (0 : ℚ), mkRat (-1149823) 2396, (0 : ℚ), mkRat (-895473) 2396, (0 : ℚ), (0 : ℚ), mkRat (-1200926) 1797, (0 : ℚ), (0 : ℚ)],
  [9, 5, 9, 4, 6, 2, 8, 1, 7, 0, 3, 0, 0], [0, 0, 0, 0, 0, 0, 0, 0, 0, 0, 0, 0, 0]⟩

/-- Hungarian state after row 10 of assignment 1 of the C2 run. -/
def c2K1R10 : LapState :=
  ⟨[(0 : ℚ), mkRat 10515319 7188, mkRat 9755743 3594, mkRat 2930749 2396, mkRat 1982322 599, mkRat 8168095 3594, mkRat 1936798 599, mkRat 1185569 1198, mkRat 1809668 1797, mkRat 4463723 7188, (1332 : ℚ), (0 : ℚ), (0 : ℚ)],
  [mkRat (-9867891) 599, mkRat (-1220623) 7188, (0 : ℚ), (0 : ℚ), (0 : ℚ), mkRat (-1149823) 2396, (0 : ℚ), mkRat (-895473) 2396, (0 : ℚ), (0 : ℚ), mkRat (-1200926) 1797, (0 : ℚ), (0 : ℚ)],
  [10, 5, 9, 4, 6, 2, 8, 1, 7, 0, 3, 10, 0], [0, 0, 0, 0, 0, 0, 0, 0, 0, 0, 0, 0, 0]⟩

/-- Hungarian state after row 11 of assignment 1 of the C2 run. -/
def c2K1R11 : LapState :=
  ⟨[(0 : ℚ), mkRat 10515319 7188, mkRat 9755743 3594, mkRat 2930749 2396, mkRat 1982322 599, mkRat 8168095 3594, mkRat 1936798 599, mkRat 1185569 1198, mkRat 1809668 1797, mkRat 4463723 7188, (1332 : ℚ), mkRat 3342395 7188, (0 : ℚ)],
  [mkRat (-121757087) 7188, mkRat (-1220623) 7188, (0 : ℚ), (0 : ℚ), (0 : ℚ), mkRat (-1149823) 2396, (0 : ℚ), mkRat (-895473) 2396, (0 : ℚ), (0 : ℚ), mkRat (-1200926) 1797, (0 : ℚ), (0 : ℚ)],
  [11, 5, 9, 4, 6, 2, 8, 1, 7, 11, 3, 10, 0], [0, 0, 0, 0, 0, 0, 0, 0, 0, 0, 0, 0, 0]⟩

/-- Hungarian state after row 12 of assignment 1 of the C2 run. -/
def c2K1R12 : LapState :=
  ⟨[(0 : ℚ), mkRat 4179019 2396, mkRat 22976873 7188, mkRat 3462661 2396, mkRat 1982322 599, mkRat 8965963 3594, mkRat 1936798 599, mkRat 1451525 1198, mkRat 4203272 1797, mkRat 4463723 7188, (2664 : ℚ), mkRat 3342395 7188, (1332 : ℚ)],
  [mkRat (-131331503) 7188, mkRat (-2816359) 7188, (0 : ℚ), (0 : ℚ), (0 : ℚ), (-962 : ℚ), (-1332 : ℚ), mkRat (-4708157) 7188, (-222 : ℚ), (0 : ℚ), mkRat (-1599860) 1797, (-1332 : ℚ), (0 : ℚ)],
  [12, 5, 9, 4, 6, 2, 8, 1, 7, 11, 3, 10, 12], [0, 8, 8, 7, 8, 0, 0, 5, 0, 0, 8, 0, 0]⟩

/-- Step direction matrix `Q − P` at iteration 1 of the C2 run. -/
def c2R1 : Mat :=
  [[(0 : ℚ), (0 : ℚ), (0 : ℚ), (0 : ℚ), (0 : ℚ), (0 : ℚ), (0 : ℚ), (0 : ℚ), (0 : ℚ), (0 : ℚ), (0 : ℚ), (0 : ℚ)],
   [(0 : ℚ), (0 : ℚ), (0 : ℚ), (0 : ℚ), (0 : ℚ), (0 : ℚ), (0 : ℚ), (0 : ℚ), (0 : ℚ), (0 : ℚ), (0 : ℚ), (0 : ℚ)],
   [mkRat (-11083) 14376, (0 : ℚ), (0 : ℚ), (0 : ℚ), (0 : ℚ), (0 : ℚ), (0 : ℚ), (0 : ℚ), (0 : ℚ), mkRat 11083 14376, (0 : ℚ), (0 : ℚ)],
   [(0 : ℚ), (0 : ℚ), mkRat 3293 14376, mkRat (-3293) 14376, (0 : ℚ), (0 : ℚ), (0 : ℚ), (0 : ℚ), (0 : ℚ), (0 : ℚ), (0 : ℚ), (0 : ℚ)],
   [mkRat 11083 14376, (0 : ℚ), (0 : ℚ), (0 : ℚ), (0 : ℚ), (0 : ℚ), (0 : ℚ), (0 : ℚ), (0 : ℚ), mkRat (-11083) 14376, (0 : ℚ), (0 : ℚ)],
   [(0 : ℚ), (0 : ℚ), mkRat (-3293) 14376, mkRat 3293 14376, (0 : ℚ), (0 : ℚ), (0 : ℚ), (0 : ℚ), (0 : ℚ), (0 : ℚ), (0 : ℚ), (0 : ℚ)],
   [(0 : ℚ), (0 : ℚ), (0 : ℚ), (0 : ℚ), (0 : ℚ), (0 : ℚ), (0 : ℚ), (0 : ℚ), (0 : ℚ), (0 : ℚ), (0 : ℚ), (0 : ℚ)],
   [(0 : ℚ), (0 : ℚ), (0 : ℚ), (0 : ℚ), (0 : ℚ), (0 : ℚ), (0 : ℚ), (0 : ℚ), (0 : ℚ), (0 : ℚ), (0 : ℚ), (0 : ℚ)],
   [(0 : ℚ), mkRat 11083 14376, (0 : ℚ), (0 : ℚ), (0 : ℚ), (0 : ℚ), (0 : ℚ), (0 : ℚ), mkRat (-11083) 14376, (0 : ℚ), (0 : ℚ), (0 : ℚ)],
   [(0 : ℚ), (0 : ℚ), (0 : ℚ), (0 : ℚ), (0 : ℚ), (0 : ℚ), (0 : ℚ), (0 : ℚ), (0 : ℚ), (0 : ℚ), (0 : ℚ), (0 : ℚ)],
   [(0 : ℚ), mkRat (-11083) 14376, (0 : ℚ), (0 : ℚ), (0 : ℚ), (0 : ℚ), (0 : ℚ), (0 : ℚ), mkRat 11083 14376, (0 : ℚ), (0 : ℚ), (0 : ℚ)],
   [(0 : ℚ), (0 : ℚ), (0 : ℚ), (0 : ℚ), (0 : ℚ), (0 : ℚ), (0 : ℚ), (0 : ℚ), (0 : ℚ), (0 : ℚ), (0 : ℚ), (0 : ℚ)]]

/-- Transpose of `c2R1`. -/
def c2RT1 : Mat :=
  [[(0 : ℚ), (0 : ℚ), mkRat (-11083) 14376, (0 : ℚ), mkRat 11083 14376, (0 : ℚ), (0 : ℚ), (0 : ℚ), (0 : ℚ), (0 : ℚ), (0 : ℚ), (0 : ℚ)],
   [(0 : ℚ), (0 : ℚ), (0 : ℚ), (0 : ℚ), (0 : ℚ), (0 : ℚ), (0 : ℚ), (0 : ℚ), mkRat 11083 14376, (0 : ℚ), mkRat (-11083) 14376, (0 : ℚ)],
   [(0 : ℚ), (0 : ℚ), (0 : ℚ), mkRat 3293 14376, (0 : ℚ), mkRat (-3293) 14376, (0 : ℚ), (0 : ℚ), (0 : ℚ), (0 : ℚ), (0 : ℚ), (0 : ℚ)],
   [(0 : ℚ), (0 : ℚ), (0 : ℚ), mkRat (-3293) 14376, (0 : ℚ), mkRat 3293 14376, (0 : ℚ), (0 : ℚ), (0 : ℚ), (0 : ℚ), (0 : ℚ), (0 : ℚ)],
   [(0 : ℚ), (0 : ℚ), (0 : ℚ), (0 : ℚ), (0 : ℚ), (0 : ℚ), (0 : ℚ), (0 : ℚ), (0 : ℚ), (0 : ℚ), (0 : ℚ), (0 : ℚ)],
   [(0 : ℚ), (0 : ℚ), (0 : ℚ), (0 : ℚ), (0 : ℚ), (0 : ℚ), (0 : ℚ), (0 : ℚ), (0 : ℚ), (0 : ℚ), (0 : ℚ), (0 : ℚ)],
   [(0 : ℚ), (0 : ℚ), (0 : ℚ), (0 : ℚ), (0 : ℚ), (0 : ℚ), (0 : ℚ), (0 : ℚ), (0 : ℚ), (0 : ℚ), (0 : ℚ), (0 : ℚ)],
   [(0 : ℚ), (0 : ℚ), (0 : ℚ), (0 : ℚ), (0 : ℚ), (0 : ℚ), (0 : ℚ), (0 : ℚ), (0 : ℚ), (0 : ℚ), (0 : ℚ), (0 : ℚ)],
   [(0 : ℚ), (0 : ℚ), (0 : ℚ), (0 : ℚ), (0 : ℚ), (0 : ℚ), (0 : ℚ), (0 : ℚ), mkRat (-11083) 14376, (0 : ℚ), mkRat 11083 14376, (0 : ℚ)],
   [(0 : ℚ), (0 : ℚ), mkRat 11083 14376, (0 : ℚ), mkRat (-11083) 14376, (0 : ℚ), (0 : ℚ), (0 : ℚ), (0 : ℚ), (0 : ℚ), (0 : ℚ), (0 : ℚ)],
   [(0 : ℚ), (0 : ℚ), (0 : ℚ), (0 : ℚ), (0 : ℚ), (0 : ℚ), (0 : ℚ), (0 : ℚ), (0 : ℚ), (0 : ℚ), (0 : ℚ), (0 : ℚ)],
   [(0 : ℚ), (0 : ℚ), (0 : ℚ), (0 : ℚ), (0 : ℚ), (0 : ℚ), (0 : ℚ), (0 : ℚ), (0 : ℚ), (0 : ℚ), (0 : ℚ), (0 : ℚ)]]

/-- Product `R · B22ᵀ` at iteration 1 of the C2 run. -/
def c2M1x1 : Mat :=
  [[(0 : ℚ), (0 : ℚ), (0 : ℚ), (0 : ℚ), (0 : ℚ), (0 : ℚ), (0 : ℚ), (0 : ℚ), (0 : ℚ), (0 : ℚ), (0 : ℚ), (0 : ℚ)],
   [(0 : ℚ), (0 : ℚ), (0 : ℚ), (0 : ℚ), (0 : ℚ), (0 : ℚ), (0 : ℚ), (0 : ℚ), (0 : ℚ), (0 : ℚ), (0 : ℚ), (0 : ℚ)],
   [mkRat 188411 14376, mkRat 11083 1797, mkRat 77581 14376, mkRat 121913 7188, mkRat (-476569) 14376, mkRat (-33249) 2396, mkRat 11083 7188, mkRat (-121913) 7188, mkRat (-55415) 4792, mkRat (-188411) 14376, mkRat 11083 599, mkRat (-33249) 4792],
   [mkRat 23051 3594, mkRat 62567 7188, mkRat (-23051) 4792, mkRat 23051 4792, mkRat (-273319) 14376, mkRat 279905 14376, mkRat 3293 1198, mkRat 42809 7188, mkRat 13172 1797, mkRat 42809 14376, mkRat (-23051) 7188, mkRat (-36223) 7188],
   [mkRat (-188411) 14376, mkRat (-11083) 1797, mkRat (-77581) 14376, mkRat (-121913) 7188, mkRat 476569 14376, mkRat 33249 2396, mkRat (-11083) 7188, mkRat 121913 7188, mkRat 55415 4792, mkRat 188411 14376, mkRat (-11083) 599, mkRat 33249 4792],
   [mkRat (-23051) 3594, mkRat (-62567) 7188, mkRat 23051 4792, mkRat (-23051) 4792, mkRat 273319 14376, mkRat (-279905) 14376, mkRat (-3293) 1198, mkRat (-42809) 7188, mkRat (-13172) 1797, mkRat (-42809) 14376, mkRat 23051 7188, mkRat 36223 7188],
   [(0 : ℚ), (0 : ℚ), (0 : ℚ), (0 : ℚ), (0 : ℚ), (0 : ℚ), (0 : ℚ), (0 : ℚ), (0 : ℚ), (0 : ℚ), (0 : ℚ), (0 : ℚ)],
   [(0 : ℚ), (0 : ℚ), (0 : ℚ), (0 : ℚ), (0 : ℚ), (0 : ℚ), (0 : ℚ), (0 : ℚ), (0 : ℚ), (0 : ℚ), (0 : ℚ), (0 : ℚ)],
   [mkRat (-476569) 14376, mkRat (-387905) 14376, mkRat 11083 3594, mkRat (-11083) 7188, mkRat 77581 7188, mkRat 55415 3594, mkRat (-55415) 14376, mkRat 188411 7188, mkRat 387905 14376, mkRat (-55415) 3594, mkRat 55415 1797, mkRat 11083 4792],
   [(0 : ℚ), (0 : ℚ), (0 : ℚ), (0 : ℚ), (0 : ℚ), (0 : ℚ), (0 : ℚ), (0 : ℚ), (0 : ℚ), (0 : ℚ), (0 : ℚ), (0 : ℚ)],
   [mkRat 476569 14376, mkRat 387905 14376, mkRat (-11083) 3594, mkRat 11083 7188, mkRat (-77581) 7188, mkRat (-55415) 3594, mkRat 55415 14376, mkRat (-188411) 7188, mkRat (-387905) 14376, mkRat 55415 3594, mkRat (-55415) 1797, mkRat (-11083) 4792],
   [(0 : ℚ), (0 : ℚ), (0 : ℚ), (0 : ℚ), (0 : ℚ), (0 : ℚ), (0 : ℚ), (0 : ℚ), (0 : ℚ), (0 : ℚ), (0 : ℚ), (0 : ℚ)]]

/-- Product `R · B22ᵀ · Rᵀ` at iteration 1 of the C2 run. -/
def c2M2x1 : Mat :=
  [[(0 : ℚ), (0 : ℚ), (0 : ℚ), (0 : ℚ), (0 : ℚ), (0 : ℚ), (0 : ℚ), (0 : ℚ), (0 : ℚ), (0 : ℚ), (0 : ℚ), (0 : ℚ)],
   [(0 : ℚ), (0 : ℚ), (0 : ℚ), (0 : ℚ), (0 : ℚ), (0 : ℚ), (0 : ℚ), (0 : ℚ), (0 : ℚ), (0 : ℚ), (0 : ℚ), (0 : ℚ)],
   [(0 : ℚ), (0 : ℚ), mkRat (-2088159113) 103334688, mkRat (-182481595) 68889792, mkRat 2088159113 103334688, mkRat 182481595 68889792, (0 : ℚ), (0 : ℚ), mkRat 2825156447 206669376, (0 : ℚ), mkRat (-2825156447) 206669376, (0 : ℚ)],
   [(0 : ℚ), (0 : ℚ), mkRat (-182481595) 68889792, mkRat (-75906943) 34444896, mkRat 182481595 68889792, mkRat 75906943 34444896, (0 : ℚ), (0 : ℚ), mkRat 36496319 34444896, (0 : ℚ), mkRat (-36496319) 34444896, (0 : ℚ)],
   [(0 : ℚ), (0 : ℚ), mkRat 2088159113 103334688, mkRat 182481595 68889792, mkRat (-2088159113) 103334688, mkRat (-182481595) 68889792, (0 : ℚ), (0 : ℚ), mkRat (-2825156447) 206669376, (0 : ℚ), mkRat 2825156447 206669376, (0 : ℚ)],
   [(0 : ℚ), (0 : ℚ), mkRat 182481595 68889792, mkRat 75906943 34444896, mkRat (-182481595) 68889792, mkRat (-75906943) 34444896, (0 : ℚ), (0 : ℚ), mkRat (-36496319) 34444896, (0 : ℚ), mkRat 36496319 34444896, (0 : ℚ)],
   [(0 : ℚ), (0 : ℚ), (0 : ℚ), (0 : ℚ), (0 : ℚ), (0 : ℚ), (0 : ℚ), (0 : ℚ), (0 : ℚ), (0 : ℚ), (0 : ℚ), (0 : ℚ)],
   [(0 : ℚ), (0 : ℚ), (0 : ℚ), (0 : ℚ), (0 : ℚ), (0 : ℚ), (0 : ℚ), (0 : ℚ), (0 : ℚ), (0 : ℚ), (0 : ℚ), (0 : ℚ)],
   [(0 : ℚ), (0 : ℚ), mkRat 2825156447 206669376, mkRat 36496319 34444896, mkRat (-2825156447) 206669376, mkRat (-36496319) 34444896, (0 : ℚ), (0 : ℚ), mkRat (-4299151115) 103334688, (0 : ℚ), mkRat 4299151115 103334688, (0 : ℚ)],
   [(0 : ℚ), (0 : ℚ), (0 : ℚ), (0 : ℚ), (0 : ℚ), (0 : ℚ), (0 : ℚ), (0 : ℚ), (0 : ℚ), (0 : ℚ), (0 : ℚ), (0 : ℚ)],
   [(0 : ℚ), (0 : ℚ), mkRat (-2825156447) 206669376, mkRat (-36496319) 34444896, mkRat 2825156447 206669376, mkRat 36496319 34444896, (0 : ℚ), (0 : ℚ), mkRat 4299151115 103334688, (0 : ℚ), mkRat (-4299151115) 103334688, (0 : ℚ)],
   [(0 : ℚ), (0 : ℚ), (0 : ℚ), (0 : ℚ), (0 : ℚ), (0 : ℚ), (0 : ℚ), (0 : ℚ), (0 : ℚ), (0 : ℚ), (0 : ℚ), (0 : ℚ)]]

/-- Product `A22 · P` at iteration 2 of the C2 run. -/
def c2GA2 : Mat :=
  [[mkRat 2607048825575 469011314292, (0 : ℚ), (0 : ℚ), (0 : ℚ), (90 : ℚ), (0 : ℚ), (0 : ℚ), (0 : ℚ), (0 : ℚ), mkRat 2083064317345 469011314292, (0 : ℚ), (0 : ℚ)],
   [(0 : ℚ), (0 : ℚ), mkRat 18011310658637 938022628584, mkRat 3563209798795 938022628584, (0 : ℚ), (0 : ℚ), (90 : ℚ), (0 : ℚ), (0 : ℚ), (0 : ℚ), (0 : ℚ), (0 : ℚ)],
   [mkRat 17914353129167 938022628584, (0 : ℚ), (0 : ℚ), (0 : ℚ), (0 : ℚ), (0 : ℚ), (10 : ℚ), (0 : ℚ), (0 : ℚ), mkRat 22420619899945 938022628584, (0 : ℚ), (0 : ℚ)],
   [(0 : ℚ), (0 : ℚ), mkRat 1704143816815 117252828573, mkRat 8614105097609 117252828573, (23 : ℚ), (0 : ℚ), (0 : ℚ), (0 : ℚ), (0 : ℚ), (0 : ℚ), (0 : ℚ), (0 : ℚ)],
   [mkRat 22420619899945 938022628584, (0 : ℚ), (0 : ℚ), (0 : ℚ), (0 : ℚ), (0 : ℚ), (0 : ℚ), (26 : ℚ), (0 : ℚ), mkRat 17914353129167 938022628584, (0 : ℚ), (0 : ℚ)],
   [(0 : ℚ), (0 : ℚ), mkRat 8614105097609 117252828573, mkRat 1704143816815 117252828573, (0 : ℚ), (16 : ℚ), (0 : ℚ), (0 : ℚ), (0 : ℚ), (0 : ℚ), (0 : ℚ), (0 : ℚ)],
   [mkRat 5415967225097 469011314292, mkRat 416612863469 938022628584, (0 : ℚ), (0 : ℚ), (0 : ℚ), (0 : ℚ), (0 : ℚ), (0 : ℚ), mkRat 521409765115 938022628584, mkRat 6778326946495 469011314292, (0 : ℚ), (0 : ℚ)],
   [(0 : ℚ), (0 : ℚ), mkRat 309844330330 117252828573, mkRat 1566200926838 117252828573, (0 : ℚ), (0 : ℚ), (0 : ℚ), (0 : ℚ), (0 : ℚ), (0 : ℚ), (96 : ℚ), (0 : ℚ)],
   [(0 : ℚ), mkRat 15120883188335 938022628584, (0 : ℚ), (0 : ℚ), (0 : ℚ), (0 : ℚ), (0 : ℚ), (1 : ℚ), mkRat 12081773040601 938022628584, (0 : ℚ), (0 : ℚ), (0 : ℚ)],
   [(0 : ℚ), (0 : ℚ), (0 : ℚ), (0 : ℚ), (0 : ℚ), (96 : ℚ), (0 : ℚ), (0 : ℚ), (0 : ℚ), (0 : ℚ), (0 : ℚ), (37 : ℚ)],
   [(0 : ℚ), mkRat 12081773040601 938022628584, (0 : ℚ), (0 : ℚ), (0 : ℚ), (0 : ℚ), (0 : ℚ), (0 : ℚ), mkRat 15120883188335 938022628584, (0 : ℚ), (0 : ℚ), (0 : ℚ)],
   [(0 : ℚ), (0 : ℚ), (0 : ℚ), (0 : ℚ), (0 : ℚ), (0 : ℚ), (0 : ℚ), (0 : ℚ), (0 : ℚ), (0 : ℚ), (37 : ℚ), (0 : ℚ)]]

/-- Product `A22 · P · B22` at iteration 2 of the C2 run. -/
def c2GAB2 : Mat :=
  [[mkRat 2525862172285385 469011314292, mkRat 996125058362270 117252828573, mkRat 689957742801895 469011314292, mkRat 2046697528660775 234505657146, mkRat 187144909786445 469011314292, mkRat 500283026483325 78168552382, mkRat 128716119176185 234505657146, mkRat 668877981089905 234505657146, mkRat 1182436787762595 156337104764, mkRat 719696122615255 469011314292, mkRat 39732819968500 39084276191, mkRat 1211616853159525 156337104764],
   [mkRat 456263139872027 234505657146, mkRat 1986099559107563 469011314292, mkRat 1657101842327725 312674209528, mkRat 1420550402056379 312674209528, mkRat 933601800737105 938022628584, mkRat 9894371162439089 938022628584, mkRat 100713639078793 78168552382, mkRat 4169151965472161 469011314292, mkRat 541173809755121 117252828573, mkRat 2198366422817177 938022628584, mkRat 2971271544973909 469011314292, mkRat 2280600378788213 469011314292],
   [mkRat 465572574871625 938022628584, mkRat 239103847102849 117252828573, mkRat 2879086007450383 938022628584, mkRat 986726672852171 469011314292, mkRat 1462577884449173 938022628584, mkRat 566841437222949 156337104764, mkRat 203927998530949 469011314292, mkRat 828347113457869 469011314292, mkRat 1059487163601691 312674209528, mkRat 407726492340079 938022628584, mkRat 121616512872703 39084276191, mkRat 1325701743747405 312674209528],
   [mkRat 475102587019405 117252828573, mkRat 668609532189920 117252828573, mkRat 69288119207193 39084276191, mkRat 95530273490254 39084276191, mkRat 818153212245787 117252828573, mkRat 441267375061819 117252828573, mkRat 169524417050393 39084276191, mkRat 535245332472341 117252828573, mkRat 641265756317372 117252828573, mkRat 560578858425811 117252828573, mkRat 691266988031317 117252828573, mkRat 1044517938101714 117252828573],
   [mkRat 1133756006864095 938022628584, mkRat 437210468106215 117252828573, mkRat 3913135846126361 938022628584, mkRat 1209184300662973 469011314292, mkRat 2316715286115763 938022628584, mkRat 653838676774363 156337104764, mkRat 1211548148002307 469011314292, mkRat 488636657074067 469011314292, mkRat 1330281819820813 312674209528, mkRat 673813598417273 938022628584, mkRat 110465919149455 39084276191, mkRat 1873893442352619 312674209528],
   [mkRat 644544673024172 117252828573, mkRat 797285330629726 117252828573, mkRat 72587803366137 39084276191, mkRat 67802916711935 39084276191, mkRat 364693322398637 117252828573, mkRat 856017920269853 117252828573, mkRat 252703018640980 39084276191, mkRat 739879178259034 117252828573, mkRat 728716292729560 117252828573, mkRat 708565758048341 117252828573, mkRat 581043454814306 117252828573, mkRat 751326384322354 117252828573],
   [mkRat 286652550709799 938022628584, mkRat 334897251092523 312674209528, mkRat 739135180304519 469011314292, mkRat 483111647049617 469011314292, mkRat 233278223677559 234505657146, mkRat 194491963473875 117252828573, mkRat 92452776852577 312674209528, mkRat 97733908506353 156337104764, mkRat 1737930120938101 938022628584, mkRat 117922038306647 469011314292, mkRat 187560269283970 117252828573, mkRat 742370197633083 312674209528],
   [mkRat 575241308913976 117252828573, mkRat 966681120451052 117252828573, mkRat 213576294262010 39084276191, mkRat 257311065287158 39084276191, mkRat 205036487214274 117252828573, mkRat 48849311164066 117252828573, mkRat 240122473400712 39084276191, mkRat 251941836020420 117252828573, mkRat 518323283263088 117252828573, mkRat 882017156648914 117252828573, mkRat 123233256862804 117252828573, mkRat 355260159366164 117252828573],
   [mkRat 1530704634359395 938022628584, mkRat 496027821450587 938022628584, mkRat 499844076509117 234505657146, mkRat 506888709618661 469011314292, mkRat 1153148447132381 469011314292, mkRat 346927461259597 234505657146, mkRat 954344430243557 938022628584, mkRat 855513451238287 469011314292, mkRat 570503907249421 938022628584, mkRat 362452151607053 234505657146, mkRat 209976157486333 117252828573, mkRat 339364038468871 312674209528],
   [(10427 : ℚ), (6900 : ℚ), (11643 : ℚ), (4297 : ℚ), (8956 : ℚ), (1258 : ℚ), (10585 : ℚ), (8240 : ℚ), (4869 : ℚ), (8366 : ℚ), (666 : ℚ), (3264 : ℚ)],
   [mkRat 1629493601340101 938022628584, mkRat 529230911591725 938022628584, mkRat 481327592989747 234505657146, mkRat 491167367194715 469011314292, mkRat 1118273347983775 469011314292, mkRat 318834099377897 234505657146, mkRat 891684102809755 938022628584, mkRat 803848578726809 469011314292, mkRat 422862056421035 938022628584, mkRat 374833634459971 234505657146, mkRat 193021814319068 117252828573, mkRat 311310991558897 312674209528],
   [(1702 : ℚ), (2923 : ℚ), (1998 : ℚ), (2516 : ℚ), (185 : ℚ), (0 : ℚ), (2072 : ℚ), (555 : ℚ), (1443 : ℚ), (2590 : ℚ), (0 : ℚ), (666 : ℚ)]]

/-- Product `A22ᵀ · P` at iteration 2 of the C2 run. -/
def c2GT2 : Mat :=
  [[mkRat 2607048825575 469011314292, (0 : ℚ), (0 : ℚ), (0 : ℚ), (90 : ℚ), (0 : ℚ), (0 : ℚ), (0 : ℚ), (0 : ℚ), mkRat 2083064317345 469011314292, (0 : ℚ), (0 : ℚ)],
   [(0 : ℚ), (0 : ℚ), mkRat 18011310658637 938022628584, mkRat 3563209798795 938022628584, (0 : ℚ), (0 : ℚ), (90 : ℚ), (0 : ℚ), (0 : ℚ), (0 : ℚ), (0 : ℚ), (0 : ℚ)],
   [mkRat 17914353129167 938022628584, (0 : ℚ), (0 : ℚ), (0 : ℚ), (0 : ℚ), (0 : ℚ), (10 : ℚ), (0 : ℚ), (0 : ℚ), mkRat 22420619899945 938022628584, (0 : ℚ), (0 : ℚ)],
   [(0 : ℚ), (0 : ℚ), mkRat 1704143816815 117252828573, mkRat 8614105097609 117252828573, (23 : ℚ), (0 : ℚ), (0 : ℚ), (0 : ℚ), (0 : ℚ), (0 : ℚ), (0 : ℚ), (0 : ℚ)],
   [mkRat 22420619899945 938022628584, (0 : ℚ), (0 : ℚ), (0 : ℚ), (0 : ℚ), (0 : ℚ), (0 : ℚ), (26 : ℚ), (0 : ℚ), mkRat 17914353129167 938022628584, (0 : ℚ), (0 : ℚ)],
   [(0 : ℚ), (0 : ℚ), mkRat 8614105097609 117252828573, mkRat 1704143816815 117252828573, (0 : ℚ), (16 : ℚ), (0 : ℚ), (0 : ℚ), (0 : ℚ), (0 : ℚ), (0 : ℚ), (0 : ℚ)],
   [mkRat 5415967225097 469011314292, mkRat 416612863469 938022628584, (0 : ℚ), (0 : ℚ), (0 : ℚ), (0 : ℚ), (0 : ℚ), (0 : ℚ), mkRat 521409765115 938022628584, mkRat 6778326946495 469011314292, (0 : ℚ), (0 : ℚ)],
   [(0 : ℚ), (0 : ℚ), mkRat 309844330330 117252828573, mkRat 1566200926838 117252828573, (0 : ℚ), (0 : ℚ), (0 : ℚ), (0 : ℚ), (0 : ℚ), (0 : ℚ), (96 : ℚ), (0 : ℚ)],
   [(0 : ℚ), mkRat 15120883188335 938022628584, (0 : ℚ), (0 : ℚ), (0 : ℚ), (0 : ℚ), (0 : ℚ), (1 : ℚ), mkRat 12081773040601 938022628584, (0 : ℚ), (0 : ℚ), (0 : ℚ)],
   [(0 : ℚ), (0 : ℚ), (0 : ℚ), (0 : ℚ), (0 : ℚ), (96 : ℚ), (0 : ℚ), (0 : ℚ), (0 : ℚ), (0 : ℚ), (0 : ℚ), (37 : ℚ)],
   [(0 : ℚ), mkRat 12081773040601 938022628584, (0 : ℚ), (0 : ℚ), (0 : ℚ), (0 : ℚ), (0 : ℚ), (0 : ℚ), mkRat 15120883188335 938022628584, (0 : ℚ), (0 : ℚ), (0 : ℚ)],
   [(0 : ℚ), (0 : ℚ), (0 : ℚ), (0 : ℚ), (0 : ℚ), (0 : ℚ), (0 : ℚ), (0 : ℚ), (0 : ℚ), (0 : ℚ), (37 : ℚ), (0 : ℚ)]]

/-- Product `A22ᵀ · P · B22ᵀ` at iteration 2 of the C2 run. -/
def c2GTB2 : Mat :=
  [[mkRat 2525862172285385 469011314292, mkRat 996125058362270 117252828573, mkRat 689957742801895 469011314292, mkRat 2046697528660775 234505657146, mkRat 187144909786445 469011314292, mkRat 500283026483325 78168552382, mkRat 128716119176185 234505657146, mkRat 668877981089905 234505657146, mkRat 1182436787762595 156337104764, mkRat 719696122615255 469011314292, mkRat 39732819968500 39084276191, mkRat 1211616853159525 156337104764],
   [mkRat 456263139872027 234505657146, mkRat 1986099559107563 469011314292, mkRat 1657101842327725 312674209528, mkRat 1420550402056379 312674209528, mkRat 933601800737105 938022628584, mkRat 9894371162439089 938022628584, mkRat 100713639078793 78168552382, mkRat 4169151965472161 469011314292, mkRat 541173809755121 117252828573, mkRat 2198366422817177 938022628584, mkRat 2971271544973909 469011314292, mkRat 2280600378788213 469011314292],
   [mkRat 465572574871625 938022628584, mkRat 239103847102849 117252828573, mkRat 2879086007450383 938022628584, mkRat 986726672852171 469011314292, mkRat 1462577884449173 938022628584, mkRat 566841437222949 156337104764, mkRat 203927998530949 469011314292, mkRat 828347113457869 469011314292, mkRat 1059487163601691 312674209528, mkRat 407726492340079 938022628584, mkRat 121616512872703 39084276191, mkRat 1325701743747405 312674209528],
   [mkRat 475102587019405 117252828573, mkRat 668609532189920 117252828573, mkRat 69288119207193 39084276191, mkRat 95530273490254 39084276191, mkRat 818153212245787 117252828573, mkRat 441267375061819 117252828573, mkRat 169524417050393 39084276191, mkRat 535245332472341 117252828573, mkRat 641265756317372 117252828573, mkRat 560578858425811 117252828573, mkRat 691266988031317 117252828573, mkRat 1044517938101714 117252828573],
   [mkRat 1133756006864095 938022628584, mkRat 437210468106215 117252828573, mkRat 3913135846126361 938022628584, mkRat 1209184300662973 469011314292, mkRat 2316715286115763 938022628584, mkRat 653838676774363 156337104764, mkRat 1211548148002307 469011314292, mkRat 488636657074067 469011314292, mkRat 1330281819820813 312674209528, mkRat 673813598417273 938022628584, mkRat 110465919149455 39084276191, mkRat 1873893442352619 312674209528],
   [mkRat 644544673024172 117252828573, mkRat 797285330629726 117252828573, mkRat 72587803366137 39084276191, mkRat 67802916711935 39084276191, mkRat 364693322398637 117252828573, mkRat 856017920269853 117252828573, mkRat 252703018640980 39084276191, mkRat 739879178259034 117252828573, mkRat 728716292729560 117252828573, mkRat 708565758048341 117252828573, mkRat 581043454814306 117252828573, mkRat 751326384322354 117252828573],
   [mkRat 286652550709799 938022628584, mkRat 334897251092523 312674209528, mkRat 739135180304519 469011314292, mkRat 483111647049617 469011314292, mkRat 233278223677559 234505657146, mkRat 194491963473875 117252828573, mkRat 92452776852577 312674209528, mkRat 97733908506353 156337104764, mkRat 1737930120938101 938022628584, mkRat 117922038306647 469011314292, mkRat 187560269283970 117252828573, mkRat 742370197633083 312674209528],
   [mkRat 575241308913976 117252828573, mkRat 966681120451052 117252828573, mkRat 213576294262010 39084276191, mkRat 257311065287158 39084276191, mkRat 205036487214274 117252828573, mkRat 48849311164066 117252828573, mkRat 240122473400712 39084276191, mkRat 251941836020420 117252828573, mkRat 518323283263088 117252828573, mkRat 882017156648914 117252828573, mkRat 123233256862804 117252828573, mkRat 355260159366164 117252828573],
   [mkRat 1530704634359395 938022628584, mkRat 496027821450587 938022628584, mkRat 499844076509117 234505657146, mkRat 506888709618661 469011314292, mkRat 1153148447132381 469011314292, mkRat 346927461259597 234505657146, mkRat 954344430243557 938022628584, mkRat 855513451238287 469011314292, mkRat 570503907249421 938022628584, mkRat 362452151607053 234505657146, mkRat 209976157486333 117252828573, mkRat 339364038468871 312674209528],
   [(10427 : ℚ), (6900 : ℚ), (11643 : ℚ), (4297 : ℚ), (8956 : ℚ), (1258 : ℚ), (10585 : ℚ), (8240 : ℚ), (4869 : ℚ), (8366 : ℚ), (666 : ℚ), (3264 : ℚ)],
   [mkRat 1629493601340101 938022628584, mkRat 529230911591725 938022628584, mkRat 481327592989747 234505657146, mkRat 491167367194715 469011314292, mkRat 1118273347983775 469011314292, mkRat 318834099377897 234505657146, mkRat 891684102809755 938022628584, mkRat 803848578726809 469011314292, mkRat 422862056421035 938022628584, mkRat 374833634459971 234505657146, mkRat 193021814319068 117252828573, mkRat 311310991558897 312674209528],
   [(1702 : ℚ), (2923 : ℚ), (1998 : ℚ), (2516 : ℚ), (185 : ℚ), (0 : ℚ), (2072 : ℚ), (555 : ℚ), (1443 : ℚ), (2590 : ℚ), (0 : ℚ), (666 : ℚ)]]

/-- Cost matrix (gradient) of iteration 2 of the C2 run. -/
def c2C2 : Mat :=
  [[mkRat 2525862172285385 234505657146, mkRat 1992250116724540 117252828573, mkRat 689957742801895 234505657146, mkRat 2046697528660775 117252828573, mkRat 187144909786445 234505657146, mkRat 500283026483325 39084276191, mkRat 128716119176185 117252828573, mkRat 668877981089905 117252828573, mkRat 1182436787762595 78168552382, mkRat 719696122615255 234505657146, mkRat 79465639937000 39084276191, mkRat 1211616853159525 78168552382],
   [mkRat 456263139872027 117252828573, mkRat 1986099559107563 234505657146, mkRat 1657101842327725 156337104764, mkRat 1420550402056379 156337104764, mkRat 933601800737105 469011314292, mkRat 9894371162439089 469011314292, mkRat 100713639078793 39084276191, mkRat 4169151965472161 234505657146, mkRat 1082347619510242 117252828573, mkRat 2198366422817177 469011314292, mkRat 2971271544973909 234505657146, mkRat 2280600378788213 234505657146],
   [mkRat 465572574871625 469011314292, mkRat 478207694205698 117252828573, mkRat 2879086007450383 469011314292, mkRat 986726672852171 234505657146, mkRat 1462577884449173 469011314292, mkRat 566841437222949 78168552382, mkRat 203927998530949 234505657146, mkRat 828347113457869 234505657146, mkRat 1059487163601691 156337104764, mkRat 407726492340079 469011314292, mkRat 243233025745406 39084276191, mkRat 1325701743747405 156337104764],
   [mkRat 950205174038810 117252828573, mkRat 1337219064379840 117252828573, mkRat 138576238414386 39084276191, mkRat 191060546980508 39084276191, mkRat 1636306424491574 117252828573, mkRat 882534750123638 117252828573, mkRat 339048834100786 39084276191, mkRat 1070490664944682 117252828573, mkRat 1282531512634744 117252828573, mkRat 1121157716851622 117252828573, mkRat 1382533976062634 117252828573, mkRat 2089035876203428 117252828573],
   [mkRat 1133756006864095 469011314292, mkRat 874420936212430 117252828573, mkRat 3913135846126361 469011314292, mkRat 1209184300662973 234505657146, mkRat 2316715286115763 469011314292, mkRat 653838676774363 78168552382, mkRat 1211548148002307 234505657146, mkRat 488636657074067 234505657146, mkRat 1330281819820813 156337104764, mkRat 673813598417273 469011314292, mkRat 220931838298910 39084276191, mkRat 1873893442352619 156337104764],
   [mkRat 1289089346048344 117252828573, mkRat 1594570661259452 117252828573, mkRat 145175606732274 39084276191, mkRat 135605833423870 39084276191, mkRat 729386644797274 117252828573, mkRat 1712035840539706 117252828573, mkRat 505406037281960 39084276191, mkRat 1479758356518068 117252828573, mkRat 1457432585459120 117252828573, mkRat 1417131516096682 117252828573, mkRat 1162086909628612 117252828573, mkRat 1502652768644708 117252828573],
   [mkRat 286652550709799 469011314292, mkRat 334897251092523 156337104764, mkRat 739135180304519 234505657146, mkRat 483111647049617 234505657146, mkRat 233278223677559 117252828573, mkRat 388983926947750 117252828573, mkRat 92452776852577 156337104764, mkRat 97733908506353 78168552382, mkRat 1737930120938101 469011314292, mkRat 117922038306647 234505657146, mkRat 375120538567940 117252828573, mkRat 742370197633083 156337104764],
   [mkRat 1150482617827952 117252828573, mkRat 1933362240902104 117252828573, mkRat 427152588524020 39084276191, mkRat 514622130574316 39084276191, mkRat 410072974428548 117252828573, mkRat 97698622328132 117252828573, mkRat 480244946801424 39084276191, mkRat 503883672040840 117252828573, mkRat 1036646566526176 117252828573, mkRat 1764034313297828 117252828573, mkRat 246466513725608 117252828573, mkRat 710520318732328 117252828573],
   [mkRat 1530704634359395 469011314292, mkRat 496027821450587 469011314292, mkRat 499844076509117 117252828573, mkRat 506888709618661 234505657146, mkRat 1153148447132381 234505657146, mkRat 346927461259597 117252828573, mkRat 954344430243557 469011314292, mkRat 855513451238287 234505657146, mkRat 570503907249421 469011314292, mkRat 362452151607053 117252828573, mkRat 419952314972666 117252828573, mkRat 339364038468871 156337104764],
   [(20854 : ℚ), (13800 : ℚ), (23286 : ℚ), (8594 : ℚ), (17912 : ℚ), (2516 : ℚ), (21170 : ℚ), (16480 : ℚ), (9738 : ℚ), (16732 : ℚ), (1332 : ℚ), (6528 : ℚ)],
   [mkRat 1629493601340101 469011314292, mkRat 529230911591725 469011314292, mkRat 481327592989747 117252828573, mkRat 491167367194715 234505657146, mkRat 1118273347983775 234505657146, mkRat 318834099377897 117252828573, mkRat 891684102809755 469011314292, mkRat 803848578726809 234505657146, mkRat 422862056421035 469011314292, mkRat 374833634459971 117252828573, mkRat 386043628638136 117252828573, mkRat 311310991558897 156337104764],
   [(3404 : ℚ), (5846 : ℚ), (3996 : ℚ), (5032 : ℚ), (370 : ℚ), (0 : ℚ), (4144 : ℚ), (1110 : ℚ), (2886 : ℚ), (5180 : ℚ), (0 : ℚ), (1332 : ℚ)]]

/-- Assignment of iteration 2 of the C2 run. -/
def c2q2 : List Nat := [6, 4, 9, 2, 7, 3, 0, 5, 1, 10, 8, 11]

/-- Iterate 3 of the C2 run. -/
def c2P3 : Mat :=
  [[(0 : ℚ), (0 : ℚ), (0 : ℚ), (0 : ℚ), (0 : ℚ), (0 : ℚ), (1 : ℚ), (0 : ℚ), (0 : ℚ), (0 : ℚ), (0 : ℚ), (0 : ℚ)],
   [(0 : ℚ), (0 : ℚ), (0 : ℚ), (0 : ℚ), (1 : ℚ), (0 : ℚ), (0 : ℚ), (0 : ℚ), (0 : ℚ), (0 : ℚ), (0 : ℚ), (0 : ℚ)],
   [mkRat 1140535442672162975935114835 2479794828711329531317850856, (0 : ℚ), (0 : ℚ), (0 : ℚ), (0 : ℚ), (0 : ℚ), (0 : ℚ), (0 : ℚ), (0 : ℚ), mkRat 1339259386039166555382736021 2479794828711329531317850856, (0 : ℚ), (0 : ℚ)],
   [(0 : ℚ), (0 : ℚ), mkRat 2140916978605813634922079571 2479794828711329531317850856, mkRat 338877850105515896395771285 2479794828711329531317850856, (0 : ℚ), (0 : ℚ), (0 : ℚ), (0 : ℚ), (0 : ℚ), (0 : ℚ), (0 : ℚ), (0 : ℚ)],
   [mkRat 911301951843448091077036501 2479794828711329531317850856, (0 : ℚ), (0 : ℚ), (0 : ℚ), (0 : ℚ), (0 : ℚ), (0 : ℚ), mkRat 456233593044280 2643640732265409, (0 : ℚ), mkRat 1140535442672162975935114835 2479794828711329531317850856, (0 : ℚ), (0 : ℚ)],
   [(0 : ℚ), (0 : ℚ), mkRat 338877850105515896395771285 2479794828711329531317850856, mkRat 2140916978605813634922079571 2479794828711329531317850856, (0 : ℚ), (0 : ℚ), (0 : ℚ), (0 : ℚ), (0 : ℚ), (0 : ℚ), (0 : ℚ), (0 : ℚ)],
   [mkRat 456233593044280 2643640732265409, (0 : ℚ), (0 : ℚ), (0 : ℚ), (0 : ℚ), (0 : ℚ), (0 : ℚ), mkRat 2187407139221129 2643640732265409, (0 : ℚ), (0 : ℚ), (0 : ℚ), (0 : ℚ)],
   [(0 : ℚ), (0 : ℚ), (0 : ℚ), (0 : ℚ), (0 : ℚ), (1 : ℚ), (0 : ℚ), (0 : ℚ), (0 : ℚ), (0 : ℚ), (0 : ℚ), (0 : ℚ)],
   [(0 : ℚ), mkRat 1339259386039166555382736021 2479794828711329531317850856, (0 : ℚ), (0 : ℚ), (0 : ℚ), (0 : ℚ), (0 : ℚ), (0 : ℚ), mkRat 1140535442672162975935114835 2479794828711329531317850856, (0 : ℚ), (0 : ℚ), (0 : ℚ)],
   [(0 : ℚ), (0 : ℚ), (0 : ℚ), (0 : ℚ), (0 : ℚ), (0 : ℚ), (0 : ℚ), (0 : ℚ), (0 : ℚ), (0 : ℚ), (1 : ℚ), (0 : ℚ)],
   [(0 : ℚ), mkRat 1140535442672162975935114835 2479794828711329531317850856, (0 : ℚ), (0 : ℚ), (0 : ℚ), (0 : ℚ), (0 : ℚ), (0 : ℚ), mkRat 1339259386039166555382736021 2479794828711329531317850856, (0 : ℚ), (0 : ℚ), (0 : ℚ)],
   [(0 : ℚ), (0 : ℚ), (0 : ℚ), (0 : ℚ), (0 : ℚ), (0 : ℚ), (0 : ℚ), (0 : ℚ), (0 : ℚ), (0 : ℚ), (0 : ℚ), (1 : ℚ)]]

/-- Squared Frobenius move of iteration 2 of the C2 run. -/
def c2d2 : ℚ := mkRat 1739022832625189581343224949353395283819925373531100 10676011098096271128537032735578505030822719164340161

/-- Hungarian state after row 1 of assignment 2 of the C2 run. -/
def c2K2R1 : LapState :=
  ⟨[(0 : ℚ), mkRat 187144909786445 234505657146, (0 : ℚ), (0 : ℚ), (0 : ℚ), (0 : ℚ), (0 : ℚ), (0 : ℚ), (0 : ℚ), (0 : ℚ), (0 : ℚ), (0 : ℚ), (0 : ℚ)],
  [mkRat (-187144909786445) 234505657146, (0 : ℚ), (0 : ℚ), (0 : ℚ), (0 : ℚ), (0 : ℚ), (0 : ℚ), (0 : ℚ), (0 : ℚ), (0 : ℚ), (0 : ℚ), (0 : ℚ), (0 : ℚ)],
  [1, 0, 0, 0, 0, 1, 0, 0, 0, 0, 0, 0, 0], [0, 0, 0, 0, 0, 0, 0, 0, 0, 0, 0, 0, 0]⟩

/-- Hungarian state after row 2 of assignment 2 of the C2 run. -/
def c2K2R2 : LapState :=
  ⟨[(0 : ℚ), mkRat 128716119176185 117252828573, mkRat 1074176457868955 469011314292, (0 : ℚ), (0 : ℚ), (0 : ℚ), (0 : ℚ), (0 : ℚ), (0 : ℚ), (0 : ℚ), (0 : ℚ), (0 : ℚ), (0 : ℚ)],
  [mkRat (-482822092480615) 156337104764, (0 : ℚ), (0 : ℚ), (0 : ℚ), (0 : ℚ), mkRat (-23429109521975) 78168552382, (0 : ℚ), (0 : ℚ), (0 : ℚ), (0 : ℚ), (0 : ℚ), (0 : ℚ), (0 : ℚ)],
  [2, 0, 0, 0, 0, 2, 0, 1, 0, 0, 0, 0, 0], [0, 0, 0, 5, 0, 0, 5, 5, 5, 0, 5, 5, 0]⟩

/-- Hungarian state after row 3 of assignment 2 of the C2 run. -/
def c2K2R3 : LapState :=
  ⟨[(0 : ℚ), mkRat 128716119176185 117252828573, mkRat 1074176457868955 469011314292, mkRat 407726492340079 469011314292, (0 : ℚ), (0 : ℚ), (0 : ℚ), (0 : ℚ), (0 : ℚ), (0 : ℚ), (0 : ℚ), (0 : ℚ), (0 : ℚ)],
  [mkRat (-464048192445481) 117252828573, (0 : ℚ), (0 : ℚ), (0 : ℚ), (0 : ℚ), mkRat (-23429109521975) 78168552382, (0 : ℚ), (0 : ℚ), (0 : ℚ), (0 : ℚ), (0 : ℚ), (0 : ℚ), (0 : ℚ)],
  [3, 0, 0, 0, 0, 2, 0, 1, 0, 0, 3, 0, 0], [0, 0, 0, 0, 0, 0, 0, 0, 0, 0, 0, 0, 0]⟩

/-- Hungarian state after row 4 of assignment 2 of the C2 run. -/
def c2K2R4 : LapState :=
  ⟨[(0 : ℚ), mkRat 128716119176185 117252828573, mkRat 1074176457868955 469011314292, mkRat 407726492340079 469011314292, mkRat 138576238414386 39084276191, (0 : ℚ), (0 : ℚ), (0 : ℚ), (0 : ℚ), (0 : ℚ), (0 : ℚ), (0 : ℚ), (0 : ℚ)],
  [mkRat (-879776907688639) 117252828573, (0 : ℚ), (0 : ℚ), (0 : ℚ), (0 : ℚ), mkRat (-23429109521975) 78168552382, (0 : ℚ), (0 : ℚ), (0 : ℚ), (0 : ℚ), (0 : ℚ), (0 : ℚ), (0 : ℚ)],
  [4, 0, 0, 4, 0, 2, 0, 1, 0, 0, 3, 0, 0], [0, 0, 0, 0, 0, 0, 0, 0, 0, 0, 0, 0, 0]⟩

/-- Hungarian state after row 5 of assignment 2 of the C2 run. -/
def c2K2R5 : LapState :=
  ⟨[(0 : ℚ), mkRat 572581054514467 469011314292, mkRat 565946517839341 234505657146, mkRat 465572574871625 469011314292, mkRat 138576238414386 39084276191, mkRat 243886560316273 156337104764, (0 : ℚ), (0 : ℚ), (0 : ℚ), (0 : ℚ), (0 : ℚ), (0 : ℚ), (0 : ℚ)],
  [mkRat (-4250767311703375) 469011314292, (0 : ℚ), (0 : ℚ), (0 : ℚ), (0 : ℚ), mkRat (-66097078313859) 156337104764, (0 : ℚ), mkRat (-19238859269909) 156337104764, (0 : ℚ), (0 : ℚ), mkRat (-28923041265773) 234505657146, (0 : ℚ), (0 : ℚ)],
  [5, 3, 0, 4, 0, 2, 0, 1, 0, 0, 5, 0, 0], [0, 10, 10, 7, 10, 7, 10, 10, 0, 10, 0, 7, 5]⟩

/-- Hungarian state after row 6 of assignment 2 of the C2 run. -/
def c2K2R6 : LapState :=
  ⟨[(0 : ℚ), mkRat 572581054514467 469011314292, mkRat 565946517839341 234505657146, mkRat 465572574871625 469011314292, mkRat 138576238414386 39084276191, mkRat 243886560316273 156337104764, mkRat 135605833423870 39084276191, (0 : ℚ), (0 : ℚ), (0 : ℚ), (0 : ℚ), (0 : ℚ), (0 : ℚ)],
  [mkRat (-5878037312789815) 469011314292, (0 : ℚ), (0 : ℚ), (0 : ℚ), (0 : ℚ), mkRat (-66097078313859) 156337104764, (0 : ℚ), mkRat (-19238859269909) 156337104764, (0 : ℚ), (0 : ℚ), mkRat (-28923041265773) 234505657146, (0 : ℚ), (0 : ℚ)],
  [6, 3, 0, 4, 6, 2, 0, 1, 0, 0, 5, 0, 0], [0, 0, 0, 0, 0, 0, 0, 0, 0, 0, 0, 0, 0]⟩

/-- Hungarian state after row 7 of assignment 2 of the C2 run. -/
def c2K2R7 : LapState :=
  ⟨[(0 : ℚ), mkRat 409097343856891 234505657146, mkRat 459168889625999 156337104764, mkRat 59265517339245 39084276191, mkRat 138576238414386 39084276191, mkRat 488636657074067 234505657146, mkRat 135605833423870 39084276191, mkRat 88711030651519 78168552382, (0 : ℚ), (0 : ℚ), (0 : ℚ), (0 : ℚ), (0 : ℚ)],
  [mkRat (-6410303496698929) 469011314292, mkRat (-245613633199315) 469011314292, (0 : ℚ), (0 : ℚ), (0 : ℚ), mkRat (-110976217035223) 117252828573, (0 : ℚ), mkRat (-151665105504521) 234505657146, (0 : ℚ), (0 : ℚ), mkRat (-303459715730861) 469011314292, (0 : ℚ), (0 : ℚ)],
  [7, 7, 0, 4, 6, 2, 0, 1, 5, 0, 3, 0, 0], [0, 0, 0, 7, 0, 7, 0, 1, 10, 0, 1, 7, 0]⟩

/-- Hungarian state after row 8 of assignment 2 of the C2 run. -/
def c2K2R8 : LapState :=
  ⟨[(0 : ℚ), mkRat 409097343856891 234505657146, mkRat 459168889625999 156337104764, mkRat 59265517339245 39084276191, mkRat 138576238414386 39084276191, mkRat 488636657074067 234505657146, mkRat 135605833423870 39084276191, mkRat 88711030651519 78168552382, mkRat 97698622328132 117252828573, (0 : ℚ), (0 : ℚ), (0 : ℚ), (0 : ℚ)],
  [mkRat (-2267032662003819) 156337104764, mkRat (-245613633199315) 469011314292, (0 : ℚ), (0 : ℚ), (0 : ℚ), mkRat (-110976217035223) 117252828573, (0 : ℚ), mkRat (-151665105504521) 234505657146, (0 : ℚ), (0 : ℚ), mkRat (-303459715730861) 469011314292, (0 : ℚ), (0 : ℚ)],
  [8, 7, 0, 4, 6, 2, 8, 1, 5, 0, 3, 0, 0], [0, 0, 0, 0, 0, 0, 0, 0, 0, 0, 0, 0, 0]⟩

/-- Hungarian state after row 9 of assignment 2 of the C2 run. -/
def c2K2R9 : LapState :=
  ⟨[(0 : ℚ), mkRat 409097343856891 234505657146, mkRat 459168889625999 156337104764, mkRat 59265517339245 39084276191, mkRat 138576238414386 39084276191, mkRat 488636657074067 234505657146, mkRat 135605833423870 39084276191, mkRat 88711030651519 78168552382, mkRat 97698622328132 117252828573, mkRat 496027821450587 469011314292, (0 : ℚ), (0 : ℚ), (0 : ℚ)],
  [mkRat (-1824281451865511) 117252828573, mkRat (-245613633199315) 469011314292, (0 : ℚ), (0 : ℚ), (0 : ℚ), mkRat (-110976217035223) 117252828573, (0 : ℚ), mkRat (-151665105504521) 234505657146, (0 : ℚ), (0 : ℚ), mkRat (-303459715730861) 469011314292, (0 : ℚ), (0 : ℚ)],
  [9, 7, 9, 4, 6, 2, 8, 1, 5, 0, 3, 0, 0], [0, 0, 0, 0, 0, 0, 0, 0, 0, 0, 0, 0, 0]⟩

/-- Hungarian state after row 10 of assignment 2 of the C2 run. -/
def c2K2R10 : LapState :=
  ⟨[(0 : ℚ), mkRat 409097343856891 234505657146, mkRat 459168889625999 156337104764, mkRat 59265517339245 39084276191, mkRat 138576238414386 39084276191, mkRat 488636657074067 234505657146, mkRat 135605833423870 39084276191, mkRat 88711030651519 78168552382, mkRat 97698622328132 117252828573, mkRat 496027821450587 469011314292, (1332 : ℚ), (0 : ℚ), (0 : ℚ)],
  [mkRat (-1980462219524747) 117252828573, mkRat (-245613633199315) 469011314292, (0 : ℚ), (0 : ℚ), (0 : ℚ), mkRat (-110976217035223) 117252828573, (0 : ℚ), mkRat (-151665105504521) 234505657146, (0 : ℚ), (0 : ℚ), mkRat (-303459715730861) 469011314292, (0 : ℚ), (0 : ℚ)],
  [10, 7, 9, 4, 6, 2, 8, 1, 5, 0, 3, 10, 0], [0, 0, 0, 0, 0, 0, 0, 0, 0, 0, 0, 0, 0]⟩

/-- Hungarian state after row 11 of assignment 2 of the C2 run. -/
def c2K2R11 : LapState :=
  ⟨[(0 : ℚ), mkRat 409097343856891 234505657146, mkRat 459168889625999 156337104764, mkRat 59265517339245 39084276191, mkRat 138576238414386 39084276191, mkRat 488636657074067 234505657146, mkRat 135605833423870 39084276191, mkRat 88711030651519 78168552382, mkRat 97698622328132 117252828573, mkRat 496027821450587 469011314292, (1332 : ℚ), mkRat 422862056421035 469011314292, (0 : ℚ)],
  [mkRat (-8344710934520023) 469011314292, mkRat (-245613633199315) 469011314292, (0 : ℚ), (0 : ℚ), (0 : ℚ), mkRat (-110976217035223) 117252828573, (0 : ℚ), mkRat (-151665105504521) 234505657146, (0 : ℚ), (0 : ℚ), mkRat (-303459715730861) 469011314292, (0 : ℚ), (0 : ℚ)],
  [11, 7, 9, 4, 6, 2, 8, 1, 5, 11, 3, 10, 0], [0, 0, 0, 0, 0, 0, 0, 0, 0, 0, 0, 0, 0]⟩

/-- Hungarian state after row 12 of assignment 2 of the C2 run. -/
def c2K2R12 : LapState :=
  ⟨[(0 : ℚ), mkRat 461157599743303 234505657146, mkRat 493875726883607 156337104764, mkRat 67942226653647 39084276191, mkRat 138576238414386 39084276191, mkRat 540696912960479 234505657146, mkRat 135605833423870 39084276191, mkRat 106064449280323 78168552382, mkRat 253879389987368 117252828573, mkRat 496027821450587 469011314292, (2664 : ℚ), mkRat 422862056421035 469011314292, (1332 : ℚ)],
  [mkRat (-8969434005156967) 469011314292, mkRat (-349734144972139) 469011314292, (0 : ℚ), (0 : ℚ), (0 : ℚ), mkRat (-137006344978429) 117252828573, (-1332 : ℚ), mkRat (-203725361390933) 234505657146, (-222 : ℚ), (0 : ℚ), mkRat (-407580227503685) 469011314292, (-1332 : ℚ), (0 : ℚ)],
  [12, 7, 9, 4, 6, 2, 8, 1, 5, 11, 3, 10, 12], [0, 10, 1, 7, 1, 7, 0, 10, 0, 0, 8, 0, 0]⟩

/-- Step direction matrix `Q − P` at iteration 2 of the C2 run. -/
def c2R2 : Mat :=
  [[(0 : ℚ), (0 : ℚ), (0 : ℚ), (0 : ℚ), (0 : ℚ), (0 : ℚ), (0 : ℚ), (0 : ℚ), (0 : ℚ), (0 : ℚ), (0 : ℚ), (0 : ℚ)],
   [(0 : ℚ), (0 : ℚ), (0 : ℚ), (0 : ℚ), (0 : ℚ), (0 : ℚ), (0 : ℚ), (0 : ℚ), (0 : ℚ), (0 : ℚ), (0 : ℚ), (0 : ℚ)],
   [mkRat (-521409765115) 938022628584, (0 : ℚ), (0 : ℚ), (0 : ℚ), (0 : ℚ), (0 : ℚ), (0 : ℚ), (0 : ℚ), (0 : ℚ), mkRat 521409765115 938022628584, (0 : ℚ), (0 : ℚ)],
   [(0 : ℚ), (0 : ℚ), mkRat 154922165165 938022628584, mkRat (-154922165165) 938022628584, (0 : ℚ), (0 : ℚ), (0 : ℚ), (0 : ℚ), (0 : ℚ), (0 : ℚ), (0 : ℚ), (0 : ℚ)],
   [mkRat (-416612863469) 938022628584, (0 : ℚ), (0 : ℚ), (0 : ℚ), (0 : ℚ), (0 : ℚ), (0 : ℚ), (1 : ℚ), (0 : ℚ), mkRat (-521409765115) 938022628584, (0 : ℚ), (0 : ℚ)],
   [(0 : ℚ), (0 : ℚ), mkRat (-154922165165) 938022628584, mkRat 154922165165 938022628584, (0 : ℚ), (0 : ℚ), (0 : ℚ), (0 : ℚ), (0 : ℚ), (0 : ℚ), (0 : ℚ), (0 : ℚ)],
   [(1 : ℚ), (0 : ℚ), (0 : ℚ), (0 : ℚ), (0 : ℚ), (0 : ℚ), (0 : ℚ), (-1 : ℚ), (0 : ℚ), (0 : ℚ), (0 : ℚ), (0 : ℚ)],
   [(0 : ℚ), (0 : ℚ), (0 : ℚ), (0 : ℚ), (0 : ℚ), (0 : ℚ), (0 : ℚ), (0 : ℚ), (0 : ℚ), (0 : ℚ), (0 : ℚ), (0 : ℚ)],
   [(0 : ℚ), mkRat 521409765115 938022628584, (0 : ℚ), (0 : ℚ), (0 : ℚ), (0 : ℚ), (0 : ℚ), (0 : ℚ), mkRat (-521409765115) 938022628584, (0 : ℚ), (0 : ℚ), (0 : ℚ)],
   [(0 : ℚ), (0 : ℚ), (0 : ℚ), (0 : ℚ), (0 : ℚ), (0 : ℚ), (0 : ℚ), (0 : ℚ), (0 : ℚ), (0 : ℚ), (0 : ℚ), (0 : ℚ)],
   [(0 : ℚ), mkRat (-521409765115) 938022628584, (0 : ℚ), (0 : ℚ), (0 : ℚ), (0 : ℚ), (0 : ℚ), (0 : ℚ), mkRat 521409765115 938022628584, (0 : ℚ), (0 : ℚ), (0 : ℚ)],
   [(0 : ℚ), (0 : ℚ), (0 : ℚ), (0 : ℚ), (0 : ℚ), (0 : ℚ), (0 : ℚ), (0 : ℚ), (0 : ℚ), (0 : ℚ), (0 : ℚ), (0 : ℚ)]]

/-- Transpose of `c2R2`. -/
def c2RT2 : Mat :=
  [[(0 : ℚ), (0 : ℚ), mkRat (-521409765115) 938022628584, (0 : ℚ), mkRat (-416612863469) 938022628584, (0 : ℚ), (1 : ℚ), (0 : ℚ), (0 : ℚ), (0 : ℚ), (0 : ℚ), (0 : ℚ)],
   [(0 : ℚ), (0 : ℚ), (0 : ℚ), (0 : ℚ), (0 : ℚ), (0 : ℚ), (0 : ℚ), (0 : ℚ), mkRat 521409765115 938022628584, (0 : ℚ), mkRat (-521409765115) 938022628584, (0 : ℚ)],
   [(0 : ℚ), (0 : ℚ), (0 : ℚ), mkRat 154922165165 938022628584, (0 : ℚ), mkRat (-154922165165) 938022628584, (0 : ℚ), (0 : ℚ), (0 : ℚ), (0 : ℚ), (0 : ℚ), (0 : ℚ)],
   [(0 : ℚ), (0 : ℚ), (0 : ℚ), mkRat (-154922165165) 938022628584, (0 : ℚ), mkRat 154922165165 938022628584, (0 : ℚ), (0 : ℚ), (0 : ℚ), (0 : ℚ), (0 : ℚ), (0 : ℚ)],
   [(0 : ℚ), (0 : ℚ), (0 : ℚ), (0 : ℚ), (0 : ℚ), (0 : ℚ), (0 : ℚ), (0 : ℚ), (0 : ℚ), (0 : ℚ), (0 : ℚ), (0 : ℚ)],
   [(0 : ℚ), (0 : ℚ), (0 : ℚ), (0 : ℚ), (0 : ℚ), (0 : ℚ), (0 : ℚ), (0 : ℚ), (0 : ℚ), (0 : ℚ), (0 : ℚ), (0 : ℚ)],
   [(0 : ℚ), (0 : ℚ), (0 : ℚ), (0 : ℚ), (0 : ℚ), (0 : ℚ), (0 : ℚ), (0 : ℚ), (0 : ℚ), (0 : ℚ), (0 : ℚ), (0 : ℚ)],
   [(0 : ℚ), (0 : ℚ), (0 : ℚ), (0 : ℚ), (1 : ℚ), (0 : ℚ), (-1 : ℚ), (0 : ℚ), (0 : ℚ), (0 : ℚ), (0 : ℚ), (0 : ℚ)],
   [(0 : ℚ), (0 : ℚ), (0 : ℚ), (0 : ℚ), (0 : ℚ), (0 : ℚ), (0 : ℚ), (0 : ℚ), mkRat (-521409765115) 938022628584, (0 : ℚ), mkRat 521409765115 938022628584, (0 : ℚ)],
   [(0 : ℚ), (0 : ℚ), mkRat 521409765115 938022628584, (0 : ℚ), mkRat (-521409765115) 938022628584, (0 : ℚ), (0 : ℚ), (0 : ℚ), (0 : ℚ), (0 : ℚ), (0 : ℚ), (0 : ℚ)],
   [(0 : ℚ), (0 : ℚ), (0 : ℚ), (0 : ℚ), (0 : ℚ), (0 : ℚ), (0 : ℚ), (0 : ℚ), (0 : ℚ), (0 : ℚ), (0 : ℚ), (0 : ℚ)],
   [(0 : ℚ), (0 : ℚ), (0 : ℚ), (0 : ℚ), (0 : ℚ), (0 : ℚ), (0 : ℚ), (0 : ℚ), (0 : ℚ), (0 : ℚ), (0 : ℚ), (0 : ℚ)]]

/-- Product `R · B22ᵀ` at iteration 2 of the C2 run. -/
def c2M1x2 : Mat :=
  [[(0 : ℚ), (0 : ℚ), (0 : ℚ), (0 : ℚ), (0 : ℚ), (0 : ℚ), (0 : ℚ), (0 : ℚ), (0 : ℚ), (0 : ℚ), (0 : ℚ), (0 : ℚ)],
   [(0 : ℚ), (0 : ℚ), (0 : ℚ), (0 : ℚ), (0 : ℚ), (0 : ℚ), (0 : ℚ), (0 : ℚ), (0 : ℚ), (0 : ℚ), (0 : ℚ), (0 : ℚ)],
   [mkRat 8863966006955 938022628584, mkRat 521409765115 117252828573, mkRat 3649868355805 938022628584, mkRat 5735507416265 469011314292, mkRat (-22420619899945) 938022628584, mkRat (-1564229295345) 156337104764, mkRat 521409765115 469011314292, mkRat (-5735507416265) 469011314292, mkRat (-2607048825575) 312674209528, mkRat (-8863966006955) 938022628584, mkRat 521409765115 39084276191, mkRat (-1564229295345) 312674209528],
   [mkRat 1084455156155 234505657146, mkRat 2943521138135 469011314292, mkRat (-1084455156155) 312674209528, mkRat 1084455156155 312674209528, mkRat (-12858539708695) 938022628584, mkRat 13168384039025 938022628584, mkRat 154922165165 78168552382, mkRat 2013988147145 469011314292, mkRat 619688660660 117252828573, mkRat 2013988147145 938022628584, mkRat (-1084455156155) 469011314292, mkRat (-1704143816815) 469011314292],
   [mkRat 23028803364901 938022628584, mkRat 4403209034951 117252828573, mkRat 7606403187203 938022628584, mkRat 830650983823 469011314292, mkRat (-5720058957575) 938022628584, mkRat (-1093501485643) 156337104764, mkRat 34185427492493 469011314292, mkRat (-10210877269663) 469011314292, mkRat (-8336548507905) 312674209528, mkRat 4173852864035 938022628584, mkRat (-1733022327036) 39084276191, mkRat (-3125883847575) 312674209528],
   [mkRat (-1084455156155) 234505657146, mkRat (-2943521138135) 469011314292, mkRat 1084455156155 312674209528, mkRat (-1084455156155) 312674209528, mkRat 12858539708695 938022628584, mkRat (-13168384039025) 938022628584, mkRat (-154922165165) 78168552382, mkRat (-2013988147145) 469011314292, mkRat (-619688660660) 117252828573, mkRat (-2013988147145) 938022628584, mkRat 1084455156155 469011314292, mkRat 1704143816815 469011314292],
   [(-34 : ℚ), (-42 : ℚ), (-12 : ℚ), (-14 : ℚ), (30 : ℚ), (17 : ℚ), (-74 : ℚ), (34 : ℚ), (35 : ℚ), (5 : ℚ), (31 : ℚ), (15 : ℚ)],
   [(0 : ℚ), (0 : ℚ), (0 : ℚ), (0 : ℚ), (0 : ℚ), (0 : ℚ), (0 : ℚ), (0 : ℚ), (0 : ℚ), (0 : ℚ), (0 : ℚ), (0 : ℚ)],
   [mkRat (-22420619899945) 938022628584, mkRat (-18249341779025) 938022628584, mkRat 521409765115 234505657146, mkRat (-521409765115) 469011314292, mkRat 3649868355805 469011314292, mkRat 2607048825575 234505657146, mkRat (-2607048825575) 938022628584, mkRat 8863966006955 469011314292, mkRat 18249341779025 938022628584, mkRat (-2607048825575) 234505657146, mkRat 2607048825575 117252828573, mkRat 521409765115 312674209528],
   [(0 : ℚ), (0 : ℚ), (0 : ℚ), (0 : ℚ), (0 : ℚ), (0 : ℚ), (0 : ℚ), (0 : ℚ), (0 : ℚ), (0 : ℚ), (0 : ℚ), (0 : ℚ)],
   [mkRat 22420619899945 938022628584, mkRat 18249341779025 938022628584, mkRat (-521409765115) 234505657146, mkRat 521409765115 469011314292, mkRat (-3649868355805) 469011314292, mkRat (-2607048825575) 234505657146, mkRat 2607048825575 938022628584, mkRat (-8863966006955) 469011314292, mkRat (-18249341779025) 938022628584, mkRat 2607048825575 234505657146, mkRat (-2607048825575) 117252828573, mkRat (-521409765115) 312674209528],
   [(0 : ℚ), (0 : ℚ), (0 : ℚ), (0 : ℚ), (0 : ℚ), (0 : ℚ), (0 : ℚ), (0 : ℚ), (0 : ℚ), (0 : ℚ), (0 : ℚ), (0 : ℚ)]]

/-- Product `R · B22ᵀ · Rᵀ` at iteration 2 of the C2 run. -/
def c2M2x2 : Mat :=
  [[(0 : ℚ), (0 : ℚ), (0 : ℚ), (0 : ℚ), (0 : ℚ), (0 : ℚ), (0 : ℚ), (0 : ℚ), (0 : ℚ), (0 : ℚ), (0 : ℚ), (0 : ℚ)],
   [(0 : ℚ), (0 : ℚ), (0 : ℚ), (0 : ℚ), (0 : ℚ), (0 : ℚ), (0 : ℚ), (0 : ℚ), (0 : ℚ), (0 : ℚ), (0 : ℚ), (0 : ℚ)],
   [(0 : ℚ), (0 : ℚ), mkRat (-4621758433673751006374825) 439943225867818406922528, mkRat (-403889648748949426094875) 293295483911878937948352, mkRat (-4915577655955746332044795) 439943225867818406922528, mkRat 403889648748949426094875 293295483911878937948352, mkRat 6778326946495 312674209528, (0 : ℚ), mkRat 6252967292617427832154175 879886451735636813845056, (0 : ℚ), mkRat (-6252967292617427832154175) 879886451735636813845056, (0 : ℚ)],
   [(0 : ℚ), (0 : ℚ), mkRat (-403889648748949426094875) 293295483911878937948352, mkRat (-168006140815880776340575) 146647741955939468974176, mkRat 102336439228761386903545 97765161303959645982784, mkRat 168006140815880776340575 146647741955939468974176, mkRat 154922165165 469011314292, (0 : ℚ), mkRat 80777929749789885218975 146647741955939468974176, (0 : ℚ), mkRat (-80777929749789885218975) 146647741955939468974176, (0 : ℚ)],
   [(0 : ℚ), (0 : ℚ), mkRat (-4915577655955746332044795) 439943225867818406922528, mkRat 102336439228761386903545 97765161303959645982784, mkRat (-15463225613426408000267489) 439943225867818406922528, mkRat (-102336439228761386903545) 97765161303959645982784, mkRat 14483519301409 312674209528, (0 : ℚ), mkRat 31407282907458023196477145 879886451735636813845056, (0 : ℚ), mkRat (-31407282907458023196477145) 879886451735636813845056, (0 : ℚ)],
   [(0 : ℚ), (0 : ℚ), mkRat 403889648748949426094875 293295483911878937948352, mkRat 168006140815880776340575 146647741955939468974176, mkRat (-102336439228761386903545) 97765161303959645982784, mkRat (-168006140815880776340575) 146647741955939468974176, mkRat (-154922165165) 469011314292, (0 : ℚ), mkRat (-80777929749789885218975) 146647741955939468974176, (0 : ℚ), mkRat 80777929749789885218975 146647741955939468974176, (0 : ℚ)],
   [(0 : ℚ), (0 : ℚ), mkRat 6778326946495 312674209528, mkRat 154922165165 469011314292, mkRat 14483519301409 312674209528, mkRat (-154922165165) 469011314292, (-68 : ℚ), (0 : ℚ), mkRat (-40148551913855) 938022628584, (0 : ℚ), mkRat 40148551913855 938022628584, (0 : ℚ)],
   [(0 : ℚ), (0 : ℚ), (0 : ℚ), (0 : ℚ), (0 : ℚ), (0 : ℚ), (0 : ℚ), (0 : ℚ), (0 : ℚ), (0 : ℚ), (0 : ℚ), (0 : ℚ)],
   [(0 : ℚ), (0 : ℚ), mkRat 6252967292617427832154175 879886451735636813845056, mkRat 80777929749789885218975 146647741955939468974176, mkRat 31407282907458023196477145 879886451735636813845056, mkRat (-80777929749789885218975) 146647741955939468974176, mkRat (-40148551913855) 938022628584, (0 : ℚ), mkRat (-9515385010504781483712875) 439943225867818406922528, (0 : ℚ), mkRat 9515385010504781483712875 439943225867818406922528, (0 : ℚ)],
   [(0 : ℚ), (0 : ℚ), (0 : ℚ), (0 : ℚ), (0 : ℚ), (0 : ℚ), (0 : ℚ), (0 : ℚ), (0 : ℚ), (0 : ℚ), (0 : ℚ), (0 : ℚ)],
   [(0 : ℚ), (0 : ℚ), mkRat (-6252967292617427832154175) 879886451735636813845056, mkRat (-80777929749789885218975) 146647741955939468974176, mkRat (-31407282907458023196477145) 879886451735636813845056, mkRat 80777929749789885218975 146647741955939468974176, mkRat 40148551913855 938022628584, (0 : ℚ), mkRat 9515385010504781483712875 439943225867818406922528, (0 : ℚ), mkRat (-9515385010504781483712875) 439943225867818406922528, (0 : ℚ)],
   [(0 : ℚ), (0 : ℚ), (0 : ℚ), (0 : ℚ), (0 : ℚ), (0 : ℚ), (0 : ℚ), (0 : ℚ), (0 : ℚ), (0 : ℚ), (0 : ℚ), (0 : ℚ)]]

/-- Product `A22 · P` at iteration 3 of the C2 run. -/
def c2GA3 : Mat :=
  [[mkRat 5702677213360814879675574175 1239897414355664765658925428, (0 : ℚ), (0 : ℚ), (0 : ℚ), (90 : ℚ), (0 : ℚ), (0 : ℚ), (0 : ℚ), (0 : ℚ), mkRat 6696296930195832776913680105 1239897414355664765658925428, (0 : ℚ), (0 : ℚ)],
   [(0 : ℚ), (0 : ℚ), mkRat 49241090507933713603207830133 2479794828711329531317850856, mkRat 7794190552426865617102739555 2479794828711329531317850856, (0 : ℚ), (0 : ℚ), (90 : ℚ), (0 : ℚ), (0 : ℚ), (0 : ℚ), (0 : ℚ), (0 : ℚ)],
   [mkRat 39185983929268267916312569543 2479794828711329531317850856, (0 : ℚ), (0 : ℚ), (0 : ℚ), (0 : ℚ), (0 : ℚ), (10 : ℚ), mkRat 19618044500904040 2643640732265409, (0 : ℚ), mkRat 49043024034903007965209937905 2479794828711329531317850856, (0 : ℚ), (0 : ℚ)],
   [(0 : ℚ), (0 : ℚ), mkRat 3727656351160674860353484135 309974353588916191414731357, mkRat 23550086764663949984142875281 309974353588916191414731357, (23 : ℚ), (0 : ℚ), (0 : ℚ), (0 : ℚ), (0 : ℚ), (0 : ℚ), (0 : ℚ), (0 : ℚ)],
   [mkRat 60169917323991688037158125425 2479794828711329531317850856, (0 : ℚ), (0 : ℚ), (0 : ℚ), (0 : ℚ), (0 : ℚ), (0 : ℚ), mkRat 56872585619749354 2643640732265409, (0 : ℚ), mkRat 57588153599684161881457648903 2479794828711329531317850856, (0 : ℚ), (0 : ℚ)],
   [(0 : ℚ), (0 : ℚ), mkRat 23550086764663949984142875281 309974353588916191414731357, mkRat 3727656351160674860353484135 309974353588916191414731357, (0 : ℚ), (16 : ℚ), (0 : ℚ), (0 : ℚ), (0 : ℚ), (0 : ℚ), (0 : ℚ), (0 : ℚ)],
   [mkRat 11846925373964825184001474513 1239897414355664765658925428, mkRat 1339259386039166555382736021 2479794828711329531317850856, (0 : ℚ), (0 : ℚ), (0 : ℚ), (0 : ℚ), (0 : ℚ), mkRat 11862073419151280 2643640732265409, mkRat 1140535442672162975935114835 2479794828711329531317850856, mkRat 14826960754738118687156492855 1239897414355664765658925428, (0 : ℚ), (0 : ℚ)],
   [(0 : ℚ), (0 : ℚ), mkRat 677755700211031792791542570 309974353588916191414731357, mkRat 4281833957211627269844159142 309974353588916191414731357, (0 : ℚ), (0 : ℚ), (0 : ℚ), (0 : ℚ), (0 : ℚ), (0 : ℚ), (96 : ℚ), (0 : ℚ)],
   [mkRat 456233593044280 2643640732265409, mkRat 33075527837492726302118330215 2479794828711329531317850856, (0 : ℚ), (0 : ℚ), (0 : ℚ), (0 : ℚ), (0 : ℚ), mkRat 2187407139221129 2643640732265409, mkRat 38838522195135830106099344609 2479794828711329531317850856, (0 : ℚ), (0 : ℚ), (0 : ℚ)],
   [(0 : ℚ), (0 : ℚ), (0 : ℚ), (0 : ℚ), (0 : ℚ), (96 : ℚ), (0 : ℚ), (0 : ℚ), (0 : ℚ), (0 : ℚ), (0 : ℚ), (37 : ℚ)],
   [(0 : ℚ), mkRat 38838522195135830106099344609 2479794828711329531317850856, (0 : ℚ), (0 : ℚ), (0 : ℚ), (0 : ℚ), (0 : ℚ), (0 : ℚ), mkRat 33075527837492726302118330215 2479794828711329531317850856, (0 : ℚ), (0 : ℚ), (0 : ℚ)],
   [(0 : ℚ), (0 : ℚ), (0 : ℚ), (0 : ℚ), (0 : ℚ), (0 : ℚ), (0 : ℚ), (0 : ℚ), (0 : ℚ), (0 : ℚ), (37 : ℚ), (0 : ℚ)]]

/-- Product `A22 · P · B22` at iteration 3 of the C2 run. -/
def c2GAB3 : Mat :=
  [[mkRat 6697692318041909062856426584465 1239897414355664765658925428, mkRat 2635775625222622644922454640430 309974353588916191414731357, mkRat 1832326355183528091987248377055 1239897414355664765658925428, mkRat 5423816609176847624364313702975 619948707177832382829462714, mkRat 443598706471421402331477758005 1239897414355664765658925428, mkRat 439666772237843482860299473975 68883189686425820314384746, mkRat 341468598806225319504823545665 619948707177832382829462714, mkRat 1755189419942451368800864525145 619948707177832382829462714, mkRat 3119990939193594890107965271355 413299138118554921886308476, mkRat 1882397789299291115503337377295 1239897414355664765658925428, mkRat 107418147782362910282962538500 103324784529638730471577119, mkRat 1066503798384318447721200662575 137766379372851640628769492],
   [mkRat 1217575413261923990246338312243 619948707177832382829462714, mkRat 5281421156967345562095482397667 1239897414355664765658925428, mkRat 4369402335824701443812779666325 826598276237109843772616952, mkRat 3766804497177170748441088992211 826598276237109843772616952, mkRat 2333178299375133927515665965145 2479794828711329531317850856, mkRat 26295343385964579757502623793401 2479794828711329531317850856, mkRat 267876334572649267281065013937 206649569059277460943154238, mkRat 11042873483047165660720086132649 1239897414355664765658925428, mkRat 1437171750740988536263171479889 309974353588916191414731357, mkRat 5832824547924662315421281484193 2479794828711329531317850856, mkRat 7843594890849274117189088715581 1239897414355664765658925428, mkRat 6011205839282417436872134755517 1239897414355664765658925428],
   [mkRat 1682586711971511188042108219665 2479794828711329531317850856, mkRat 718487020236903573016645152281 309974353588916191414731357, mkRat 7760491797209590083222613701767 2479794828711329531317850856, mkRat 2624846571930083345583109197859 1239897414355664765658925428, mkRat 3754314098262903336060900453757 2479794828711329531317850856, mkRat 1477072751371304706373992973421 413299138118554921886308476, mkRat 1209763601195933348985582014861 1239897414355664765658925428, mkRat 1989534724922180357865481414901 1239897414355664765658925428, mkRat 293039626821972235021842974491 91844252915234427085846328, mkRat 1159765194000797530604018228711 2479794828711329531317850856, mkRat 95837286004501858732364535029 34441594843212910157192373, mkRat 1147785133393178620095217770215 275532758745703281257538984],
   [mkRat 1234230896664098413796593352045 309974353588916191414731357, mkRat 1738018862327024030479298885680 309974353588916191414731357, mkRat 188615307794464557897462864337 103324784529638730471577119, mkRat 247105308567021968501177846486 103324784529638730471577119, mkRat 2227434632625354097128822242483 309974353588916191414731357, mkRat 1100465955721437495026487021971 309974353588916191414731357, mkRat 445051703401528734394589482937 103324784529638730471577119, mkRat 1394781683606969639822670779269 309974353588916191414731357, mkRat 1670396668596078217370627202748 309974353588916191414731357, mkRat 1471861764245391924161041685099 309974353588916191414731357, mkRat 1838346393622550403393497768453 309974353588916191414731357, mkRat 2778434895192983767447364311426 309974353588916191414731357],
   [mkRat 2792822867946430935223521812375 2479794828711329531317850856, mkRat 1107640252265932892002808997055 309974353588916191414731357, mkRat 10283005874065073619768307048609 2479794828711329531317850856, mkRat 3231280056752429584484357898917 1239897414355664765658925428, mkRat 6018520975175226928822813889867 2479794828711329531317850856, mkRat 1729353635977945017683579080307 413299138118554921886308476, mkRat 2801432021438569827821339924923 1239897414355664765658925428, mkRat 1368417516105963667920434025643 1239897414355664765658925428, mkRat 3595455759433662925336894188917 826598276237109843772616952, mkRat 1663061861596729349539479349057 2479794828711329531317850856, mkRat 316633480530941554064418675575 103324784529638730471577119, mkRat 553205375405352566841505722219 91844252915234427085846328],
   [mkRat 1725714205756462298022676375948 309974353588916191414731357, mkRat 2137280506241606194587672539534 309974353588916191414731357, mkRat 186453660048124033714362077633 103324784529638730471577119, mkRat 184688965982338286139542933815 103324784529638730471577119, mkRat 899586646379632441862987686933 309974353588916191414731357, mkRat 2329090292386331246786100711877 309974353588916191414731357, mkRat 671165943872158470889858133620 103324784529638730471577119, mkRat 1976189411672493941812532728106 309974353588916191414731357, mkRat 1951343678736818563119093972440 309974353588916191414731357, mkRat 1883300639001036931712010523069 309974353588916191414731357, mkRat 1525185317170779189647752186354 309974353588916191414731357, mkRat 1969132304374856620260661152386 309974353588916191414731357],
   [mkRat 1020746675358622028902211701471 2479794828711329531317850856, mkRat 340618621153873845276396131329 275532758745703281257538984, mkRat 1999597495135671444168147202591 1239897414355664765658925428, mkRat 1286788986677409182980511249593 1239897414355664765658925428, mkRat 600573470512412566985798542831 619948707177832382829462714, mkRat 505033192184292862745499615595 309974353588916191414731357, mkRat 57150609570543207822977038817 91844252915234427085846328, mkRat 219347295855325520544142426297 413299138118554921886308476, mkRat 4306122568924194323632380070109 2479794828711329531317850856, mkRat 334119931750304988008058059023 1239897414355664765658925428, mkRat 435359676645717406018246636490 309974353588916191414731357, mkRat 1925718513833652993035563072147 826598276237109843772616952],
   [mkRat 1516773236147551927114145108984 309974353588916191414731357, mkRat 2550185852236152671007650789068 309974353588916191414731357, mkRat 565608520702128569653564898890 103324784529638730471577119, mkRat 679248483310958855067996230822 103324784529638730471577119, mkRat 553775804745471425902493277266 309974353588916191414731357, mkRat 117124310407009611138909538994 309974353588916191414731357, mkRat 634232105845996047813445521608 103324784529638730471577119, mkRat 662368303670432504755221329380 309974353588916191414731357, mkRat 1365736979568293623343604526192 309974353588916191414731357, mkRat 2329898783776547854619798454626 309974353588916191414731357, mkRat 327763516901786371160146120436 309974353588916191414731357, mkRat 942290178477930499647276493876 309974353588916191414731357],
   [mkRat 4328724726978999501536521257275 2479794828711329531317850856, mkRat 1534798061233017581655430048243 2479794828711329531317850856, mkRat 1313225633271485106217700661493 619948707177832382829462714, mkRat 1343934592300992128626125774509 1239897414355664765658925428, mkRat 3006638982631584282795794285029 1239897414355664765658925428, mkRat 884477112487547501917579234133 619948707177832382829462714, mkRat 2525768232607093027517786824333 2479794828711329531317850856, mkRat 2151668350336531802009997351623 1239897414355664765658925428, mkRat 1281732956972394066202826478389 2479794828711329531317850856, mkRat 993221492613471907695226823077 619948707177832382829462714, mkRat 522266583457869995921058371837 309974353588916191414731357, mkRat 892397727466354226615850607039 826598276237109843772616952],
   [(10427 : ℚ), (6900 : ℚ), (11643 : ℚ), (4297 : ℚ), (8956 : ℚ), (1258 : ℚ), (10585 : ℚ), (8240 : ℚ), (4869 : ℚ), (8366 : ℚ), (666 : ℚ), (3264 : ℚ)],
   [mkRat 4011153498186815261686924492909 2479794828711329531317850856, mkRat 1157643474312245420574141557525 2479794828711329531317850856, mkRat 1279355885257978428147854235323 619948707177832382829462714, mkRat 1291571403408492463445927639635 1239897414355664765658925428, mkRat 3004603556605835954254967055575 1239897414355664765658925428, mkRat 877376086285650436408564633873 619948707177832382829462714, mkRat 2322799140166320323757121895795 2479794828711329531317850856, mkRat 2242363978035137352784477704481 1239897414355664765658925428, mkRat 1359348276829754053713477061315 2479794828711329531317850856, mkRat 956432189546377752000986074139 619948707177832382829462714, mkRat 544773604884743363020557887812 309974353588916191414731357, mkRat 829893072554049950596493767673 826598276237109843772616952],
   [(1702 : ℚ), (2923 : ℚ), (1998 : ℚ), (2516 : ℚ), (185 : ℚ), (0 : ℚ), (2072 : ℚ), (555 : ℚ), (1443 : ℚ), (2590 : ℚ), (0 : ℚ), (666 : ℚ)]]

/-- Product `A22ᵀ · P` at iteration 3 of the C2 run. -/
def c2GT3 : Mat :=
  [[mkRat 5702677213360814879675574175 1239897414355664765658925428, (0 : ℚ), (0 : ℚ), (0 : ℚ), (90 : ℚ), (0 : ℚ), (0 : ℚ), (0 : ℚ), (0 : ℚ), mkRat 6696296930195832776913680105 1239897414355664765658925428, (0 : ℚ), (0 : ℚ)],
   [(0 : ℚ), (0 : ℚ), mkRat 49241090507933713603207830133 2479794828711329531317850856, mkRat 7794190552426865617102739555 2479794828711329531317850856, (0 : ℚ), (0 : ℚ), (90 : ℚ), (0 : ℚ), (0 : ℚ), (0 : ℚ), (0 : ℚ), (0 : ℚ)],
   [mkRat 39185983929268267916312569543 2479794828711329531317850856, (0 : ℚ), (0 : ℚ), (0 : ℚ), (0 : ℚ), (0 : ℚ), (10 : ℚ), mkRat 19618044500904040 2643640732265409, (0 : ℚ), mkRat 49043024034903007965209937905 2479794828711329531317850856, (0 : ℚ), (0 : ℚ)],
   [(0 : ℚ), (0 : ℚ), mkRat 3727656351160674860353484135 309974353588916191414731357, mkRat 23550086764663949984142875281 309974353588916191414731357, (23 : ℚ), (0 : ℚ), (0 : ℚ), (0 : ℚ), (0 : ℚ), (0 : ℚ), (0 : ℚ), (0 : ℚ)],
   [mkRat 60169917323991688037158125425 2479794828711329531317850856, (0 : ℚ), (0 : ℚ), (0 : ℚ), (0 : ℚ), (0 : ℚ), (0 : ℚ), mkRat 56872585619749354 2643640732265409, (0 : ℚ), mkRat 57588153599684161881457648903 2479794828711329531317850856, (0 : ℚ), (0 : ℚ)],
   [(0 : ℚ), (0 : ℚ), mkRat 23550086764663949984142875281 309974353588916191414731357, mkRat 3727656351160674860353484135 309974353588916191414731357, (0 : ℚ), (16 : ℚ), (0 : ℚ), (0 : ℚ), (0 : ℚ), (0 : ℚ), (0 : ℚ), (0 : ℚ)],
   [mkRat 11846925373964825184001474513 1239897414355664765658925428, mkRat 1339259386039166555382736021 2479794828711329531317850856, (0 : ℚ), (0 : ℚ), (0 : ℚ), (0 : ℚ), (0 : ℚ), mkRat 11862073419151280 2643640732265409, mkRat 1140535442672162975935114835 2479794828711329531317850856, mkRat 14826960754738118687156492855 1239897414355664765658925428, (0 : ℚ), (0 : ℚ)],
   [(0 : ℚ), (0 : ℚ), mkRat 677755700211031792791542570 309974353588916191414731357, mkRat 4281833957211627269844159142 309974353588916191414731357, (0 : ℚ), (0 : ℚ), (0 : ℚ), (0 : ℚ), (0 : ℚ), (0 : ℚ), (96 : ℚ), (0 : ℚ)],
   [mkRat 456233593044280 2643640732265409, mkRat 33075527837492726302118330215 2479794828711329531317850856, (0 : ℚ), (0 : ℚ), (0 : ℚ), (0 : ℚ), (0 : ℚ), mkRat 2187407139221129 2643640732265409, mkRat 38838522195135830106099344609 2479794828711329531317850856, (0 : ℚ), (0 : ℚ), (0 : ℚ)],
   [(0 : ℚ), (0 : ℚ), (0 : ℚ), (0 : ℚ), (0 : ℚ), (96 : ℚ), (0 : ℚ), (0 : ℚ), (0 : ℚ), (0 : ℚ), (0 : ℚ), (37 : ℚ)],
   [(0 : ℚ), mkRat 38838522195135830106099344609 2479794828711329531317850856, (0 : ℚ), (0 : ℚ), (0 : ℚ), (0 : ℚ), (0 : ℚ), (0 : ℚ), mkRat 33075527837492726302118330215 2479794828711329531317850856, (0 : ℚ), (0 : ℚ), (0 : ℚ)],
   [(0 : ℚ), (0 : ℚ), (0 : ℚ), (0 : ℚ), (0 : ℚ), (0 : ℚ), (0 : ℚ), (0 : ℚ), (0 : ℚ), (0 : ℚ), (37 : ℚ), (0 : ℚ)]]

/-- Product `A22ᵀ · P · B22ᵀ` at iteration 3 of the C2 run. -/
def c2GTB3 : Mat :=
  [[mkRat 6697692318041909062856426584465 1239897414355664765658925428, mkRat 2635775625222622644922454640430 309974353588916191414731357, mkRat 1832326355183528091987248377055 1239897414355664765658925428, mkRat 5423816609176847624364313702975 619948707177832382829462714, mkRat 443598706471421402331477758005 1239897414355664765658925428, mkRat 439666772237843482860299473975 68883189686425820314384746, mkRat 341468598806225319504823545665 619948707177832382829462714, mkRat 1755189419942451368800864525145 619948707177832382829462714, mkRat 3119990939193594890107965271355 413299138118554921886308476, mkRat 1882397789299291115503337377295 1239897414355664765658925428, mkRat 107418147782362910282962538500 103324784529638730471577119, mkRat 1066503798384318447721200662575 137766379372851640628769492],
   [mkRat 1217575413261923990246338312243 619948707177832382829462714, mkRat 5281421156967345562095482397667 1239897414355664765658925428, mkRat 4369402335824701443812779666325 826598276237109843772616952, mkRat 3766804497177170748441088992211 826598276237109843772616952, mkRat 2333178299375133927515665965145 2479794828711329531317850856, mkRat 26295343385964579757502623793401 2479794828711329531317850856, mkRat 267876334572649267281065013937 206649569059277460943154238, mkRat 11042873483047165660720086132649 1239897414355664765658925428, mkRat 1437171750740988536263171479889 309974353588916191414731357, mkRat 5832824547924662315421281484193 2479794828711329531317850856, mkRat 7843594890849274117189088715581 1239897414355664765658925428, mkRat 6011205839282417436872134755517 1239897414355664765658925428],
   [mkRat 1682586711971511188042108219665 2479794828711329531317850856, mkRat 718487020236903573016645152281 309974353588916191414731357, mkRat 7760491797209590083222613701767 2479794828711329531317850856, mkRat 2624846571930083345583109197859 1239897414355664765658925428, mkRat 3754314098262903336060900453757 2479794828711329531317850856, mkRat 1477072751371304706373992973421 413299138118554921886308476, mkRat 1209763601195933348985582014861 1239897414355664765658925428, mkRat 1989534724922180357865481414901 1239897414355664765658925428, mkRat 293039626821972235021842974491 91844252915234427085846328, mkRat 1159765194000797530604018228711 2479794828711329531317850856, mkRat 95837286004501858732364535029 34441594843212910157192373, mkRat 1147785133393178620095217770215 275532758745703281257538984],
   [mkRat 1234230896664098413796593352045 309974353588916191414731357, mkRat 1738018862327024030479298885680 309974353588916191414731357, mkRat 188615307794464557897462864337 103324784529638730471577119, mkRat 247105308567021968501177846486 103324784529638730471577119, mkRat 2227434632625354097128822242483 309974353588916191414731357, mkRat 1100465955721437495026487021971 309974353588916191414731357, mkRat 445051703401528734394589482937 103324784529638730471577119, mkRat 1394781683606969639822670779269 309974353588916191414731357, mkRat 1670396668596078217370627202748 309974353588916191414731357, mkRat 1471861764245391924161041685099 309974353588916191414731357, mkRat 1838346393622550403393497768453 309974353588916191414731357, mkRat 2778434895192983767447364311426 309974353588916191414731357],
   [mkRat 2792822867946430935223521812375 2479794828711329531317850856, mkRat 1107640252265932892002808997055 309974353588916191414731357, mkRat 10283005874065073619768307048609 2479794828711329531317850856, mkRat 3231280056752429584484357898917 1239897414355664765658925428, mkRat 6018520975175226928822813889867 2479794828711329531317850856, mkRat 1729353635977945017683579080307 413299138118554921886308476, mkRat 2801432021438569827821339924923 1239897414355664765658925428, mkRat 1368417516105963667920434025643 1239897414355664765658925428, mkRat 3595455759433662925336894188917 826598276237109843772616952, mkRat 1663061861596729349539479349057 2479794828711329531317850856, mkRat 316633480530941554064418675575 103324784529638730471577119, mkRat 553205375405352566841505722219 91844252915234427085846328],
   [mkRat 1725714205756462298022676375948 309974353588916191414731357, mkRat 2137280506241606194587672539534 309974353588916191414731357, mkRat 186453660048124033714362077633 103324784529638730471577119, mkRat 184688965982338286139542933815 103324784529638730471577119, mkRat 899586646379632441862987686933 309974353588916191414731357, mkRat 2329090292386331246786100711877 309974353588916191414731357, mkRat 671165943872158470889858133620 103324784529638730471577119, mkRat 1976189411672493941812532728106 309974353588916191414731357, mkRat 1951343678736818563119093972440 309974353588916191414731357, mkRat 1883300639001036931712010523069 309974353588916191414731357, mkRat 1525185317170779189647752186354 309974353588916191414731357, mkRat 1969132304374856620260661152386 309974353588916191414731357],
   [mkRat 1020746675358622028902211701471 2479794828711329531317850856, mkRat 340618621153873845276396131329 275532758745703281257538984, mkRat 1999597495135671444168147202591 1239897414355664765658925428, mkRat 1286788986677409182980511249593 1239897414355664765658925428, mkRat 600573470512412566985798542831 619948707177832382829462714, mkRat 505033192184292862745499615595 309974353588916191414731357, mkRat 57150609570543207822977038817 91844252915234427085846328, mkRat 219347295855325520544142426297 413299138118554921886308476, mkRat 4306122568924194323632380070109 2479794828711329531317850856, mkRat 334119931750304988008058059023 1239897414355664765658925428, mkRat 435359676645717406018246636490 309974353588916191414731357, mkRat 1925718513833652993035563072147 826598276237109843772616952],
   [mkRat 1516773236147551927114145108984 309974353588916191414731357, mkRat 2550185852236152671007650789068 309974353588916191414731357, mkRat 565608520702128569653564898890 103324784529638730471577119, mkRat 679248483310958855067996230822 103324784529638730471577119, mkRat 553775804745471425902493277266 309974353588916191414731357, mkRat 117124310407009611138909538994 309974353588916191414731357, mkRat 634232105845996047813445521608 103324784529638730471577119, mkRat 662368303670432504755221329380 309974353588916191414731357, mkRat 1365736979568293623343604526192 309974353588916191414731357, mkRat 2329898783776547854619798454626 309974353588916191414731357, mkRat 327763516901786371160146120436 309974353588916191414731357, mkRat 942290178477930499647276493876 309974353588916191414731357],
   [mkRat 4328724726978999501536521257275 2479794828711329531317850856, mkRat 1534798061233017581655430048243 2479794828711329531317850856, mkRat 1313225633271485106217700661493 619948707177832382829462714, mkRat 1343934592300992128626125774509 1239897414355664765658925428, mkRat 3006638982631584282795794285029 1239897414355664765658925428, mkRat 884477112487547501917579234133 619948707177832382829462714, mkRat 2525768232607093027517786824333 2479794828711329531317850856, mkRat 2151668350336531802009997351623 1239897414355664765658925428, mkRat 1281732956972394066202826478389 2479794828711329531317850856, mkRat 993221492613471907695226823077 619948707177832382829462714, mkRat 522266583457869995921058371837 309974353588916191414731357, mkRat 892397727466354226615850607039 826598276237109843772616952],
   [(10427 : ℚ), (6900 : ℚ), (11643 : ℚ), (4297 : ℚ), (8956 : ℚ), (1258 : ℚ), (10585 : ℚ), (8240 : ℚ), (4869 : ℚ), (8366 : ℚ), (666 : ℚ), (3264 : ℚ)],
   [mkRat 4011153498186815261686924492909 2479794828711329531317850856, mkRat 1157643474312245420574141557525 2479794828711329531317850856, mkRat 1279355885257978428147854235323 619948707177832382829462714, mkRat 1291571403408492463445927639635 1239897414355664765658925428, mkRat 3004603556605835954254967055575 1239897414355664765658925428, mkRat 877376086285650436408564633873 619948707177832382829462714, mkRat 2322799140166320323757121895795 2479794828711329531317850856, mkRat 2242363978035137352784477704481 1239897414355664765658925428, mkRat 1359348276829754053713477061315 2479794828711329531317850856, mkRat 956432189546377752000986074139 619948707177832382829462714, mkRat 544773604884743363020557887812 309974353588916191414731357, mkRat 829893072554049950596493767673 826598276237109843772616952],
   [(1702 : ℚ), (2923 : ℚ), (1998 : ℚ), (2516 : ℚ), (185 : ℚ), (0 : ℚ), (2072 : ℚ), (555 : ℚ), (1443 : ℚ), (2590 : ℚ), (0 : ℚ), (666 : ℚ)]]

/-- Cost matrix (gradient) of iteration 3 of the C2 run. -/
def c2C3 : Mat :=
  [[mkRat 6697692318041909062856426584465 619948707177832382829462714, mkRat 5271551250445245289844909280860 309974353588916191414731357, mkRat 1832326355183528091987248377055 619948707177832382829462714, mkRat 5423816609176847624364313702975 309974353588916191414731357, mkRat 443598706471421402331477758005 619948707177832382829462714, mkRat 439666772237843482860299473975 34441594843212910157192373, mkRat 341468598806225319504823545665 309974353588916191414731357, mkRat 1755189419942451368800864525145 309974353588916191414731357, mkRat 3119990939193594890107965271355 206649569059277460943154238, mkRat 1882397789299291115503337377295 619948707177832382829462714, mkRat 214836295564725820565925077000 103324784529638730471577119, mkRat 1066503798384318447721200662575 68883189686425820314384746],
   [mkRat 1217575413261923990246338312243 309974353588916191414731357, mkRat 5281421156967345562095482397667 619948707177832382829462714, mkRat 4369402335824701443812779666325 413299138118554921886308476, mkRat 3766804497177170748441088992211 413299138118554921886308476, mkRat 2333178299375133927515665965145 1239897414355664765658925428, mkRat 26295343385964579757502623793401 1239897414355664765658925428, mkRat 267876334572649267281065013937 103324784529638730471577119, mkRat 11042873483047165660720086132649 619948707177832382829462714, mkRat 2874343501481977072526342959778 309974353588916191414731357, mkRat 5832824547924662315421281484193 1239897414355664765658925428, mkRat 7843594890849274117189088715581 619948707177832382829462714, mkRat 6011205839282417436872134755517 619948707177832382829462714],
   [mkRat 1682586711971511188042108219665 1239897414355664765658925428, mkRat 1436974040473807146033290304562 309974353588916191414731357, mkRat 7760491797209590083222613701767 1239897414355664765658925428, mkRat 2624846571930083345583109197859 619948707177832382829462714, mkRat 3754314098262903336060900453757 1239897414355664765658925428, mkRat 1477072751371304706373992973421 206649569059277460943154238, mkRat 1209763601195933348985582014861 619948707177832382829462714, mkRat 1989534724922180357865481414901 619948707177832382829462714, mkRat 293039626821972235021842974491 45922126457617213542923164, mkRat 1159765194000797530604018228711 1239897414355664765658925428, mkRat 191674572009003717464729070058 34441594843212910157192373, mkRat 1147785133393178620095217770215 137766379372851640628769492],
   [mkRat 2468461793328196827593186704090 309974353588916191414731357, mkRat 3476037724654048060958597771360 309974353588916191414731357, mkRat 377230615588929115794925728674 103324784529638730471577119, mkRat 494210617134043937002355692972 103324784529638730471577119, mkRat 4454869265250708194257644484966 309974353588916191414731357, mkRat 2200931911442874990052974043942 309974353588916191414731357, mkRat 890103406803057468789178965874 103324784529638730471577119, mkRat 2789563367213939279645341558538 309974353588916191414731357, mkRat 3340793337192156434741254405496 309974353588916191414731357, mkRat 2943723528490783848322083370198 309974353588916191414731357, mkRat 3676692787245100806786995536906 309974353588916191414731357, mkRat 5556869790385967534894728622852 309974353588916191414731357],
   [mkRat 2792822867946430935223521812375 1239897414355664765658925428, mkRat 2215280504531865784005617994110 309974353588916191414731357, mkRat 10283005874065073619768307048609 1239897414355664765658925428, mkRat 3231280056752429584484357898917 619948707177832382829462714, mkRat 6018520975175226928822813889867 1239897414355664765658925428, mkRat 1729353635977945017683579080307 206649569059277460943154238, mkRat 2801432021438569827821339924923 619948707177832382829462714, mkRat 1368417516105963667920434025643 619948707177832382829462714, mkRat 3595455759433662925336894188917 413299138118554921886308476, mkRat 1663061861596729349539479349057 1239897414355664765658925428, mkRat 633266961061883108128837351150 103324784529638730471577119, mkRat 553205375405352566841505722219 45922126457617213542923164],
   [mkRat 3451428411512924596045352751896 309974353588916191414731357, mkRat 4274561012483212389175345079068 309974353588916191414731357, mkRat 372907320096248067428724155266 103324784529638730471577119, mkRat 369377931964676572279085867630 103324784529638730471577119, mkRat 1799173292759264883725975373866 309974353588916191414731357, mkRat 4658180584772662493572201423754 309974353588916191414731357, mkRat 1342331887744316941779716267240 103324784529638730471577119, mkRat 3952378823344987883625065456212 309974353588916191414731357, mkRat 3902687357473637126238187944880 309974353588916191414731357, mkRat 3766601278002073863424021046138 309974353588916191414731357, mkRat 3050370634341558379295504372708 309974353588916191414731357, mkRat 3938264608749713240521322304772 309974353588916191414731357],
   [mkRat 1020746675358622028902211701471 1239897414355664765658925428, mkRat 340618621153873845276396131329 137766379372851640628769492, mkRat 1999597495135671444168147202591 619948707177832382829462714, mkRat 1286788986677409182980511249593 619948707177832382829462714, mkRat 600573470512412566985798542831 309974353588916191414731357, mkRat 1010066384368585725490999231190 309974353588916191414731357, mkRat 57150609570543207822977038817 45922126457617213542923164, mkRat 219347295855325520544142426297 206649569059277460943154238, mkRat 4306122568924194323632380070109 1239897414355664765658925428, mkRat 334119931750304988008058059023 619948707177832382829462714, mkRat 870719353291434812036493272980 309974353588916191414731357, mkRat 1925718513833652993035563072147 413299138118554921886308476],
   [mkRat 3033546472295103854228290217968 309974353588916191414731357, mkRat 5100371704472305342015301578136 309974353588916191414731357, mkRat 1131217041404257139307129797780 103324784529638730471577119, mkRat 1358496966621917710135992461644 103324784529638730471577119, mkRat 1107551609490942851804986554532 309974353588916191414731357, mkRat 234248620814019222277819077988 309974353588916191414731357, mkRat 1268464211691992095626891043216 103324784529638730471577119, mkRat 1324736607340865009510442658760 309974353588916191414731357, mkRat 2731473959136587246687209052384 309974353588916191414731357, mkRat 4659797567553095709239596909252 309974353588916191414731357, mkRat 655527033803572742320292240872 309974353588916191414731357, mkRat 1884580356955860999294552987752 309974353588916191414731357],
   [mkRat 4328724726978999501536521257275 1239897414355664765658925428, mkRat 1534798061233017581655430048243 1239897414355664765658925428, mkRat 1313225633271485106217700661493 309974353588916191414731357, mkRat 1343934592300992128626125774509 619948707177832382829462714, mkRat 3006638982631584282795794285029 619948707177832382829462714, mkRat 884477112487547501917579234133 309974353588916191414731357, mkRat 2525768232607093027517786824333 1239897414355664765658925428, mkRat 2151668350336531802009997351623 619948707177832382829462714, mkRat 1281732956972394066202826478389 1239897414355664765658925428, mkRat 993221492613471907695226823077 309974353588916191414731357, mkRat 1044533166915739991842116743674 309974353588916191414731357, mkRat 892397727466354226615850607039 413299138118554921886308476],
   [(20854 : ℚ), (13800 : ℚ), (23286 : ℚ), (8594 : ℚ), (17912 : ℚ), (2516 : ℚ), (21170 : ℚ), (16480 : ℚ), (9738 : ℚ), (16732 : ℚ), (1332 : ℚ), (6528 : ℚ)],
   [mkRat 4011153498186815261686924492909 1239897414355664765658925428, mkRat 1157643474312245420574141557525 1239897414355664765658925428, mkRat 1279355885257978428147854235323 309974353588916191414731357, mkRat 1291571403408492463445927639635 619948707177832382829462714, mkRat 3004603556605835954254967055575 619948707177832382829462714, mkRat 877376086285650436408564633873 309974353588916191414731357, mkRat 2322799140166320323757121895795 1239897414355664765658925428, mkRat 2242363978035137352784477704481 619948707177832382829462714, mkRat 1359348276829754053713477061315 1239897414355664765658925428, mkRat 956432189546377752000986074139 309974353588916191414731357, mkRat 1089547209769486726041115775624 309974353588916191414731357, mkRat 829893072554049950596493767673 413299138118554921886308476],
   [(3404 : ℚ), (5846 : ℚ), (3996 : ℚ), (5032 : ℚ), (370 : ℚ), (0 : ℚ), (4144 : ℚ), (1110 : ℚ), (2886 : ℚ), (5180 : ℚ), (0 : ℚ), (1332 : ℚ)]]

/-- Assignment of iteration 3 of the C2 run. -/
def c2q3 : List Nat := [6, 4, 0, 2, 9, 3, 7, 5, 8, 10, 1, 11]

/-- Iterate 4 of the C2 run. -/
def c2P4 : Mat :=
  [[(0 : ℚ), (0 : ℚ), (0 : ℚ), (0 : ℚ), (0 : ℚ), (0 : ℚ), (1 : ℚ), (0 : ℚ), (0 : ℚ), (0 : ℚ), (0 : ℚ), (0 : ℚ)],
   [(0 : ℚ), (0 : ℚ), (0 : ℚ), (0 : ℚ), (1 : ℚ), (0 : ℚ), (0 : ℚ), (0 : ℚ), (0 : ℚ), (0 : ℚ), (0 : ℚ), (0 : ℚ)],
   [mkRat 5941722421793279379466183050215793364933819533484201402483 10850169501815458690208292463535946994926792477203824520424, (0 : ℚ), (0 : ℚ), (0 : ℚ), (0 : ℚ), (0 : ℚ), (0 : ℚ), (0 : ℚ), (0 : ℚ), mkRat 4908447080022179310742109413320153629992972943719623117941 10850169501815458690208292463535946994926792477203824520424, (0 : ℚ), (0 : ℚ)],
   [(0 : ℚ), (0 : ℚ), mkRat 1372595233895226156419013728889935166358932205251304692277 1550024214545065527172613209076563856418113211029117788632, mkRat 177428980649839370753599480186628690059181005777813096355 1550024214545065527172613209076563856418113211029117788632, (0 : ℚ), (0 : ℚ), (0 : ℚ), (0 : ℚ), (0 : ℚ), (0 : ℚ), (0 : ℚ), (0 : ℚ)],
   [mkRat 477137636258747498667197651150909856256680686122078364003 1550024214545065527172613209076563856418113211029117788632, (0 : ℚ), (0 : ℚ), (0 : ℚ), (0 : ℚ), (0 : ℚ), (0 : ℚ), mkRat 1672117045383718041360122198576080909028749880 11567065837414203872657960445175633966629877761, (0 : ℚ), mkRat 5941722421793279379466183050215793364933819533484201402483 10850169501815458690208292463535946994926792477203824520424, (0 : ℚ), (0 : ℚ)],
   [(0 : ℚ), (0 : ℚ), mkRat 177428980649839370753599480186628690059181005777813096355 1550024214545065527172613209076563856418113211029117788632, mkRat 1372595233895226156419013728889935166358932205251304692277 1550024214545065527172613209076563856418113211029117788632, (0 : ℚ), (0 : ℚ), (0 : ℚ), (0 : ℚ), (0 : ℚ), (0 : ℚ), (0 : ℚ), (0 : ℚ)],
   [mkRat 1672117045383718041360122198576080909028749880 11567065837414203872657960445175633966629877761, (0 : ℚ), (0 : ℚ), (0 : ℚ), (0 : ℚ), (0 : ℚ), (0 : ℚ), mkRat 9894948792030485831297838246599553057601127881 11567065837414203872657960445175633966629877761, (0 : ℚ), (0 : ℚ), (0 : ℚ), (0 : ℚ)],
   [(0 : ℚ), (0 : ℚ), (0 : ℚ), (0 : ℚ), (0 : ℚ), (1 : ℚ), (0 : ℚ), (0 : ℚ), (0 : ℚ), (0 : ℚ), (0 : ℚ), (0 : ℚ)],
   [(0 : ℚ), mkRat 4908447080022179310742109413320153629992972943719623117941 10850169501815458690208292463535946994926792477203824520424, (0 : ℚ), (0 : ℚ), (0 : ℚ), (0 : ℚ), (0 : ℚ), (0 : ℚ), mkRat 5941722421793279379466183050215793364933819533484201402483 10850169501815458690208292463535946994926792477203824520424, (0 : ℚ), (0 : ℚ), (0 : ℚ)],
   [(0 : ℚ), (0 : ℚ), (0 : ℚ), (0 : ℚ), (0 : ℚ), (0 : ℚ), (0 : ℚ), (0 : ℚ), (0 : ℚ), (0 : ℚ), (1 : ℚ), (0 : ℚ)],
   [(0 : ℚ), mkRat 5941722421793279379466183050215793364933819533484201402483 10850169501815458690208292463535946994926792477203824520424, (0 : ℚ), (0 : ℚ), (0 : ℚ), (0 : ℚ), (0 : ℚ), (0 : ℚ), mkRat 4908447080022179310742109413320153629992972943719623117941 10850169501815458690208292463535946994926792477203824520424, (0 : ℚ), (0 : ℚ), (0 : ℚ)],
   [(0 : ℚ), (0 : ℚ), (0 : ℚ), (0 : ℚ), (0 : ℚ), (0 : ℚ), (0 : ℚ), (0 : ℚ), (0 : ℚ), (0 : ℚ), (0 : ℚ), (1 : ℚ)]]

/-- Squared Frobenius move of iteration 3 of the C2 run. -/
def c2d3 : ℚ := mkRat 12611400502461341387823189654196087806223919613992299569018654377144119013924465226328826667113855443467040906432 204385726073135970523110793968277773093683591817668577484990596164204926762456889545963663896298153707677211099201

/-- Hungarian state after row 1 of assignment 3 of the C2 run. -/
def c2K3R1 : LapState :=
  ⟨[(0 : ℚ), mkRat 443598706471421402331477758005 619948707177832382829462714, (0 : ℚ), (0 : ℚ), (0 : ℚ), (0 : ℚ), (0 : ℚ), (0 : ℚ), (0 : ℚ), (0 : ℚ), (0 : ℚ), (0 : ℚ), (0 : ℚ)],
  [mkRat (-443598706471421402331477758005) 619948707177832382829462714, (0 : ℚ), (0 : ℚ), (0 : ℚ), (0 : ℚ), (0 : ℚ), (0 : ℚ), (0 : ℚ), (0 : ℚ), (0 : ℚ), (0 : ℚ), (0 : ℚ), (0 : ℚ)],
  [1, 0, 0, 0, 0, 1, 0, 0, 0, 0, 0, 0, 0], [0, 0, 0, 0, 0, 0, 0, 0, 0, 0, 0, 0, 0]⟩

/-- Hungarian state after row 2 of assignment 3 of the C2 run. -/
def c2K3R2 : LapState :=
  ⟨[(0 : ℚ), mkRat 341468598806225319504823545665 309974353588916191414731357, mkRat 2811855281657192400872004631795 1239897414355664765658925428, (0 : ℚ), (0 : ℚ), (0 : ℚ), (0 : ℚ), (0 : ℚ), (0 : ℚ), (0 : ℚ), (0 : ℚ), (0 : ℚ), (0 : ℚ)],
  [mkRat (-411005854955559467281662238645) 137766379372851640628769492, (0 : ℚ), (0 : ℚ), (0 : ℚ), (0 : ℚ), mkRat (-26593165682336581853129925925) 68883189686425820314384746, (0 : ℚ), (0 : ℚ), (0 : ℚ), (0 : ℚ), (0 : ℚ), (0 : ℚ), (0 : ℚ)],
  [2, 0, 0, 0, 0, 2, 0, 1, 0, 0, 0, 0, 0], [0, 0, 0, 5, 0, 0, 5, 5, 5, 0, 5, 5, 0]⟩

/-- Hungarian state after row 3 of assignment 3 of the C2 run. -/
def c2K3R3 : LapState :=
  ⟨[(0 : ℚ), mkRat 341468598806225319504823545665 309974353588916191414731357, mkRat 2811855281657192400872004631795 1239897414355664765658925428, mkRat 1159765194000797530604018228711 1239897414355664765658925428, (0 : ℚ), (0 : ℚ), (0 : ℚ), (0 : ℚ), (0 : ℚ), (0 : ℚ), (0 : ℚ), (0 : ℚ), (0 : ℚ)],
  [mkRat (-1214704472150208184034744594129) 309974353588916191414731357, (0 : ℚ), (0 : ℚ), (0 : ℚ), (0 : ℚ), mkRat (-26593165682336581853129925925) 68883189686425820314384746, (0 : ℚ), (0 : ℚ), (0 : ℚ), (0 : ℚ), (0 : ℚ), (0 : ℚ), (0 : ℚ)],
  [3, 0, 0, 0, 0, 2, 0, 1, 0, 0, 3, 0, 0], [0, 0, 0, 0, 0, 0, 0, 0, 0, 0, 0, 0, 0]⟩

/-- Hungarian state after row 4 of assignment 3 of the C2 run. -/
def c2K3R4 : LapState :=
  ⟨[(0 : ℚ), mkRat 341468598806225319504823545665 309974353588916191414731357, mkRat 2811855281657192400872004631795 1239897414355664765658925428, mkRat 1159765194000797530604018228711 1239897414355664765658925428, mkRat 377230615588929115794925728674 103324784529638730471577119, (0 : ℚ), (0 : ℚ), (0 : ℚ), (0 : ℚ), (0 : ℚ), (0 : ℚ), (0 : ℚ), (0 : ℚ)],
  [mkRat (-2346396318916995531419521780151) 309974353588916191414731357, (0 : ℚ), (0 : ℚ), (0 : ℚ), (0 : ℚ), mkRat (-26593165682336581853129925925) 68883189686425820314384746, (0 : ℚ), (0 : ℚ), (0 : ℚ), (0 : ℚ), (0 : ℚ), (0 : ℚ), (0 : ℚ)],
  [4, 0, 0, 4, 0, 2, 0, 1, 0, 0, 3, 0, 0], [0, 0, 0, 0, 0, 0, 0, 0, 0, 0, 0, 0, 0]⟩

/-- Hungarian state after row 5 of assignment 3 of the C2 run. -/
def c2K3R5 : LapState :=
  ⟨[(0 : ℚ), mkRat 341468598806225319504823545665 309974353588916191414731357, mkRat 2811855281657192400872004631795 1239897414355664765658925428, mkRat 1682586711971511188042108219665 1239897414355664765658925428, mkRat 377230615588929115794925728674 103324784529638730471577119, mkRat 728627793189147668992523113337 413299138118554921886308476, (0 : ℚ), (0 : ℚ), (0 : ℚ), (0 : ℚ), (0 : ℚ), (0 : ℚ), (0 : ℚ)],
  [mkRat (-11571468655235425132655656460615) 1239897414355664765658925428, (0 : ℚ), (0 : ℚ), (0 : ℚ), (0 : ℚ), mkRat (-26593165682336581853129925925) 68883189686425820314384746, (0 : ℚ), (0 : ℚ), (0 : ℚ), (0 : ℚ), mkRat (-261410758985356828719044995477) 619948707177832382829462714, (0 : ℚ), (0 : ℚ)],
  [5, 3, 0, 4, 0, 2, 0, 1, 0, 0, 5, 0, 0], [0, 10, 10, 10, 10, 10, 10, 10, 0, 10, 0, 10, 10]⟩

/-- Hungarian state after row 6 of assignment 3 of the C2 run. -/
def c2K3R6 : LapState :=
  ⟨[(0 : ℚ), mkRat 341468598806225319504823545665 309974353588916191414731357, mkRat 2811855281657192400872004631795 1239897414355664765658925428, mkRat 1682586711971511188042108219665 1239897414355664765658925428, mkRat 377230615588929115794925728674 103324784529638730471577119, mkRat 728627793189147668992523113337 413299138118554921886308476, mkRat 369377931964676572279085867630 103324784529638730471577119, (0 : ℚ), (0 : ℚ), (0 : ℚ), (0 : ℚ), (0 : ℚ), (0 : ℚ)],
  [mkRat (-16004003838811544000004686872175) 1239897414355664765658925428, (0 : ℚ), (0 : ℚ), (0 : ℚ), (0 : ℚ), mkRat (-26593165682336581853129925925) 68883189686425820314384746, (0 : ℚ), (0 : ℚ), (0 : ℚ), (0 : ℚ), mkRat (-261410758985356828719044995477) 619948707177832382829462714, (0 : ℚ), (0 : ℚ)],
  [6, 3, 0, 4, 6, 2, 0, 1, 0, 0, 5, 0, 0], [0, 0, 0, 0, 0, 0, 0, 0, 0, 0, 0, 0, 0]⟩

/-- Hungarian state after row 7 of assignment 3 of the C2 run. -/
def c2K3R7 : LapState :=
  ⟨[(0 : ℚ), mkRat 341468598806225319504823545665 309974353588916191414731357, mkRat 2811855281657192400872004631795 1239897414355664765658925428, mkRat 54942328104023396733465307666 34441594843212910157192373, mkRat 377230615588929115794925728674 103324784529638730471577119, mkRat 1240610239670387050670106098161 619948707177832382829462714, mkRat 369377931964676572279085867630 103324784529638730471577119, mkRat 219347295855325520544142426297 206649569059277460943154238, (0 : ℚ), (0 : ℚ), (0 : ℚ), (0 : ℚ), (0 : ℚ)],
  [mkRat (-17320087613943497123269541429957) 1239897414355664765658925428, mkRat (-295337099773331094362642856311) 1239897414355664765658925428, (0 : ℚ), (0 : ℚ), (0 : ℚ), mkRat (-26593165682336581853129925925) 68883189686425820314384746, (0 : ℚ), (0 : ℚ), (0 : ℚ), (0 : ℚ), mkRat (-818158617744044751800732847265) 1239897414355664765658925428, (0 : ℚ), (0 : ℚ)],
  [7, 3, 0, 4, 6, 2, 0, 1, 7, 0, 5, 0, 0], [0, 0, 0, 0, 0, 0, 0, 0, 0, 0, 1, 0, 0]⟩

/-- Hungarian state after row 8 of assignment 3 of the C2 run. -/
def c2K3R8 : LapState :=
  ⟨[(0 : ℚ), mkRat 341468598806225319504823545665 309974353588916191414731357, mkRat 2811855281657192400872004631795 1239897414355664765658925428, mkRat 54942328104023396733465307666 34441594843212910157192373, mkRat 377230615588929115794925728674 103324784529638730471577119, mkRat 1240610239670387050670106098161 619948707177832382829462714, mkRat 369377931964676572279085867630 103324784529638730471577119, mkRat 219347295855325520544142426297 206649569059277460943154238, mkRat 234248620814019222277819077988 309974353588916191414731357, (0 : ℚ), (0 : ℚ), (0 : ℚ), (0 : ℚ)],
  [mkRat (-2028564677466619334708979749101) 137766379372851640628769492, mkRat (-295337099773331094362642856311) 1239897414355664765658925428, (0 : ℚ), (0 : ℚ), (0 : ℚ), mkRat (-26593165682336581853129925925) 68883189686425820314384746, (0 : ℚ), (0 : ℚ), (0 : ℚ), (0 : ℚ), mkRat (-818158617744044751800732847265) 1239897414355664765658925428, (0 : ℚ), (0 : ℚ)],
  [8, 3, 0, 4, 6, 2, 8, 1, 7, 0, 5, 0, 0], [0, 0, 0, 0, 0, 0, 0, 0, 0, 0, 0, 0, 0]⟩

/-- Hungarian state after row 9 of assignment 3 of the C2 run. -/
def c2K3R9 : LapState :=
  ⟨[(0 : ℚ), mkRat 341468598806225319504823545665 309974353588916191414731357, mkRat 2811855281657192400872004631795 1239897414355664765658925428, mkRat 54942328104023396733465307666 34441594843212910157192373, mkRat 377230615588929115794925728674 103324784529638730471577119, mkRat 1240610239670387050670106098161 619948707177832382829462714, mkRat 369377931964676572279085867630 103324784529638730471577119, mkRat 219347295855325520544142426297 206649569059277460943154238, mkRat 234248620814019222277819077988 309974353588916191414731357, mkRat 1281732956972394066202826478389 1239897414355664765658925428, (0 : ℚ), (0 : ℚ), (0 : ℚ)],
  [mkRat (-9769407527085984039291822110149) 619948707177832382829462714, mkRat (-295337099773331094362642856311) 1239897414355664765658925428, (0 : ℚ), (0 : ℚ), (0 : ℚ), mkRat (-26593165682336581853129925925) 68883189686425820314384746, (0 : ℚ), (0 : ℚ), (0 : ℚ), (0 : ℚ), mkRat (-818158617744044751800732847265) 1239897414355664765658925428, (0 : ℚ), (0 : ℚ)],
  [9, 3, 0, 4, 6, 2, 8, 1, 7, 9, 5, 0, 0], [0, 0, 0, 0, 0, 0, 0, 0, 0, 0, 0, 0, 0]⟩

/-- Hungarian state after row 10 of assignment 3 of the C2 run. -/
def c2K3R10 : LapState :=
  ⟨[(0 : ℚ), mkRat 341468598806225319504823545665 309974353588916191414731357, mkRat 2811855281657192400872004631795 1239897414355664765658925428, mkRat 54942328104023396733465307666 34441594843212910157192373, mkRat 377230615588929115794925728674 103324784529638730471577119, mkRat 1240610239670387050670106098161 619948707177832382829462714, mkRat 369377931964676572279085867630 103324784529638730471577119, mkRat 219347295855325520544142426297 206649569059277460943154238, mkRat 234248620814019222277819077988 309974353588916191414731357, mkRat 1281732956972394066202826478389 1239897414355664765658925428, (1332 : ℚ), (0 : ℚ), (0 : ℚ)],
  [mkRat (-10595179205046856773220666445197) 619948707177832382829462714, mkRat (-295337099773331094362642856311) 1239897414355664765658925428, (0 : ℚ), (0 : ℚ), (0 : ℚ), mkRat (-26593165682336581853129925925) 68883189686425820314384746, (0 : ℚ), (0 : ℚ), (0 : ℚ), (0 : ℚ), mkRat (-818158617744044751800732847265) 1239897414355664765658925428, (0 : ℚ), (0 : ℚ)],
  [10, 3, 0, 4, 6, 2, 8, 1, 7, 9, 5, 10, 0], [0, 0, 0, 0, 0, 0, 0, 0, 0, 0, 0, 0, 0]⟩

/-- Hungarian state after row 11 of assignment 3 of the C2 run. -/
def c2K3R11 : LapState :=
  ⟨[(0 : ℚ), mkRat 341468598806225319504823545665 309974353588916191414731357, mkRat 2811855281657192400872004631795 1239897414355664765658925428, mkRat 54942328104023396733465307666 34441594843212910157192373, mkRat 377230615588929115794925728674 103324784529638730471577119, mkRat 1240610239670387050670106098161 619948707177832382829462714, mkRat 369377931964676572279085867630 103324784529638730471577119, mkRat 219347295855325520544142426297 206649569059277460943154238, mkRat 234248620814019222277819077988 309974353588916191414731357, mkRat 1281732956972394066202826478389 1239897414355664765658925428, (1332 : ℚ), mkRat 1157643474312245420574141557525 1239897414355664765658925428, (0 : ℚ)],
  [mkRat (-22348001884405958967015474447919) 1239897414355664765658925428, mkRat (-295337099773331094362642856311) 1239897414355664765658925428, (0 : ℚ), (0 : ℚ), (0 : ℚ), mkRat (-26593165682336581853129925925) 68883189686425820314384746, (0 : ℚ), (0 : ℚ), (0 : ℚ), (0 : ℚ), mkRat (-818158617744044751800732847265) 1239897414355664765658925428, (0 : ℚ), (0 : ℚ)],
  [11, 3, 11, 4, 6, 2, 8, 1, 7, 9, 5, 10, 0], [0, 0, 0, 0, 0, 0, 0, 0, 0, 0, 0, 0, 0]⟩

/-- Hungarian state after row 12 of assignment 3 of the C2 run. -/
def c2K3R12 : LapState :=
  ⟨[(0 : ℚ), mkRat 559105997446131167575355414099 413299138118554921886308476, mkRat 3525959611985283432079552226881 1239897414355664765658925428, mkRat 62588362159216662788362014472 34441594843212910157192373, mkRat 377230615588929115794925728674 103324784529638730471577119, mkRat 1378238852663865839658246820669 619948707177832382829462714, mkRat 369377931964676572279085867630 103324784529638730471577119, mkRat 265223500186485116873522667133 206649569059277460943154238, mkRat 647134459794455589242241245512 309974353588916191414731357, mkRat 1281732956972394066202826478389 1239897414355664765658925428, (2664 : ℚ), mkRat 1157643474312245420574141557525 1239897414355664765658925428, (1332 : ℚ)],
  [mkRat (-23999545240327704434873163118015) 1239897414355664765658925428, mkRat (-570594325760288672338924301327) 1239897414355664765658925428, (0 : ℚ), (0 : ℚ), (0 : ℚ), (-962 : ℚ), (-1332 : ℚ), mkRat (-311443597113492224706772059637) 1239897414355664765658925428, (-222 : ℚ), (0 : ℚ), mkRat (-1093415843731002329777014292281) 1239897414355664765658925428, (-1332 : ℚ), (0 : ℚ)],
  [12, 3, 11, 4, 6, 2, 8, 1, 7, 9, 5, 10, 12], [0, 8, 8, 7, 8, 0, 0, 5, 0, 0, 1, 0, 0]⟩

/-- Step direction matrix `Q − P` at iteration 3 of the C2 run. -/
def c2R3 : Mat :=
  [[(0 : ℚ), (0 : ℚ), (0 : ℚ), (0 : ℚ), (0 : ℚ), (0 : ℚ), (0 : ℚ), (0 : ℚ), (0 : ℚ), (0 : ℚ), (0 : ℚ), (0 : ℚ)],
   [(0 : ℚ), (0 : ℚ), (0 : ℚ), (0 : ℚ), (0 : ℚ), (0 : ℚ), (0 : ℚ), (0 : ℚ), (0 : ℚ), (0 : ℚ), (0 : ℚ), (0 : ℚ)],
   [mkRat 1339259386039166555382736021 2479794828711329531317850856, (0 : ℚ), (0 : ℚ), (0 : ℚ), (0 : ℚ), (0 : ℚ), (0 : ℚ), (0 : ℚ), (0 : ℚ), mkRat (-1339259386039166555382736021) 2479794828711329531317850856, (0 : ℚ), (0 : ℚ)],
   [(0 : ℚ), (0 : ℚ), mkRat 338877850105515896395771285 2479794828711329531317850856, mkRat (-338877850105515896395771285) 2479794828711329531317850856, (0 : ℚ), (0 : ℚ), (0 : ℚ), (0 : ℚ), (0 : ℚ), (0 : ℚ), (0 : ℚ), (0 : ℚ)],
   [mkRat (-911301951843448091077036501) 2479794828711329531317850856, (0 : ℚ), (0 : ℚ), (0 : ℚ), (0 : ℚ), (0 : ℚ), (0 : ℚ), mkRat (-456233593044280) 2643640732265409, (0 : ℚ), mkRat 1339259386039166555382736021 2479794828711329531317850856, (0 : ℚ), (0 : ℚ)],
   [(0 : ℚ), (0 : ℚ), mkRat (-338877850105515896395771285) 2479794828711329531317850856, mkRat 338877850105515896395771285 2479794828711329531317850856, (0 : ℚ), (0 : ℚ), (0 : ℚ), (0 : ℚ), (0 : ℚ), (0 : ℚ), (0 : ℚ), (0 : ℚ)],
   [mkRat (-456233593044280) 2643640732265409, (0 : ℚ), (0 : ℚ), (0 : ℚ), (0 : ℚ), (0 : ℚ), (0 : ℚ), mkRat 456233593044280 2643640732265409, (0 : ℚ), (0 : ℚ), (0 : ℚ), (0 : ℚ)],
   [(0 : ℚ), (0 : ℚ), (0 : ℚ), (0 : ℚ), (0 : ℚ), (0 : ℚ), (0 : ℚ), (0 : ℚ), (0 : ℚ), (0 : ℚ), (0 : ℚ), (0 : ℚ)],
   [(0 : ℚ), mkRat (-1339259386039166555382736021) 2479794828711329531317850856, (0 : ℚ), (0 : ℚ), (0 : ℚ), (0 : ℚ), (0 : ℚ), (0 : ℚ), mkRat 1339259386039166555382736021 2479794828711329531317850856, (0 : ℚ), (0 : ℚ), (0 : ℚ)],
   [(0 : ℚ), (0 : ℚ), (0 : ℚ), (0 : ℚ), (0 : ℚ), (0 : ℚ), (0 : ℚ), (0 : ℚ), (0 : ℚ), (0 : ℚ), (0 : ℚ), (0 : ℚ)],
   [(0 : ℚ), mkRat 1339259386039166555382736021 2479794828711329531317850856, (0 : ℚ), (0 : ℚ), (0 : ℚ), (0 : ℚ), (0 : ℚ), (0 : ℚ), mkRat (-1339259386039166555382736021) 2479794828711329531317850856, (0 : ℚ), (0 : ℚ), (0 : ℚ)],
   [(0 : ℚ), (0 : ℚ), (0 : ℚ), (0 : ℚ), (0 : ℚ), (0 : ℚ), (0 : ℚ), (0 : ℚ), (0 : ℚ), (0 : ℚ), (0 : ℚ), (0 : ℚ)]]

/-- Transpose of `c2R3`. -/
def c2RT3 : Mat :=
  [[(0 : ℚ), (0 : ℚ), mkRat 1339259386039166555382736021 2479794828711329531317850856, (0 : ℚ), mkRat (-911301951843448091077036501) 2479794828711329531317850856, (0 : ℚ), mkRat (-456233593044280) 2643640732265409, (0 : ℚ), (0 : ℚ), (0 : ℚ), (0 : ℚ), (0 : ℚ)],
   [(0 : ℚ), (0 : ℚ), (0 : ℚ), (0 : ℚ), (0 : ℚ), (0 : ℚ), (0 : ℚ), (0 : ℚ), mkRat (-1339259386039166555382736021) 2479794828711329531317850856, (0 : ℚ), mkRat 1339259386039166555382736021 2479794828711329531317850856, (0 : ℚ)],
   [(0 : ℚ), (0 : ℚ), (0 : ℚ), mkRat 338877850105515896395771285 2479794828711329531317850856, (0 : ℚ), mkRat (-338877850105515896395771285) 2479794828711329531317850856, (0 : ℚ), (0 : ℚ), (0 : ℚ), (0 : ℚ), (0 : ℚ), (0 : ℚ)],
   [(0 : ℚ), (0 : ℚ), (0 : ℚ), mkRat (-338877850105515896395771285) 2479794828711329531317850856, (0 : ℚ), mkRat 338877850105515896395771285 2479794828711329531317850856, (0 : ℚ), (0 : ℚ), (0 : ℚ), (0 : ℚ), (0 : ℚ), (0 : ℚ)],
   [(0 : ℚ), (0 : ℚ), (0 : ℚ), (0 : ℚ), (0 : ℚ), (0 : ℚ), (0 : ℚ), (0 : ℚ), (0 : ℚ), (0 : ℚ), (0 : ℚ), (0 : ℚ)],
   [(0 : ℚ), (0 : ℚ), (0 : ℚ), (0 : ℚ), (0 : ℚ), (0 : ℚ), (0 : ℚ), (0 : ℚ), (0 : ℚ), (0 : ℚ), (0 : ℚ), (0 : ℚ)],
   [(0 : ℚ), (0 : ℚ), (0 : ℚ), (0 : ℚ), (0 : ℚ), (0 : ℚ), (0 : ℚ), (0 : ℚ), (0 : ℚ), (0 : ℚ), (0 : ℚ), (0 : ℚ)],
   [(0 : ℚ), (0 : ℚ), (0 : ℚ), (0 : ℚ), mkRat (-456233593044280) 2643640732265409, (0 : ℚ), mkRat 456233593044280 2643640732265409, (0 : ℚ), (0 : ℚ), (0 : ℚ), (0 : ℚ), (0 : ℚ)],
   [(0 : ℚ), (0 : ℚ), (0 : ℚ), (0 : ℚ), (0 : ℚ), (0 : ℚ), (0 : ℚ), (0 : ℚ), mkRat 1339259386039166555382736021 2479794828711329531317850856, (0 : ℚ), mkRat (-1339259386039166555382736021) 2479794828711329531317850856, (0 : ℚ)],
   [(0 : ℚ), (0 : ℚ), mkRat (-1339259386039166555382736021) 2479794828711329531317850856, (0 : ℚ), mkRat 1339259386039166555382736021 2479794828711329531317850856, (0 : ℚ), (0 : ℚ), (0 : ℚ), (0 : ℚ), (0 : ℚ), (0 : ℚ), (0 : ℚ)],
   [(0 : ℚ), (0 : ℚ), (0 : ℚ), (0 : ℚ), (0 : ℚ), (0 : ℚ), (0 : ℚ), (0 : ℚ), (0 : ℚ), (0 : ℚ), (0 : ℚ), (0 : ℚ)],
   [(0 : ℚ), (0 : ℚ), (0 : ℚ), (0 : ℚ), (0 : ℚ), (0 : ℚ), (0 : ℚ), (0 : ℚ), (0 : ℚ), (0 : ℚ), (0 : ℚ), (0 : ℚ)]]

/-- Product `R · B22ᵀ` at iteration 3 of the C2 run. -/
def c2M1x3 : Mat :=
  [[(0 : ℚ), (0 : ℚ), (0 : ℚ), (0 : ℚ), (0 : ℚ), (0 : ℚ), (0 : ℚ), (0 : ℚ), (0 : ℚ), (0 : ℚ), (0 : ℚ), (0 : ℚ)],
   [(0 : ℚ), (0 : ℚ), (0 : ℚ), (0 : ℚ), (0 : ℚ), (0 : ℚ), (0 : ℚ), (0 : ℚ), (0 : ℚ), (0 : ℚ), (0 : ℚ), (0 : ℚ)],
   [mkRat (-22767409562665831441506512357) 2479794828711329531317850856, mkRat (-1339259386039166555382736021) 309974353588916191414731357, mkRat (-9374815702274165887679152147) 2479794828711329531317850856, mkRat (-14731853246430832109210096231) 1239897414355664765658925428, mkRat 57588153599684161881457648903 2479794828711329531317850856, mkRat 1339259386039166555382736021 137766379372851640628769492, mkRat (-1339259386039166555382736021) 1239897414355664765658925428, mkRat 14731853246430832109210096231 1239897414355664765658925428, mkRat 6696296930195832776913680105 826598276237109843772616952, mkRat 22767409562665831441506512357 2479794828711329531317850856, mkRat (-1339259386039166555382736021) 103324784529638730471577119, mkRat 1339259386039166555382736021 275532758745703281257538984],
   [mkRat 2372144950738611274770398995 619948707177832382829462714, mkRat 6438679152004802031519654415 1239897414355664765658925428, mkRat (-2372144950738611274770398995) 826598276237109843772616952, mkRat 2372144950738611274770398995 826598276237109843772616952, mkRat (-28126861558757819400849016655) 2479794828711329531317850856, mkRat 28804617258968851193640559225 2479794828711329531317850856, mkRat 338877850105515896395771285 206649569059277460943154238, mkRat 4405412051371706653145026705 1239897414355664765658925428, mkRat 1355511400422063585583085140 309974353588916191414731357, mkRat 4405412051371706653145026705 2479794828711329531317850856, mkRat (-2372144950738611274770398995) 1239897414355664765658925428, mkRat (-3727656351160674860353484135) 1239897414355664765658925428],
   [mkRat 8216856800011403655112728677 2479794828711329531317850856, mkRat (-907517143488355382222186459) 309974353588916191414731357, mkRat 4239326491925544316010757907 2479794828711329531317850856, mkRat 11736151207060802859070199591 1239897414355664765658925428, mkRat (-44749430573812607952286663303) 2479794828711329531317850856, mkRat (-2805232094562964017282059423) 413299138118554921886308476, mkRat (-14495165679202416623928146219) 1239897414355664765658925428, mkRat (-7456576865103618216013204391) 1239897414355664765658925428, mkRat (-189273355323605632594131745) 91844252915234427085846328, mkRat (-20627622391687239119978014757) 2479794828711329531317850856, mkRat 630679246180656523925865967 34441594843212910157192373, mkRat (-625996995712969114873236821) 275532758745703281257538984],
   [mkRat (-2372144950738611274770398995) 619948707177832382829462714, mkRat (-6438679152004802031519654415) 1239897414355664765658925428, mkRat 2372144950738611274770398995 826598276237109843772616952, mkRat (-2372144950738611274770398995) 826598276237109843772616952, mkRat 28126861558757819400849016655 2479794828711329531317850856, mkRat (-28804617258968851193640559225) 2479794828711329531317850856, mkRat (-338877850105515896395771285) 206649569059277460943154238, mkRat (-4405412051371706653145026705) 1239897414355664765658925428, mkRat (-1355511400422063585583085140) 309974353588916191414731357, mkRat (-4405412051371706653145026705) 2479794828711329531317850856, mkRat 2372144950738611274770398995 1239897414355664765658925428, mkRat 3727656351160674860353484135 1239897414355664765658925428],
   [mkRat 15511942163505520 2643640732265409, mkRat 6387270302619920 881213577421803, mkRat 1824934372177120 881213577421803, mkRat 6387270302619920 2643640732265409, mkRat (-4562335930442800) 881213577421803, mkRat (-7755971081752760) 2643640732265409, mkRat 33761285885276720 2643640732265409, mkRat (-15511942163505520) 2643640732265409, mkRat (-15968175756549800) 2643640732265409, mkRat (-2281167965221400) 2643640732265409, mkRat (-14143241384372680) 2643640732265409, mkRat (-2281167965221400) 881213577421803],
   [(0 : ℚ), (0 : ℚ), (0 : ℚ), (0 : ℚ), (0 : ℚ), (0 : ℚ), (0 : ℚ), (0 : ℚ), (0 : ℚ), (0 : ℚ), (0 : ℚ), (0 : ℚ)],
   [mkRat 57588153599684161881457648903 2479794828711329531317850856, mkRat 46874078511370829438395760735 2479794828711329531317850856, mkRat (-1339259386039166555382736021) 619948707177832382829462714, mkRat 1339259386039166555382736021 1239897414355664765658925428, mkRat (-9374815702274165887679152147) 1239897414355664765658925428, mkRat (-6696296930195832776913680105) 619948707177832382829462714, mkRat 6696296930195832776913680105 2479794828711329531317850856, mkRat (-22767409562665831441506512357) 1239897414355664765658925428, mkRat (-46874078511370829438395760735) 2479794828711329531317850856, mkRat 6696296930195832776913680105 619948707177832382829462714, mkRat (-6696296930195832776913680105) 309974353588916191414731357, mkRat (-1339259386039166555382736021) 826598276237109843772616952],
   [(0 : ℚ), (0 : ℚ), (0 : ℚ), (0 : ℚ), (0 : ℚ), (0 : ℚ), (0 : ℚ), (0 : ℚ), (0 : ℚ), (0 : ℚ), (0 : ℚ), (0 : ℚ)],
   [mkRat (-57588153599684161881457648903) 2479794828711329531317850856, mkRat (-46874078511370829438395760735) 2479794828711329531317850856, mkRat 1339259386039166555382736021 619948707177832382829462714, mkRat (-1339259386039166555382736021) 1239897414355664765658925428, mkRat 9374815702274165887679152147 1239897414355664765658925428, mkRat 6696296930195832776913680105 619948707177832382829462714, mkRat (-6696296930195832776913680105) 2479794828711329531317850856, mkRat 22767409562665831441506512357 1239897414355664765658925428, mkRat 46874078511370829438395760735 2479794828711329531317850856, mkRat (-6696296930195832776913680105) 619948707177832382829462714, mkRat 6696296930195832776913680105 309974353588916191414731357, mkRat 1339259386039166555382736021 826598276237109843772616952],
   [(0 : ℚ), (0 : ℚ), (0 : ℚ), (0 : ℚ), (0 : ℚ), (0 : ℚ), (0 : ℚ), (0 : ℚ), (0 : ℚ), (0 : ℚ), (0 : ℚ), (0 : ℚ)]]

/-- Product `R · B22ᵀ · Rᵀ` at iteration 3 of the C2 run. -/
def c2M2x3 : Mat :=
  [[(0 : ℚ), (0 : ℚ), (0 : ℚ), (0 : ℚ), (0 : ℚ), (0 : ℚ), (0 : ℚ), (0 : ℚ), (0 : ℚ), (0 : ℚ), (0 : ℚ), (0 : ℚ)],
   [(0 : ℚ), (0 : ℚ), (0 : ℚ), (0 : ℚ), (0 : ℚ), (0 : ℚ), (0 : ℚ), (0 : ℚ), (0 : ℚ), (0 : ℚ), (0 : ℚ), (0 : ℚ)],
   [(0 : ℚ), (0 : ℚ), mkRat (-30491466952598090947089091632503797379667516920105511497) 3074691196251726085018665427846609448876943119329966368, mkRat 2269226707372929663521902341297549360700694589234784925 2049794130834484056679110285231072965917962079553310912, mkRat 19315119746446919755874603387513175261768639462930518057 3074691196251726085018665427846609448876943119329966368, mkRat (-2269226707372929663521902341297549360700694589234784925) 2049794130834484056679110285231072965917962079553310912, mkRat 992899572780253778089959340168514131516055 273153609035099736856657725883341919576671, (0 : ℚ), mkRat 41253161171162123046061712208681608219550169950730986143 6149382392503452170037330855693218897753886238659932736, (0 : ℚ), mkRat (-41253161171162123046061712208681608219550169950730986143) 6149382392503452170037330855693218897753886238659932736, (0 : ℚ)],
   [(0 : ℚ), (0 : ℚ), mkRat 2269226707372929663521902341297549360700694589234784925 2049794130834484056679110285231072965917962079553310912, mkRat (-803867381044955501637839340880943477566293410213858575) 1024897065417242028339555142615536482958981039776655456, mkRat (-724181059071661473467831284240175488927773029332865375) 683264710278161352226370095077024321972654026517770304, mkRat 803867381044955501637839340880943477566293410213858575 1024897065417242028339555142615536482958981039776655456, mkRat (-38651864789190114433482681813545439374950) 819460827105299210569973177650025758730013, (0 : ℚ), mkRat (-453845341474585932704380468259509872140138917846956985) 1024897065417242028339555142615536482958981039776655456, (0 : ℚ), mkRat 453845341474585932704380468259509872140138917846956985 1024897065417242028339555142615536482958981039776655456, (0 : ℚ)],
   [(0 : ℚ), (0 : ℚ), mkRat 19315119746446919755874603387513175261768639462930518057 3074691196251726085018665427846609448876943119329966368, mkRat (-724181059071661473467831284240175488927773029332865375) 683264710278161352226370095077024321972654026517770304, mkRat (-14365789766730760350369277084196474205042871727715358217) 3074691196251726085018665427846609448876943119329966368, mkRat 724181059071661473467831284240175488927773029332865375 683264710278161352226370095077024321972654026517770304, mkRat (-439695325473070087866975131537457549736855) 273153609035099736856657725883341919576671, (0 : ℚ), mkRat 2879081642870706785913446502307002194717192316062577697 6149382392503452170037330855693218897753886238659932736, (0 : ℚ), mkRat (-2879081642870706785913446502307002194717192316062577697) 6149382392503452170037330855693218897753886238659932736, (0 : ℚ)],
   [(0 : ℚ), (0 : ℚ), mkRat (-2269226707372929663521902341297549360700694589234784925) 2049794130834484056679110285231072965917962079553310912, mkRat 803867381044955501637839340880943477566293410213858575 1024897065417242028339555142615536482958981039776655456, mkRat 724181059071661473467831284240175488927773029332865375 683264710278161352226370095077024321972654026517770304, mkRat (-803867381044955501637839340880943477566293410213858575) 1024897065417242028339555142615536482958981039776655456, mkRat 38651864789190114433482681813545439374950 819460827105299210569973177650025758730013, (0 : ℚ), mkRat 453845341474585932704380468259509872140138917846956985 1024897065417242028339555142615536482958981039776655456, (0 : ℚ), mkRat (-453845341474585932704380468259509872140138917846956985) 1024897065417242028339555142615536482958981039776655456, (0 : ℚ)],
   [(0 : ℚ), (0 : ℚ), mkRat 992899572780253778089959340168514131516055 273153609035099736856657725883341919576671, mkRat (-38651864789190114433482681813545439374950) 819460827105299210569973177650025758730013, mkRat (-439695325473070087866975131537457549736855) 273153609035099736856657725883341919576671, mkRat 38651864789190114433482681813545439374950 819460827105299210569973177650025758730013, mkRat (-14154138216702371327866768851200) 6988836321292787910149217937281, (0 : ℚ), mkRat (-5881020546467656993302066860998122163595095) 819460827105299210569973177650025758730013, (0 : ℚ), mkRat 5881020546467656993302066860998122163595095 819460827105299210569973177650025758730013, (0 : ℚ)],
   [(0 : ℚ), (0 : ℚ), (0 : ℚ), (0 : ℚ), (0 : ℚ), (0 : ℚ), (0 : ℚ), (0 : ℚ), (0 : ℚ), (0 : ℚ), (0 : ℚ), (0 : ℚ)],
   [(0 : ℚ), (0 : ℚ), mkRat 41253161171162123046061712208681608219550169950730986143 6149382392503452170037330855693218897753886238659932736, mkRat (-453845341474585932704380468259509872140138917846956985) 1024897065417242028339555142615536482958981039776655456, mkRat 2879081642870706785913446502307002194717192316062577697 6149382392503452170037330855693218897753886238659932736, mkRat 453845341474585932704380468259509872140138917846956985 1024897065417242028339555142615536482958981039776655456, mkRat (-5881020546467656993302066860998122163595095) 819460827105299210569973177650025758730013, (0 : ℚ), mkRat (-62776549608290187244006953361037229899315476011981935435) 3074691196251726085018665427846609448876943119329966368, (0 : ℚ), mkRat 62776549608290187244006953361037229899315476011981935435 3074691196251726085018665427846609448876943119329966368, (0 : ℚ)],
   [(0 : ℚ), (0 : ℚ), (0 : ℚ), (0 : ℚ), (0 : ℚ), (0 : ℚ), (0 : ℚ), (0 : ℚ), (0 : ℚ), (0 : ℚ), (0 : ℚ), (0 : ℚ)],
   [(0 : ℚ), (0 : ℚ), mkRat (-41253161171162123046061712208681608219550169950730986143) 6149382392503452170037330855693218897753886238659932736, mkRat 453845341474585932704380468259509872140138917846956985 1024897065417242028339555142615536482958981039776655456, mkRat (-2879081642870706785913446502307002194717192316062577697) 6149382392503452170037330855693218897753886238659932736, mkRat (-453845341474585932704380468259509872140138917846956985) 1024897065417242028339555142615536482958981039776655456, mkRat 5881020546467656993302066860998122163595095 819460827105299210569973177650025758730013, (0 : ℚ), mkRat 62776549608290187244006953361037229899315476011981935435 3074691196251726085018665427846609448876943119329966368, (0 : ℚ), mkRat (-62776549608290187244006953361037229899315476011981935435) 3074691196251726085018665427846609448876943119329966368, (0 : ℚ)],
   [(0 : ℚ), (0 : ℚ), (0 : ℚ), (0 : ℚ), (0 : ℚ), (0 : ℚ), (0 : ℚ), (0 : ℚ), (0 : ℚ), (0 : ℚ), (0 : ℚ), (0 : ℚ)]]

/-- The negated final iterate of the C2 run (projection cost). -/
def c2NP : Mat :=
  [[(0 : ℚ), (0 : ℚ), (0 : ℚ), (0 : ℚ), (0 : ℚ), (0 : ℚ), (-1 : ℚ), (0 : ℚ), (0 : ℚ), (0 : ℚ), (0 : ℚ), (0 : ℚ)],
   [(0 : ℚ), (0 : ℚ), (0 : ℚ), (0 : ℚ), (-1 : ℚ), (0 : ℚ), (0 : ℚ), (0 : ℚ), (0 : ℚ), (0 : ℚ), (0 : ℚ), (0 : ℚ)],
   [mkRat (-5941722421793279379466183050215793364933819533484201402483) 10850169501815458690208292463535946994926792477203824520424, (0 : ℚ), (0 : ℚ), (0 : ℚ), (0 : ℚ), (0 : ℚ), (0 : ℚ), (0 : ℚ), (0 : ℚ), mkRat (-4908447080022179310742109413320153629992972943719623117941) 10850169501815458690208292463535946994926792477203824520424, (0 : ℚ), (0 : ℚ)],
   [(0 : ℚ), (0 : ℚ), mkRat (-1372595233895226156419013728889935166358932205251304692277) 1550024214545065527172613209076563856418113211029117788632, mkRat (-177428980649839370753599480186628690059181005777813096355) 1550024214545065527172613209076563856418113211029117788632, (0 : ℚ), (0 : ℚ), (0 : ℚ), (0 : ℚ), (0 : ℚ), (0 : ℚ), (0 : ℚ), (0 : ℚ)],
   [mkRat (-477137636258747498667197651150909856256680686122078364003) 1550024214545065527172613209076563856418113211029117788632, (0 : ℚ), (0 : ℚ), (0 : ℚ), (0 : ℚ), (0 : ℚ), (0 : ℚ), mkRat (-1672117045383718041360122198576080909028749880) 11567065837414203872657960445175633966629877761, (0 : ℚ), mkRat (-5941722421793279379466183050215793364933819533484201402483) 10850169501815458690208292463535946994926792477203824520424, (0 : ℚ), (0 : ℚ)],
   [(0 : ℚ), (0 : ℚ), mkRat (-177428980649839370753599480186628690059181005777813096355) 1550024214545065527172613209076563856418113211029117788632, mkRat (-1372595233895226156419013728889935166358932205251304692277) 1550024214545065527172613209076563856418113211029117788632, (0 : ℚ), (0 : ℚ), (0 : ℚ), (0 : ℚ), (0 : ℚ), (0 : ℚ), (0 : ℚ), (0 : ℚ)],
   [mkRat (-1672117045383718041360122198576080909028749880) 11567065837414203872657960445175633966629877761, (0 : ℚ), (0 : ℚ), (0 : ℚ), (0 : ℚ), (0 : ℚ), (0 : ℚ), mkRat (-9894948792030485831297838246599553057601127881) 11567065837414203872657960445175633966629877761, (0 : ℚ), (0 : ℚ), (0 : ℚ), (0 : ℚ)],
   [(0 : ℚ), (0 : ℚ), (0 : ℚ), (0 : ℚ), (0 : ℚ), (-1 : ℚ), (0 : ℚ), (0 : ℚ), (0 : ℚ), (0 : ℚ), (0 : ℚ), (0 : ℚ)],
   [(0 : ℚ), mkRat (-4908447080022179310742109413320153629992972943719623117941) 10850169501815458690208292463535946994926792477203824520424, (0 : ℚ), (0 : ℚ), (0 : ℚ), (0 : ℚ), (0 : ℚ), (0 : ℚ), mkRat (-5941722421793279379466183050215793364933819533484201402483) 10850169501815458690208292463535946994926792477203824520424, (0 : ℚ), (0 : ℚ), (0 : ℚ)],
   [(0 : ℚ), (0 : ℚ), (0 : ℚ), (0 : ℚ), (0 : ℚ), (0 : ℚ), (0 : ℚ), (0 : ℚ), (0 : ℚ), (0 : ℚ), (-1 : ℚ), (0 : ℚ)],
   [(0 : ℚ), mkRat (-5941722421793279379466183050215793364933819533484201402483) 10850169501815458690208292463535946994926792477203824520424, (0 : ℚ), (0 : ℚ), (0 : ℚ), (0 : ℚ), (0 : ℚ), (0 : ℚ), mkRat (-4908447080022179310742109413320153629992972943719623117941) 10850169501815458690208292463535946994926792477203824520424, (0 : ℚ), (0 : ℚ), (0 : ℚ)],
   [(0 : ℚ), (0 : ℚ), (0 : ℚ), (0 : ℚ), (0 : ℚ), (0 : ℚ), (0 : ℚ), (0 : ℚ), (0 : ℚ), (0 : ℚ), (0 : ℚ), (-1 : ℚ)]]

/-- Hungarian state after row 1 of assignment P of the C2 run. -/
def c2KPR1 : LapState :=
  ⟨[(0 : ℚ), (-1 : ℚ), (0 : ℚ), (0 : ℚ), (0 : ℚ), (0 : ℚ), (0 : ℚ), (0 : ℚ), (0 : ℚ), (0 : ℚ), (0 : ℚ), (0 : ℚ), (0 : ℚ)],
  [(1 : ℚ), (0 : ℚ), (0 : ℚ), (0 : ℚ), (0 : ℚ), (0 : ℚ), (0 : ℚ), (0 : ℚ), (0 : ℚ), (0 : ℚ), (0 : ℚ), (0 : ℚ), (0 : ℚ)],
  [1, 0, 0, 0, 0, 0, 0, 1, 0, 0, 0, 0, 0], [0, 0, 0, 0, 0, 0, 0, 0, 0, 0, 0, 0, 0]⟩

/-- Hungarian state after row 2 of assignment P of the C2 run. -/
def c2KPR2 : LapState :=
  ⟨[(0 : ℚ), (-1 : ℚ), (-1 : ℚ), (0 : ℚ), (0 : ℚ), (0 : ℚ), (0 : ℚ), (0 : ℚ), (0 : ℚ), (0 : ℚ), (0 : ℚ), (0 : ℚ), (0 : ℚ)],
  [(2 : ℚ), (0 : ℚ), (0 : ℚ), (0 : ℚ), (0 : ℚ), (0 : ℚ), (0 : ℚ), (0 : ℚ), (0 : ℚ), (0 : ℚ), (0 : ℚ), (0 : ℚ), (0 : ℚ)],
  [2, 0, 0, 0, 0, 2, 0, 1, 0, 0, 0, 0, 0], [0, 0, 0, 0, 0, 0, 0, 0, 0, 0, 0, 0, 0]⟩

/-- Hungarian state after row 3 of assignment P of the C2 run. -/
def c2KPR3 : LapState :=
  ⟨[(0 : ℚ), (-1 : ℚ), (-1 : ℚ), mkRat (-5941722421793279379466183050215793364933819533484201402483) 10850169501815458690208292463535946994926792477203824520424, (0 : ℚ), (0 : ℚ), (0 : ℚ), (0 : ℚ), (0 : ℚ), (0 : ℚ), (0 : ℚ), (0 : ℚ), (0 : ℚ)],
  [mkRat 27642061425424196759882767977287687354787404487891850443331 10850169501815458690208292463535946994926792477203824520424, (0 : ℚ), (0 : ℚ), (0 : ℚ), (0 : ℚ), (0 : ℚ), (0 : ℚ), (0 : ℚ), (0 : ℚ), (0 : ℚ), (0 : ℚ), (0 : ℚ), (0 : ℚ)],
  [3, 3, 0, 0, 0, 2, 0, 1, 0, 0, 0, 0, 0], [0, 0, 0, 0, 0, 0, 0, 0, 0, 0, 0, 0, 0]⟩

/-- Hungarian state after row 4 of assignment P of the C2 run. -/
def c2KPR4 : LapState :=
  ⟨[(0 : ℚ), (-1 : ℚ), (-1 : ℚ), mkRat (-5941722421793279379466183050215793364933819533484201402483) 10850169501815458690208292463535946994926792477203824520424, mkRat (-1372595233895226156419013728889935166358932205251304692277) 1550024214545065527172613209076563856418113211029117788632, (0 : ℚ), (0 : ℚ), (0 : ℚ), (0 : ℚ), (0 : ℚ), (0 : ℚ), (0 : ℚ), (0 : ℚ)],
  [mkRat 18625114031345389927407932039758616759649964962325491644635 5425084750907729345104146231767973497463396238601912260212, (0 : ℚ), (0 : ℚ), (0 : ℚ), (0 : ℚ), (0 : ℚ), (0 : ℚ), (0 : ℚ), (0 : ℚ), (0 : ℚ), (0 : ℚ), (0 : ℚ), (0 : ℚ)],
  [4, 3, 0, 4, 0, 2, 0, 1, 0, 0, 0, 0, 0], [0, 0, 0, 0, 0, 0, 0, 0, 0, 0, 0, 0, 0]⟩

/-- Hungarian state after row 5 of assignment P of the C2 run. -/
def c2KPR5 : LapState :=
  ⟨[(0 : ℚ), (-1 : ℚ), (-1 : ℚ), mkRat (-5941722421793279379466183050215793364933819533484201402483) 10850169501815458690208292463535946994926792477203824520424, mkRat (-1372595233895226156419013728889935166358932205251304692277) 1550024214545065527172613209076563856418113211029117788632, mkRat (-5941722421793279379466183050215793364933819533484201402483) 10850169501815458690208292463535946994926792477203824520424, (0 : ℚ), (0 : ℚ), (0 : ℚ), (0 : ℚ), (0 : ℚ), (0 : ℚ), (0 : ℚ)],
  [mkRat 94100109987982699856823632090921627198766338688747679067 23638713511580520022240288591581583866942903000444062136, (0 : ℚ), (0 : ℚ), (0 : ℚ), (0 : ℚ), (0 : ℚ), (0 : ℚ), (0 : ℚ), (0 : ℚ), (0 : ℚ), (0 : ℚ), (0 : ℚ), (0 : ℚ)],
  [5, 3, 0, 4, 0, 2, 0, 1, 0, 0, 5, 0, 0], [0, 0, 0, 0, 0, 0, 0, 0, 0, 0, 0, 0, 0]⟩

/-- Hungarian state after row 6 of assignment P of the C2 run. -/
def c2KPR6 : LapState :=
  ⟨[(0 : ℚ), (-1 : ℚ), (-1 : ℚ), mkRat (-5941722421793279379466183050215793364933819533484201402483) 10850169501815458690208292463535946994926792477203824520424, mkRat (-1372595233895226156419013728889935166358932205251304692277) 1550024214545065527172613209076563856418113211029117788632, mkRat (-5941722421793279379466183050215793364933819533484201402483) 10850169501815458690208292463535946994926792477203824520424, mkRat (-1372595233895226156419013728889935166358932205251304692277) 1550024214545065527172613209076563856418113211029117788632, (0 : ℚ), (0 : ℚ), (0 : ℚ), (0 : ℚ), (0 : ℚ), (0 : ℚ)],
  [mkRat 13200029280437660582303785807990643262186568723723579384423 2712542375453864672552073115883986748731698119300956130106, (0 : ℚ), (0 : ℚ), (0 : ℚ), (0 : ℚ), (0 : ℚ), (0 : ℚ), (0 : ℚ), (0 : ℚ), (0 : ℚ), (0 : ℚ), (0 : ℚ), (0 : ℚ)],
  [6, 3, 0, 4, 6, 2, 0, 1, 0, 0, 5, 0, 0], [0, 0, 0, 0, 0, 0, 0, 0, 0, 0, 0, 0, 0]⟩

/-- Hungarian state after row 7 of assignment P of the C2 run. -/
def c2KPR7 : LapState :=
  ⟨[(0 : ℚ), (-1 : ℚ), (-1 : ℚ), mkRat (-5941722421793279379466183050215793364933819533484201402483) 10850169501815458690208292463535946994926792477203824520424, mkRat (-1372595233895226156419013728889935166358932205251304692277) 1550024214545065527172613209076563856418113211029117788632, mkRat (-5941722421793279379466183050215793364933819533484201402483) 10850169501815458690208292463535946994926792477203824520424, mkRat (-1372595233895226156419013728889935166358932205251304692277) 1550024214545065527172613209076563856418113211029117788632, mkRat (-9894948792030485831297838246599553057601127881) 11567065837414203872657960445175633966629877761, (0 : ℚ), (0 : ℚ), (0 : ℚ), (0 : ℚ), (0 : ℚ)],
  [mkRat 15520450749338788549837927460058683851869214807808266872049 2712542375453864672552073115883986748731698119300956130106, (0 : ℚ), (0 : ℚ), (0 : ℚ), (0 : ℚ), (0 : ℚ), (0 : ℚ), (0 : ℚ), (0 : ℚ), (0 : ℚ), (0 : ℚ), (0 : ℚ), (0 : ℚ)],
  [7, 3, 0, 4, 6, 2, 0, 1, 7, 0, 5, 0, 0], [0, 0, 0, 0, 0, 0, 0, 0, 0, 0, 0, 0, 0]⟩

/-- Hungarian state after row 8 of assignment P of the C2 run. -/
def c2KPR8 : LapState :=
  ⟨[(0 : ℚ), (-1 : ℚ), (-1 : ℚ), mkRat (-5941722421793279379466183050215793364933819533484201402483) 10850169501815458690208292463535946994926792477203824520424, mkRat (-1372595233895226156419013728889935166358932205251304692277) 1550024214545065527172613209076563856418113211029117788632, mkRat (-5941722421793279379466183050215793364933819533484201402483) 10850169501815458690208292463535946994926792477203824520424, mkRat (-1372595233895226156419013728889935166358932205251304692277) 1550024214545065527172613209076563856418113211029117788632, mkRat (-9894948792030485831297838246599553057601127881) 11567065837414203872657960445175633966629877761, (-1 : ℚ), (0 : ℚ), (0 : ℚ), (0 : ℚ), (0 : ℚ)],
  [mkRat 18232993124792653222390000575942670600600912927109223002155 2712542375453864672552073115883986748731698119300956130106, (0 : ℚ), (0 : ℚ), (0 : ℚ), (0 : ℚ), (0 : ℚ), (0 : ℚ), (0 : ℚ), (0 : ℚ), (0 : ℚ), (0 : ℚ), (0 : ℚ), (0 : ℚ)],
  [8, 3, 0, 4, 6, 2, 8, 1, 7, 0, 5, 0, 0], [0, 0, 0, 0, 0, 0, 0, 0, 0, 0, 0, 0, 0]⟩

/-- Hungarian state after row 9 of assignment P of the C2 run. -/
def c2KPR9 : LapState :=
  ⟨[(0 : ℚ), (-1 : ℚ), (-1 : ℚ), mkRat (-5941722421793279379466183050215793364933819533484201402483) 10850169501815458690208292463535946994926792477203824520424, mkRat (-1372595233895226156419013728889935166358932205251304692277) 1550024214545065527172613209076563856418113211029117788632, mkRat (-5941722421793279379466183050215793364933819533484201402483) 10850169501815458690208292463535946994926792477203824520424, mkRat (-1372595233895226156419013728889935166358932205251304692277) 1550024214545065527172613209076563856418113211029117788632, mkRat (-9894948792030485831297838246599553057601127881) 11567065837414203872657960445175633966629877761, (-1 : ℚ), mkRat (-5941722421793279379466183050215793364933819533484201402483) 10850169501815458690208292463535946994926792477203824520424, (0 : ℚ), (0 : ℚ), (0 : ℚ)],
  [mkRat 78873694920963892269026185353986475767337471241921093411103 10850169501815458690208292463535946994926792477203824520424, (0 : ℚ), (0 : ℚ), (0 : ℚ), (0 : ℚ), (0 : ℚ), (0 : ℚ), (0 : ℚ), (0 : ℚ), (0 : ℚ), (0 : ℚ), (0 : ℚ), (0 : ℚ)],
  [9, 3, 0, 4, 6, 2, 8, 1, 7, 9, 5, 0, 0], [0, 0, 0, 0, 0, 0, 0, 0, 0, 0, 0, 0, 0]⟩

/-- Hungarian state after row 10 of assignment P of the C2 run. -/
def c2KPR10 : LapState :=
  ⟨[(0 : ℚ), (-1 : ℚ), (-1 : ℚ), mkRat (-5941722421793279379466183050215793364933819533484201402483) 10850169501815458690208292463535946994926792477203824520424, mkRat (-1372595233895226156419013728889935166358932205251304692277) 1550024214545065527172613209076563856418113211029117788632, mkRat (-5941722421793279379466183050215793364933819533484201402483) 10850169501815458690208292463535946994926792477203824520424, mkRat (-1372595233895226156419013728889935166358932205251304692277) 1550024214545065527172613209076563856418113211029117788632, mkRat (-9894948792030485831297838246599553057601127881) 11567065837414203872657960445175633966629877761, (-1 : ℚ), mkRat (-5941722421793279379466183050215793364933819533484201402483) 10850169501815458690208292463535946994926792477203824520424, (-1 : ℚ), (0 : ℚ), (0 : ℚ)],
  [mkRat 89723864422779350959234477817522422762264263719124917931527 10850169501815458690208292463535946994926792477203824520424, (0 : ℚ), (0 : ℚ), (0 : ℚ), (0 : ℚ), (0 : ℚ), (0 : ℚ), (0 : ℚ), (0 : ℚ), (0 : ℚ), (0 : ℚ), (0 : ℚ), (0 : ℚ)],
  [10, 3, 0, 4, 6, 2, 8, 1, 7, 9, 5, 10, 0], [0, 0, 0, 0, 0, 0, 0, 0, 0, 0, 0, 0, 0]⟩

/-- Hungarian state after row 11 of assignment P of the C2 run. -/
def c2KPR11 : LapState :=
  ⟨[(0 : ℚ), (-1 : ℚ), (-1 : ℚ), mkRat (-5941722421793279379466183050215793364933819533484201402483) 10850169501815458690208292463535946994926792477203824520424, mkRat (-1372595233895226156419013728889935166358932205251304692277) 1550024214545065527172613209076563856418113211029117788632, mkRat (-5941722421793279379466183050215793364933819533484201402483) 10850169501815458690208292463535946994926792477203824520424, mkRat (-1372595233895226156419013728889935166358932205251304692277) 1550024214545065527172613209076563856418113211029117788632, mkRat (-9894948792030485831297838246599553057601127881) 11567065837414203872657960445175633966629877761, (-1 : ℚ), mkRat (-5941722421793279379466183050215793364933819533484201402483) 10850169501815458690208292463535946994926792477203824520424, (-1 : ℚ), mkRat (-5941722421793279379466183050215793364933819533484201402483) 10850169501815458690208292463535946994926792477203824520424, (0 : ℚ)],
  [mkRat 15944264474095438389783443477956369354533013875434853222335 1808361583635909781701382077255991165821132079533970753404, (0 : ℚ), (0 : ℚ), (0 : ℚ), (0 : ℚ), (0 : ℚ), (0 : ℚ), (0 : ℚ), (0 : ℚ), (0 : ℚ), (0 : ℚ), (0 : ℚ), (0 : ℚ)],
  [11, 3, 11, 4, 6, 2, 8, 1, 7, 9, 5, 10, 0], [0, 0, 0, 0, 0, 0, 0, 0, 0, 0, 0, 0, 0]⟩

/-- Hungarian state after row 12 of assignment P of the C2 run. -/
def c2KPR12 : LapState :=
  ⟨[(0 : ℚ), (-1 : ℚ), (-1 : ℚ), mkRat (-5941722421793279379466183050215793364933819533484201402483) 10850169501815458690208292463535946994926792477203824520424, mkRat (-1372595233895226156419013728889935166358932205251304692277) 1550024214545065527172613209076563856418113211029117788632, mkRat (-5941722421793279379466183050215793364933819533484201402483) 10850169501815458690208292463535946994926792477203824520424, mkRat (-1372595233895226156419013728889935166358932205251304692277) 1550024214545065527172613209076563856418113211029117788632, mkRat (-9894948792030485831297838246599553057601127881) 11567065837414203872657960445175633966629877761, (-1 : ℚ), mkRat (-5941722421793279379466183050215793364933819533484201402483) 10850169501815458690208292463535946994926792477203824520424, (-1 : ℚ), mkRat (-5941722421793279379466183050215793364933819533484201402483) 10850169501815458690208292463535946994926792477203824520424, (-1 : ℚ)],
  [mkRat 17752626057731348171484825555212360520354145954968823975739 1808361583635909781701382077255991165821132079533970753404, (0 : ℚ), (0 : ℚ), (0 : ℚ), (0 : ℚ), (0 : ℚ), (0 : ℚ), (0 : ℚ), (0 : ℚ), (0 : ℚ), (0 : ℚ), (0 : ℚ), (0 : ℚ)],
  [12, 3, 11, 4, 6, 2, 8, 1, 7, 9, 5, 10, 12], [0, 0, 0, 0, 0, 0, 0, 0, 0, 0, 0, 0, 0]⟩

/-- The reindexed similarity matrix of the C2 run (all zeros). -/
def c2K0S : Mat :=
  [[(0 : ℚ), (0 : ℚ), (0 : ℚ), (0 : ℚ), (0 : ℚ), (0 : ℚ), (0 : ℚ), (0 : ℚ), (0 : ℚ), (0 : ℚ), (0 : ℚ), (0 : ℚ)],
   [(0 : ℚ), (0 : ℚ), (0 : ℚ), (0 : ℚ), (0 : ℚ), (0 : ℚ), (0 : ℚ), (0 : ℚ), (0 : ℚ), (0 : ℚ), (0 : ℚ), (0 : ℚ)],
   [(0 : ℚ), (0 : ℚ), (0 : ℚ), (0 : ℚ), (0 : ℚ), (0 : ℚ), (0 : ℚ), (0 : ℚ), (0 : ℚ), (0 : ℚ), (0 : ℚ), (0 : ℚ)],
   [(0 : ℚ), (0 : ℚ), (0 : ℚ), (0 : ℚ), (0 : ℚ), (0 : ℚ), (0 : ℚ), (0 : ℚ), (0 : ℚ), (0 : ℚ), (0 : ℚ), (0 : ℚ)],
   [(0 : ℚ), (0 : ℚ), (0 : ℚ), (0 : ℚ), (0 : ℚ), (0 : ℚ), (0 : ℚ), (0 : ℚ), (0 : ℚ), (0 : ℚ), (0 : ℚ), (0 : ℚ)],
   [(0 : ℚ), (0 : ℚ), (0 : ℚ), (0 : ℚ), (0 : ℚ), (0 : ℚ), (0 : ℚ), (0 : ℚ), (0 : ℚ), (0 : ℚ), (0 : ℚ), (0 : ℚ)],
   [(0 : ℚ), (0 : ℚ), (0 : ℚ), (0 : ℚ), (0 : ℚ), (0 : ℚ), (0 : ℚ), (0 : ℚ), (0 : ℚ), (0 : ℚ), (0 : ℚ), (0 : ℚ)],
   [(0 : ℚ), (0 : ℚ), (0 : ℚ), (0 : ℚ), (0 : ℚ), (0 : ℚ), (0 : ℚ), (0 : ℚ), (0 : ℚ), (0 : ℚ), (0 : ℚ), (0 : ℚ)],
   [(0 : ℚ), (0 : ℚ), (0 : ℚ), (0 : ℚ), (0 : ℚ), (0 : ℚ), (0 : ℚ), (0 : ℚ), (0 : ℚ), (0 : ℚ), (0 : ℚ), (0 : ℚ)],
   [(0 : ℚ), (0 : ℚ), (0 : ℚ), (0 : ℚ), (0 : ℚ), (0 : ℚ), (0 : ℚ), (0 : ℚ), (0 : ℚ), (0 : ℚ), (0 : ℚ), (0 : ℚ)],
   [(0 : ℚ), (0 : ℚ), (0 : ℚ), (0 : ℚ), (0 : ℚ), (0 : ℚ), (0 : ℚ), (0 : ℚ), (0 : ℚ), (0 : ℚ), (0 : ℚ), (0 : ℚ)],
   [(0 : ℚ), (0 : ℚ), (0 : ℚ), (0 : ℚ), (0 : ℚ), (0 : ℚ), (0 : ℚ), (0 : ℚ), (0 : ℚ), (0 : ℚ), (0 : ℚ), (0 : ℚ)]]

end Graspologic

namespace Graspologic

theorem qadd_eq (a b : ℚ) : qadd a b = a + b := by
  rw [qadd, Rat.add_def']

theorem qneg_eq (a : ℚ) : qneg a = -a := by
  rw [qneg, ← Rat.mkRat_self (-a), Rat.neg_num, Rat.neg_den]

theorem qsub_eq (a b : ℚ) : qsub a b = a - b := by
  rw [qsub, Rat.sub_def']

theorem qmul_eq (a b : ℚ) : qmul a b = a * b := by
  rw [qmul, Rat.mul_def, Rat.normalize_eq_mkRat]

theorem qlt_iff (a b : ℚ) : qlt a b ↔ a < b := by
  unfold qlt
  rw [Rat.lt_def]

theorem qle_iff (a b : ℚ) : qle a b ↔ a ≤ b := by
  unfold qle
  rw [Rat.le_def]

/-- One Frank–Wolfe iteration that does not yet meet the stopping test
advances the loop. -/
theorem fwLoop_cont (ctx : FWCtx) (fuel : Nat) (P P1 : Mat) (done : Nat) (d2 : ℚ)
    (h : fwStep ctx P = (P1, d2))
    (hc : ¬ qlt d2 (qmul (qmul ctx.eps ctx.eps) (mkRat ctx.m 1))) :
    fwLoop ctx (fuel + 1) P done = fwLoop ctx fuel P1 (done + 1) := by
  simp only [fwLoop, h]
  rw [if_neg hc]

/-- One Frank–Wolfe iteration that meets the stopping test ends the loop. -/
theorem fwLoop_last (ctx : FWCtx) (fuel : Nat) (P P1 : Mat) (done : Nat) (d2 : ℚ)
    (h : fwStep ctx P = (P1, d2))
    (hc : qlt d2 (qmul (qmul ctx.eps ctx.eps) (mkRat ctx.m 1))) :
    fwLoop ctx (fuel + 1) P done = (P1, done + 1) := by
  simp only [fwLoop, h]
  rw [if_pos hc]

theorem runOrder_false (r : Nat → Nat) (s : List Nat) (n : Nat) :
    runOrder false r s n = (List.range n).filter (fun v => ¬ v ∈ s) := rfl

set_option maxRecDepth 4000 in
theorem c2_ga0 : matMul 12 12 12 c2A22 c2P0 = c2GA0 := by
  decide!

set_option maxRecDepth 4000 in
theorem c2_gab0 : matMul 12 12 12 c2GA0 c2B22 = c2GAB0 := by
  decide!

set_option maxRecDepth 4000 in
theorem c2_gt0 : matMul 12 12 12 c2A22t c2P0 = c2GT0 := by
  decide!

set_option maxRecDepth 4000 in
theorem c2_gtb0 : matMul 12 12 12 c2GT0 c2B22t = c2GTB0 := by
  decide!

set_option maxRecDepth 4000 in
theorem c2_g0 : fwGrad c2Ctx c2P0 = c2C0 := by
  rw [fwGrad]
  rw [show c2Ctx.m = 12 from rfl, show c2Ctx.K = c2K from rfl,
    show c2Ctx.A22 = c2A22 from rfl, show c2Ctx.B22 = c2B22 from rfl,
    show c2Ctx.A22t = c2A22t from rfl, show c2Ctx.B22t = c2B22t from rfl]
  rw [c2_ga0, c2_gab0, c2_gt0, c2_gtb0]
  decide!

set_option maxRecDepth 4000 in
theorem c2_c0 : fwCost c2Ctx c2P0 = c2C0 := by
  rw [fwCost, show c2Ctx.gmp = false from rfl, if_neg (by decide)]
  exact c2_g0

set_option maxRecDepth 4000 in
theorem c2_r0_1 : lapRow 12 c2C0 (lapInit 12) 1 = c2K0R1 := by
  decide!

set_option maxRecDepth 4000 in
theorem c2_r0_2 : lapRow 12 c2C0 c2K0R1 2 = c2K0R2 := by
  decide!

set_option maxRecDepth 4000 in
theorem c2_r0_3 : lapRow 12 c2C0 c2K0R2 3 = c2K0R3 := by
  decide!

set_option maxRecDepth 4000 in
theorem c2_r0_4 : lapRow 12 c2C0 c2K0R3 4 = c2K0R4 := by
  decide!

set_option maxRecDepth 4000 in
theorem c2_r0_5 : lapRow 12 c2C0 c2K0R4 5 = c2K0R5 := by
  decide!

set_option maxRecDepth 4000 in
theorem c2_r0_6 : lapRow 12 c2C0 c2K0R5 6 = c2K0R6 := by
  decide!

set_option maxRecDepth 4000 in
theorem c2_r0_7 : lapRow 12 c2C0 c2K0R6 7 = c2K0R7 := by
  decide!

set_option maxRecDepth 4000 in
theorem c2_r0_8 : lapRow 12 c2C0 c2K0R7 8 = c2K0R8 := by
  decide!

set_option maxRecDepth 4000 in
theorem c2_r0_9 : lapRow 12 c2C0 c2K0R8 9 = c2K0R9 := by
  decide!

set_option maxRecDepth 4000 in
theorem c2_r0_10 : lapRow 12 c2C0 c2K0R9 10 = c2K0R10 := by
  decide!

set_option maxRecDepth 4000 in
theorem c2_r0_11 : lapRow 12 c2C0 c2K0R10 11 = c2K0R11 := by
  decide!

set_option maxRecDepth 4000 in
theorem c2_r0_12 : lapRow 12 c2C0 c2K0R11 12 = c2K0R12 := by
  decide!

set_option maxRecDepth 4000 in
theorem c2_f0 : lapFold 12 c2C0 = c2K0R12 := by
  rw [lapFold, show List.range' 1 12 = [1, 2, 3, 4, 5, 6, 7, 8, 9, 10, 11, 12] from rfl]
  simp only [List.foldl_cons, List.foldl_nil]
  rw [c2_r0_1, c2_r0_2, c2_r0_3, c2_r0_4, c2_r0_5, c2_r0_6, c2_r0_7, c2_r0_8, c2_r0_9, c2_r0_10, c2_r0_11, c2_r0_12]

set_option maxRecDepth 4000 in
theorem c2_lap0 : lap 12 c2C0 = c2q0 := by
  rw [lap, c2_f0]
  decide!

set_option maxRecDepth 4000 in
theorem c2_dir0 : fwDir c2Ctx c2P0 = c2q0 := by
  rw [fwDir, c2_c0, show c2Ctx.m = 12 from rfl]
  exact c2_lap0

set_option maxRecDepth 4000 in
theorem c2_rr0 : matSub 12 12 (permToMat c2q0) c2P0 = c2R0 := by
  decide!

set_option maxRecDepth 4000 in
theorem c2_rt0 : matTr 12 12 c2R0 = c2RT0 := by
  decide!

set_option maxRecDepth 4000 in
theorem c2_m1x0 : matMul 12 12 12 c2R0 c2B22t = c2M1x0 := by
  decide!

set_option maxRecDepth 4000 in
theorem c2_m2x0 : matMul 12 12 12 c2M1x0 c2RT0 = c2M2x0 := by
  decide!

set_option maxRecDepth 4000 in
theorem c2_s0 : fwStep c2Ctx c2P0 = (c2P1, c2d0) := by
  rw [fwStep, c2_dir0]
  simp only [fwStepAt]
  rw [show c2Ctx.m = 12 from rfl, show c2Ctx.A22 = c2A22 from rfl,
    show c2Ctx.B22t = c2B22t from rfl, show c2Ctx.gmp = false from rfl,
    c2_rr0, c2_rt0, c2_m1x0, c2_m2x0, c2_g0]
  decide!

set_option maxRecDepth 4000 in
theorem c2_ga1 : matMul 12 12 12 c2A22 c2P1 = c2GA1 := by
  decide!

set_option maxRecDepth 4000 in
theorem c2_gab1 : matMul 12 12 12 c2GA1 c2B22 = c2GAB1 := by
  decide!

set_option maxRecDepth 4000 in
theorem c2_gt1 : matMul 12 12 12 c2A22t c2P1 = c2GT1 := by
  decide!

set_option maxRecDepth 4000 in
theorem c2_gtb1 : matMul 12 12 12 c2GT1 c2B22t = c2GTB1 := by
  decide!

set_option maxRecDepth 4000 in
theorem c2_g1 : fwGrad c2Ctx c2P1 = c2C1 := by
  rw [fwGrad]
  rw [show c2Ctx.m = 12 from rfl, show c2Ctx.K = c2K from rfl,
    show c2Ctx.A22 = c2A22 from rfl, show c2Ctx.B22 = c2B22 from rfl,
    show c2Ctx.A22t = c2A22t from rfl, show c2Ctx.B22t = c2B22t from rfl]
  rw [c2_ga1, c2_gab1, c2_gt1, c2_gtb1]
  decide!

set_option maxRecDepth 4000 in
theorem c2_c1 : fwCost c2Ctx c2P1 = c2C1 := by
  rw [fwCost, show c2Ctx.gmp = false from rfl, if_neg (by decide)]
  exact c2_g1

set_option maxRecDepth 4000 in
theorem c2_r1_1 : lapRow 12 c2C1 (lapInit 12) 1 = c2K1R1 := by
  decide!

set_option maxRecDepth 4000 in
theorem c2_r1_2 : lapRow 12 c2C1 c2K1R1 2 = c2K1R2 := by
  decide!

set_option maxRecDepth 4000 in
theorem c2_r1_3 : lapRow 12 c2C1 c2K1R2 3 = c2K1R3 := by
  decide!

set_option maxRecDepth 4000 in
theorem c2_r1_4 : lapRow 12 c2C1 c2K1R3 4 = c2K1R4 := by
  decide!

set_option maxRecDepth 4000 in
theorem c2_r1_5 : lapRow 12 c2C1 c2K1R4 5 = c2K1R5 := by
  decide!

set_option maxRecDepth 4000 in
theorem c2_r1_6 : lapRow 12 c2C1 c2K1R5 6 = c2K1R6 := by
  decide!

set_option maxRecDepth 4000 in
theorem c2_r1_7 : lapRow 12 c2C1 c2K1R6 7 = c2K1R7 := by
  decide!

set_option maxRecDepth 4000 in
theorem c2_r1_8 : lapRow 12 c2C1 c2K1R7 8 = c2K1R8 := by
  decide!

set_option maxRecDepth 4000 in
theorem c2_r1_9 : lapRow 12 c2C1 c2K1R8 9 = c2K1R9 := by
  decide!

set_option maxRecDepth 4000 in
theorem c2_r1_10 : lapRow 12 c2C1 c2K1R9 10 = c2K1R10 := by
  decide!

set_option maxRecDepth 4000 in
theorem c2_r1_11 : lapRow 12 c2C1 c2K1R10 11 = c2K1R11 := by
  decide!

set_option maxRecDepth 4000 in
theorem c2_r1_12 : lapRow 12 c2C1 c2K1R11 12 = c2K1R12 := by
  decide!

set_option maxRecDepth 4000 in
theorem c2_f1 : lapFold 12 c2C1 = c2K1R12 := by
  rw [lapFold, show List.range' 1 12 = [1, 2, 3, 4, 5, 6, 7, 8, 9, 10, 11, 12] from rfl]
  simp only [List.foldl_cons, List.foldl_nil]
  rw [c2_r1_1, c2_r1_2, c2_r1_3, c2_r1_4, c2_r1_5, c2_r1_6, c2_r1_7, c2_r1_8, c2_r1_9, c2_r1_10, c2_r1_11, c2_r1_12]

set_option maxRecDepth 4000 in
theorem c2_lap1 : lap 12 c2C1 = c2q1 := by
  rw [lap, c2_f1]
  decide!

set_option maxRecDepth 4000 in
theorem c2_dir1 : fwDir c2Ctx c2P1 = c2q1 := by
  rw [fwDir, c2_c1, show c2Ctx.m = 12 from rfl]
  exact c2_lap1

set_option maxRecDepth 4000 in
theorem c2_rr1 : matSub 12 12 (permToMat c2q1) c2P1 = c2R1 := by
  decide!

set_option maxRecDepth 4000 in
theorem c2_rt1 : matTr 12 12 c2R1 = c2RT1 := by
  decide!

set_option maxRecDepth 4000 in
theorem c2_m1x1 : matMul 12 12 12 c2R1 c2B22t = c2M1x1 := by
  decide!

set_option maxRecDepth 4000 in
theorem c2_m2x1 : matMul 12 12 12 c2M1x1 c2RT1 = c2M2x1 := by
  decide!

set_option maxRecDepth 4000 in
theorem c2_s1 : fwStep c2Ctx c2P1 = (c2P2, c2d1) := by
  rw [fwStep, c2_dir1]
  simp only [fwStepAt]
  rw [show c2Ctx.m = 12 from rfl, show c2Ctx.A22 = c2A22 from rfl,
    show c2Ctx.B22t = c2B22t from rfl, show c2Ctx.gmp = false from rfl,
    c2_rr1, c2_rt1, c2_m1x1, c2_m2x1, c2_g1]
  decide!

set_option maxRecDepth 4000 in
theorem c2_ga2 : matMul 12 12 12 c2A22 c2P2 = c2GA2 := by
  decide!

set_option maxRecDepth 4000 in
theorem c2_gab2 : matMul 12 12 12 c2GA2 c2B22 = c2GAB2 := by
  decide!

set_option maxRecDepth 4000 in
theorem c2_gt2 : matMul 12 12 12 c2A22t c2P2 = c2GT2 := by
  decide!

set_option maxRecDepth 4000 in
theorem c2_gtb2 : matMul 12 12 12 c2GT2 c2B22t = c2GTB2 := by
  decide!

set_option maxRecDepth 4000 in
theorem c2_g2 : fwGrad c2Ctx c2P2 = c2C2 := by
  rw [fwGrad]
  rw [show c2Ctx.m = 12 from rfl, show c2Ctx.K = c2K from rfl,
    show c2Ctx.A22 = c2A22 from rfl, show c2Ctx.B22 = c2B22 from rfl,
    show c2Ctx.A22t = c2A22t from rfl, show c2Ctx.B22t = c2B22t from rfl]
  rw [c2_ga2, c2_gab2, c2_gt2, c2_gtb2]
  decide!

set_option maxRecDepth 4000 in
theorem c2_c2 : fwCost c2Ctx c2P2 = c2C2 := by
  rw [fwCost, show c2Ctx.gmp = false from rfl, if_neg (by decide)]
  exact c2_g2

set_option maxRecDepth 4000 in
theorem c2_r2_1 : lapRow 12 c2C2 (lapInit 12) 1 = c2K2R1 := by
  decide!

set_option maxRecDepth 4000 in
theorem c2_r2_2 : lapRow 12 c2C2 c2K2R1 2 = c2K2R2 := by
  decide!

set_option maxRecDepth 4000 in
theorem c2_r2_3 : lapRow 12 c2C2 c2K2R2 3 = c2K2R3 := by
  decide!

set_option maxRecDepth 4000 in
theorem c2_r2_4 : lapRow 12 c2C2 c2K2R3 4 = c2K2R4 := by
  decide!

set_option maxRecDepth 4000 in
theorem c2_r2_5 : lapRow 12 c2C2 c2K2R4 5 = c2K2R5 := by
  decide!

set_option maxRecDepth 4000 in
theorem c2_r2_6 : lapRow 12 c2C2 c2K2R5 6 = c2K2R6 := by
  decide!

set_option maxRecDepth 4000 in
theorem c2_r2_7 : lapRow 12 c2C2 c2K2R6 7 = c2K2R7 := by
  decide!

set_option maxRecDepth 4000 in
theorem c2_r2_8 : lapRow 12 c2C2 c2K2R7 8 = c2K2R8 := by
  decide!

set_option maxRecDepth 4000 in
theorem c2_r2_9 : lapRow 12 c2C2 c2K2R8 9 = c2K2R9 := by
  decide!

set_option maxRecDepth 4000 in
theorem c2_r2_10 : lapRow 12 c2C2 c2K2R9 10 = c2K2R10 := by
  decide!

set_option maxRecDepth 4000 in
theorem c2_r2_11 : lapRow 12 c2C2 c2K2R10 11 = c2K2R11 := by
  decide!

set_option maxRecDepth 4000 in
theorem c2_r2_12 : lapRow 12 c2C2 c2K2R11 12 = c2K2R12 := by
  decide!

set_option maxRecDepth 4000 in
theorem c2_f2 : lapFold 12 c2C2 = c2K2R12 := by
  rw [lapFold, show List.range' 1 12 = [1, 2, 3, 4, 5, 6, 7, 8, 9, 10, 11, 12] from rfl]
  simp only [List.foldl_cons, List.foldl_nil]
  rw [c2_r2_1, c2_r2_2, c2_r2_3, c2_r2_4, c2_r2_5, c2_r2_6, c2_r2_7, c2_r2_8, c2_r2_9, c2_r2_10, c2_r2_11, c2_r2_12]

set_option maxRecDepth 4000 in
theorem c2_lap2 : lap 12 c2C2 = c2q2 := by
  rw [lap, c2_f2]
  decide!

set_option maxRecDepth 4000 in
theorem c2_dir2 : fwDir c2Ctx c2P2 = c2q2 := by
  rw [fwDir, c2_c2, show c2Ctx.m = 12 from rfl]
  exact c2_lap2

set_option maxRecDepth 4000 in
theorem c2_rr2 : matSub 12 12 (permToMat c2q2) c2P2 = c2R2 := by
  decide!

set_option maxRecDepth 4000 in
theorem c2_rt2 : matTr 12 12 c2R2 = c2RT2 := by
  decide!

set_option maxRecDepth 4000 in
theorem c2_m1x2 : matMul 12 12 12 c2R2 c2B22t = c2M1x2 := by
  decide!

set_option maxRecDepth 4000 in
theorem c2_m2x2 : matMul 12 12 12 c2M1x2 c2RT2 = c2M2x2 := by
  decide!

set_option maxRecDepth 4000 in
theorem c2_s2 : fwStep c2Ctx c2P2 = (c2P3, c2d2) := by
  rw [fwStep, c2_dir2]
  simp only [fwStepAt]
  rw [show c2Ctx.m = 12 from rfl, show c2Ctx.A22 = c2A22 from rfl,
    show c2Ctx.B22t = c2B22t from rfl, show c2Ctx.gmp = false from rfl,
    c2_rr2, c2_rt2, c2_m1x2, c2_m2x2, c2_g2]
  decide!

set_option maxRecDepth 4000 in
theorem c2_ga3 : matMul 12 12 12 c2A22 c2P3 = c2GA3 := by
  decide!

set_option maxRecDepth 4000 in
theorem c2_gab3 : matMul 12 12 12 c2GA3 c2B22 = c2GAB3 := by
  decide!

set_option maxRecDepth 4000 in
theorem c2_gt3 : matMul 12 12 12 c2A22t c2P3 = c2GT3 := by
  decide!

set_option maxRecDepth 4000 in
theorem c2_gtb3 : matMul 12 12 12 c2GT3 c2B22t = c2GTB3 := by
  decide!

set_option maxRecDepth 4000 in
theorem c2_g3 : fwGrad c2Ctx c2P3 = c2C3 := by
  rw [fwGrad]
  rw [show c2Ctx.m = 12 from rfl, show c2Ctx.K = c2K from rfl,
    show c2Ctx.A22 = c2A22 from rfl, show c2Ctx.B22 = c2B22 from rfl,
    show c2Ctx.A22t = c2A22t from rfl, show c2Ctx.B22t = c2B22t from rfl]
  rw [c2_ga3, c2_gab3, c2_gt3, c2_gtb3]
  decide!

set_option maxRecDepth 4000 in
theorem c2_c3 : fwCost c2Ctx c2P3 = c2C3 := by
  rw [fwCost, show c2Ctx.gmp = false from rfl, if_neg (by decide)]
  exact c2_g3

set_option maxRecDepth 4000 in
theorem c2_r3_1 : lapRow 12 c2C3 (lapInit 12) 1 = c2K3R1 := by
  decide!

set_option maxRecDepth 4000 in
theorem c2_r3_2 : lapRow 12 c2C3 c2K3R1 2 = c2K3R2 := by
  decide!

set_option maxRecDepth 4000 in
theorem c2_r3_3 : lapRow 12 c2C3 c2K3R2 3 = c2K3R3 := by
  decide!

set_option maxRecDepth 4000 in
theorem c2_r3_4 : lapRow 12 c2C3 c2K3R3 4 = c2K3R4 := by
  decide!

set_option maxRecDepth 4000 in
theorem c2_r3_5 : lapRow 12 c2C3 c2K3R4 5 = c2K3R5 := by
  decide!

set_option maxRecDepth 4000 in
theorem c2_r3_6 : lapRow 12 c2C3 c2K3R5 6 = c2K3R6 := by
  decide!

set_option maxRecDepth 4000 in
theorem c2_r3_7 : lapRow 12 c2C3 c2K3R6 7 = c2K3R7 := by
  decide!

set_option maxRecDepth 4000 in
theorem c2_r3_8 : lapRow 12 c2C3 c2K3R7 8 = c2K3R8 := by
  decide!

set_option maxRecDepth 4000 in
theorem c2_r3_9 : lapRow 12 c2C3 c2K3R8 9 = c2K3R9 := by
  decide!

set_option maxRecDepth 4000 in
theorem c2_r3_10 : lapRow 12 c2C3 c2K3R9 10 = c2K3R10 := by
  decide!

set_option maxRecDepth 4000 in
theorem c2_r3_11 : lapRow 12 c2C3 c2K3R10 11 = c2K3R11 := by
  decide!

set_option maxRecDepth 4000 in
theorem c2_r3_12 : lapRow 12 c2C3 c2K3R11 12 = c2K3R12 := by
  decide!

set_option maxRecDepth 4000 in
theorem c2_f3 : lapFold 12 c2C3 = c2K3R12 := by
  rw [lapFold, show List.range' 1 12 = [1, 2, 3, 4, 5, 6, 7, 8, 9, 10, 11, 12] from rfl]
  simp only [List.foldl_cons, List.foldl_nil]
  rw [c2_r3_1, c2_r3_2, c2_r3_3, c2_r3_4, c2_r3_5, c2_r3_6, c2_r3_7, c2_r3_8, c2_r3_9, c2_r3_10, c2_r3_11, c2_r3_12]

set_option maxRecDepth 4000 in
theorem c2_lap3 : lap 12 c2C3 = c2q3 := by
  rw [lap, c2_f3]
  decide!

set_option maxRecDepth 4000 in
theorem c2_dir3 : fwDir c2Ctx c2P3 = c2q3 := by
  rw [fwDir, c2_c3, show c2Ctx.m = 12 from rfl]
  exact c2_lap3

set_option maxRecDepth 4000 in
theorem c2_rr3 : matSub 12 12 (permToMat c2q3) c2P3 = c2R3 := by
  decide!

set_option maxRecDepth 4000 in
theorem c2_rt3 : matTr 12 12 c2R3 = c2RT3 := by
  decide!

set_option maxRecDepth 4000 in
theorem c2_m1x3 : matMul 12 12 12 c2R3 c2B22t = c2M1x3 := by
  decide!

set_option maxRecDepth 4000 in
theorem c2_m2x3 : matMul 12 12 12 c2M1x3 c2RT3 = c2M2x3 := by
  decide!

set_option maxRecDepth 4000 in
theorem c2_s3 : fwStep c2Ctx c2P3 = (c2P4, c2d3) := by
  rw [fwStep, c2_dir3]
  simp only [fwStepAt]
  rw [show c2Ctx.m = 12 from rfl, show c2Ctx.A22 = c2A22 from rfl,
    show c2Ctx.B22t = c2B22t from rfl, show c2Ctx.gmp = false from rfl,
    c2_rr3, c2_rt3, c2_m1x3, c2_m2x3, c2_g3]
  decide!

set_option maxRecDepth 4000 in
theorem c2_rP_1 : lapRow 12 c2NP (lapInit 12) 1 = c2KPR1 := by
  decide!

set_option maxRecDepth 4000 in
theorem c2_rP_2 : lapRow 12 c2NP c2KPR1 2 = c2KPR2 := by
  decide!

set_option maxRecDepth 4000 in
theorem c2_rP_3 : lapRow 12 c2NP c2KPR2 3 = c2KPR3 := by
  decide!

set_option maxRecDepth 4000 in
theorem c2_rP_4 : lapRow 12 c2NP c2KPR3 4 = c2KPR4 := by
  decide!

set_option maxRecDepth 4000 in
theorem c2_rP_5 : lapRow 12 c2NP c2KPR4 5 = c2KPR5 := by
  decide!

set_option maxRecDepth 4000 in
theorem c2_rP_6 : lapRow 12 c2NP c2KPR5 6 = c2KPR6 := by
  decide!

set_option maxRecDepth 4000 in
theorem c2_rP_7 : lapRow 12 c2NP c2KPR6 7 = c2KPR7 := by
  decide!

set_option maxRecDepth 4000 in
theorem c2_rP_8 : lapRow 12 c2NP c2KPR7 8 = c2KPR8 := by
  decide!

set_option maxRecDepth 4000 in
theorem c2_rP_9 : lapRow 12 c2NP c2KPR8 9 = c2KPR9 := by
  decide!

set_option maxRecDepth 4000 in
theorem c2_rP_10 : lapRow 12 c2NP c2KPR9 10 = c2KPR10 := by
  decide!

set_option maxRecDepth 4000 in
theorem c2_rP_11 : lapRow 12 c2NP c2KPR10 11 = c2KPR11 := by
  decide!

set_option maxRecDepth 4000 in
theorem c2_rP_12 : lapRow 12 c2NP c2KPR11 12 = c2KPR12 := by
  decide!

set_option maxRecDepth 4000 in
theorem c2_fP : lapFold 12 c2NP = c2KPR12 := by
  rw [lapFold, show List.range' 1 12 = [1, 2, 3, 4, 5, 6, 7, 8, 9, 10, 11, 12] from rfl]
  simp only [List.foldl_cons, List.foldl_nil]
  rw [c2_rP_1, c2_rP_2, c2_rP_3, c2_rP_4, c2_rP_5, c2_rP_6, c2_rP_7, c2_rP_8, c2_rP_9, c2_rP_10, c2_rP_11, c2_rP_12]

set_option maxRecDepth 4000 in
theorem c2_lapP : lap 12 c2NP = chr12cPi := by
  rw [lap, c2_fP]
  decide!

set_option maxRecDepth 4000 in
theorem c2_neg : matSmul 12 12 (-1) c2P4 = c2NP := by
  decide!

set_option maxRecDepth 4000 in
theorem c2_loop : fwLoop c2Ctx 30 c2P0 0 = (c2P4, 4) :=
  (fwLoop_cont c2Ctx 29 c2P0 c2P1 0 c2d0 c2_s0 (by decide!)).trans
    ((fwLoop_cont c2Ctx 28 c2P1 c2P2 1 c2d1 c2_s1 (by decide!)).trans
      ((fwLoop_cont c2Ctx 27 c2P2 c2P3 2 c2d2 c2_s2 (by decide!)).trans
        (fwLoop_last c2Ctx 26 c2P3 c2P4 3 c2d3 c2_s3 (by decide!))))

set_option maxRecDepth 4000 in
theorem c2_proj : fwProject c2Ctx (c2P4, 4) = (chr12cPi, 4) := by
  rw [fwProject, show c2Ctx.m = 12 from rfl]
  dsimp only
  rw [c2_neg, c2_lapP]

set_option maxRecDepth 4000 in
theorem c2_run : fwRun c2Ctx 30 c2P0 = (chr12cPi, 4) := by
  rw [fwRun, c2_loop]
  exact c2_proj

/-- Evaluation scheme of a successful single-restart `fit` call with
`shuffle_input = false`: once every pipeline stage's value is supplied as a
hypothesis (each one checkable by kernel evaluation), the call returns the
assembled result. -/
theorem fit_run_eval
    (cfg : Config) (rng : Nat → Nat) (A B : Mat) (sA sB : List Int) (S : Option Mat)
    (n k : Nat) (Ap Bp Sp : Mat) (rA rB : List Nat) (Ar Br Sr : Mat)
    (ctx : FWCtx) (P0 : Mat) (q : List Nat) (iters : Nat) (w perm : List Nat) (sc : ℚ)
    (hsq : isSquare A ∧ isSquare B)
    (hn : max A.length B.length = n)
    (hseeds : seedsOk sA sB n)
    (hne : ¬ (A.length = 0 ∧ B.length = 0))
    (hsim : simOk S n)
    (hk : (sA.map Int.toNat).length = k)
    (hinit : initOk cfg.init (n - k))
    (hshuf : cfg.shuffle_input = false)
    (hone : cfg.n_init = 1)
    (hpA : pad cfg.padding A n = Ap)
    (hpB : pad cfg.padding B n = Bp)
    (hpS : S.getD (mkMat n n (fun _ _ => 0)) = Sp)
    (hrA : reindex (sA.map Int.toNat)
      ((List.range n).filter (fun v => ¬ v ∈ (sA.map Int.toNat))) = rA)
    (hrB : reindex (sB.map Int.toNat)
      ((List.range n).filter (fun v => ¬ v ∈ (sB.map Int.toNat))) = rB)
    (hAr : applyReindex n rA Ap = Ar)
    (hBr : applyReindex n rB Bp = Br)
    (hSr : applyReindex2 n rA rB Sp = Sr)
    (hctx : mkCtx Ar Br Sr k n cfg.gmp cfg.eps = ctx)
    (hP0 : initMat cfg.init rng 0 (n - k) = P0)
    (hrun : fwRun ctx cfg.max_iter P0 = (q, iters))
    (hw : fullPerm k q = w)
    (hsc : scoreOf Ar Br Sr n w = sc)
    (hperm : assemble rA rB n w = perm) :
    fit cfg rng A B sA sB S = Except.ok ⟨perm, sc, iters⟩ := by
  subst hn hk hpA hpB hpS hrA hrB hAr hBr hSr hctx hP0 hw hsc hperm
  simp only [fit]
  rw [if_neg (not_not_intro hsq), if_neg (not_not_intro hseeds), if_neg hne,
    if_neg (not_not_intro hsim)]
  simp only [solve]
  rw [if_neg (not_not_intro hinit)]
  rw [hshuf, runOrder_false, runOrder_false]
  simp only [multiStart, hone]
  rw [show List.range 1 = [0] from rfl]
  simp only [List.map_cons, List.map_nil, List.foldl_nil, oneRun]
  rw [hrun]

set_option maxRecDepth 4000 in
/-- C2: on the chr12c benchmark pair, `fit` with `n_init = 1` and the exact
optimal permutation matrix as the custom initializer returns `score_`
exactly `11156` and `perm_inds_` equal to the optimal permutation (the run
converges after 4 iterations).  The run itself is settled by the staged
kernel evaluations above (`c2_run`). -/
theorem C2_custom_init_exact :
    fit c2Config rng0 chr12cA chr12cB [] [] none =
      Except.ok ⟨chr12cPi, 11156, 4⟩ := by
  refine fit_run_eval c2Config rng0 chr12cA chr12cB [] [] none 12 0
    chr12cA chr12cB (mkMat 12 12 (fun _ _ => 0))
    [0, 1, 2, 3, 4, 5, 6, 7, 8, 9, 10, 11] [0, 1, 2, 3, 4, 5, 6, 7, 8, 9, 10, 11]
    c2A22 c2B22 c2K0S c2Ctx c2P0 chr12cPi 4 chr12cPi chr12cPi 11156
    (by decide) rfl (by decide) (by decide) trivial rfl (by decide!) rfl rfl
    (by decide!) (by decide!) rfl (by decide!) (by decide!) (by decide!)
    (by decide!) (by decide!) (by decide!) (by decide!) c2_run (by decide!)
    (by decide!) (by decide!)

end Graspologic

namespace Graspologic

/-- C5 (counterexample to the claim as stated): `c5xB` is `c5xA` with its
last vertex removed, yet matching them with adopted padding returns the
permutation `[0, 1, 3, 2]`, which maps surviving vertex `2` to the padded
dummy vertex `3` instead of recovering the identity correspondence on the
surviving vertices. -/
theorem C5_padding_counterexample :
    fit baryAdoptedCfg rng0 c5xA c5xB [] [] none =
      Except.ok ⟨[0, 1, 3, 2], mkRat 2930 9, 1⟩ ∧
    ¬ (∀ i, i < 3 → ([0, 1, 3, 2] : List Nat).getD i 0 = i) :=
  ⟨by decide!, by decide⟩

/-- C5 (amended): identity recovery under adopted padding holds for some
remove-the-last-vertex pairs but not universally; on the pair
`(c5oA, c5oB)` the returned permutation does recover the identity
correspondence on every surviving vertex. -/
theorem C5_padding_amended :
    fit baryAdoptedCfg rng0 c5oA c5oB [] [] none =
      Except.ok ⟨[0, 1, 2, 3], mkRat 670 3, 1⟩ ∧
    (∀ i, i < 3 → ([0, 1, 2, 3] : List Nat).getD i 0 = i) :=
  ⟨by decide!, by decide⟩

/-- C4: a supplied similarity matrix whose shape differs from the common
post-padding shape makes `fit` fail with `ValueError` (for every
configuration, graphs and seeds, provided the call is not already the
empty-inputs `ShapeError` case); concretely, with `c4A` of size 3 padded
against `c4B` of size 4, the `(4, 4)` similarity matrix `c4S` is accepted
while the pre-padding-shaped `(3, 3)` matrix `c4Sbad` is rejected with
`ValueError`. -/
theorem C4_similarity_shape :
    (∀ cfg rng A B sA sB S, ¬ (A.length = 0 ∧ B.length = 0) →
        ¬ simOk (some S) (max A.length B.length) →
        fit cfg rng A B sA sB (some S) = Except.error Err.valueError) ∧
    (∃ r, fit baryNaiveCfg rng0 c4A c4B [] [] (some c4S) = Except.ok r) ∧
    fit baryNaiveCfg rng0 c4A c4B [] [] (some c4Sbad) =
      Except.error Err.valueError := by
  refine ⟨?_, ?_, by decide!⟩
  · intro cfg rng A B sA sB S hne hS
    simp only [fit]
    split_ifs with h1 h2 <;> rfl
  · exact ⟨_, by
      simp only [fit]
      rw [if_neg (by decide), if_neg (by decide), if_neg (by decide),
        if_neg (by decide)]
      simp only [solve]
      rw [if_neg (by decide)]⟩

/-- C4 witness: the general rejection clause applied to the concrete
mismatched call (`c4Sbad` against the padded common size 4). -/
theorem C4_similarity_shape_witness :
    fit baryNaiveCfg rng0 c4A c4B [] [] (some c4Sbad) =
      Except.error Err.valueError :=
  C4_similarity_shape.1 baryNaiveCfg rng0 c4A c4B [] [] c4Sbad
    (by decide) (by decide)

end Graspologic

namespace Graspologic

/-! ### Structural helper lemmas -/

theorem nodup_findIdx_getD {l : List Nat} (hl : l.Nodup) {k : Nat}
    (hk : k < l.length) : l.findIdx (fun x => x == l.getD k 0) = k := by
  rw [List.findIdx_eq hk]
  constructor
  · rw [List.getD_eq_getElem _ _ hk]
    simp
  · intro j hj
    simp only [beq_eq_false_iff_ne, ne_eq]
    rw [List.getD_eq_getElem _ _ hk]
    intro he
    exact Nat.ne_of_lt hj (List.Nodup.getElem_inj_iff hl |>.mp he)

theorem findIdx_append_left {p : Nat → Bool} (l₁ l₂ : List Nat)
    (h : l₁.findIdx p < l₁.length) : (l₁ ++ l₂).findIdx p = l₁.findIdx p := by
  rw [List.findIdx_append, if_pos h]

theorem assemble_seed (sa sb restA restB q : List Nat) (n k : Nat)
    (hk : k < sa.length) (hlen : sa.length = sb.length) (hnd : sa.Nodup)
    (hv : sa.getD k 0 < n) :
    (assemble (sa ++ restA) (sb ++ restB) n (fullPerm sa.length q)).getD
        (sa.getD k 0) 0 = sb.getD k 0 := by
  have hfi : sa.findIdx (fun x => x == sa.getD k 0) = k := nodup_findIdx_getD hnd hk
  rw [assemble]
  rw [List.getD_eq_getElem _ _ (by simpa using hv)]
  simp only [List.getElem_map, List.getElem_range]
  rw [findIdx_append_left _ _ (by rw [hfi]; exact hk), hfi]
  have h2 : (fullPerm sa.length q).getD k 0 = k := by
    rw [fullPerm, List.getD_append _ _ _ _ (by simpa using hk),
      List.getD_eq_getElem _ _ (by simpa using hk), List.getElem_range]
  rw [h2, List.getD_append _ _ _ _ (by omega)]

theorem foldl_min_mem (l : List (List Nat × ℚ × Nat)) (b : List Nat × ℚ × Nat) :
    l.foldl (fun best r => if r.2.1 < best.2.1 then r else best) b = b ∨
      l.foldl (fun best r => if r.2.1 < best.2.1 then r else best) b ∈ l := by
  induction l generalizing b with
  | nil => exact Or.inl rfl
  | cons x t ih =>
    rw [List.foldl_cons]
    rcases ih (if x.2.1 < b.2.1 then x else b) with h | h
    · rw [h]
      split
      · exact Or.inr (List.mem_cons_self x t)
      · exact Or.inl rfl
    · exact Or.inr (List.mem_cons_of_mem x h)

theorem multiStart_shape (cfg : Config) (rng : Nat → Nat) (Ar Br Sr : Mat)
    (k n : Nat) (hni : 0 < cfg.n_init) :
    ∃ q, (multiStart cfg rng Ar Br Sr k n).1 = fullPerm k q := by
  have hmem : multiStart cfg rng Ar Br Sr k n ∈
      (List.range cfg.n_init).map (oneRun cfg rng Ar Br Sr k n) := by
    rw [multiStart]
    rcases hr : (List.range cfg.n_init).map (oneRun cfg rng Ar Br Sr k n)
      with _ | ⟨r0, rest⟩
    · exfalso
      have hl := congrArg List.length hr
      simp at hl
      omega
    · show rest.foldl (fun best r => if r.2.1 < best.2.1 then r else best) r0 ∈
        r0 :: rest
      rcases foldl_min_mem rest r0 with h | h
      · rw [h]; exact List.mem_cons_self r0 rest
      · exact List.mem_cons_of_mem r0 h
  obtain ⟨idx, _, heq⟩ := List.mem_map.mp hmem
  refine ⟨(fwRun (mkCtx Ar Br Sr k n cfg.gmp cfg.eps) cfg.max_iter
    (initMat cfg.init rng idx (n - k))).1, ?_⟩
  rw [← heq]
  rfl

theorem solve_seed (cfg : Config) (rng : Nat → Nat) (Ap Bp Sp : Mat)
    (sa sb : List Nat) (n : Nat) (r : MatchResult) (hni : 0 < cfg.n_init)
    (h : solve cfg rng Ap Bp Sp sa sb n = Except.ok r)
    (k : Nat) (hk : k < sa.length) (hlen : sa.length = sb.length)
    (hnd : sa.Nodup) (hv : sa.getD k 0 < n) :
    r.perm_inds_.getD (sa.getD k 0) 0 = sb.getD k 0 := by
  simp only [solve] at h
  split_ifs at h with hio
  all_goals try exact Except.noConfusion h
  · injection h with h
    subst h
    obtain ⟨q, hq⟩ := multiStart_shape cfg rng
      (applyReindex n
        (reindex sa (runOrder cfg.shuffle_input (fun t => rng (2 * t)) sa n)) Ap)
      (applyReindex n
        (reindex sb (runOrder cfg.shuffle_input (fun t => rng (2 * t + 1)) sb n)) Bp)
      (applyReindex2 n
        (reindex sa (runOrder cfg.shuffle_input (fun t => rng (2 * t)) sa n))
        (reindex sb (runOrder cfg.shuffle_input (fun t => rng (2 * t + 1)) sb n)) Sp)
      sa.length n hni
    dsimp only []
    rw [hq]
    exact assemble_seed sa sb _ _ q n k hk hlen hnd hv

/-- C3: every successful `fit` call with valid seed sequences honors every
seeded pair: for every index `k`, the returned permutation satisfies
`perm_inds_[seeds_A[k]] = seeds_B[k]` exactly.  The configuration is
constructor-validated, so `n_init ≥ 1` (§4.5). -/
theorem C3_seed_correctness (cfg : Config) (rng : Nat → Nat) (A B : Mat)
    (sA sB : List Int) (S : Option Mat) (r : MatchResult)
    (hni : 0 < cfg.n_init)
    (h : fit cfg rng A B sA sB S = Except.ok r) (k : Nat)
    (hk : k < sA.length) :
    r.perm_inds_.getD (sA.getD k 0).toNat 0 = (sB.getD k 0).toNat := by
  simp only [fit] at h
  split_ifs at h with h1 h2 h3 h4
  all_goals try exact Except.noConfusion h
  · obtain ⟨hlen, hA, hB, hndA, hndB⟩ := h2
    have hkm : k < (sA.map Int.toNat).length := by simpa using hk
    have hsak : (sA.map Int.toNat).getD k 0 = (sA.getD k 0).toNat := by
      rw [List.getD_eq_getElem _ _ hkm, List.getElem_map,
        List.getD_eq_getElem _ _ hk]
    have hsbk : (sB.map Int.toNat).getD k 0 = (sB.getD k 0).toNat := by
      have hkb : k < sB.length := by omega
      rw [List.getD_eq_getElem _ _ (by simpa using hkb), List.getElem_map,
        List.getD_eq_getElem _ _ hkb]
    have hnd : (sA.map Int.toNat).Nodup := by
      refine List.Nodup.map_on ?_ hndA
      intro x hx y hy hxy
      have h1 := (hA x hx).1
      have h2 := (hA y hy).1
      omega
    have hmem : sA.getD k 0 ∈ sA := by
      rw [List.getD_eq_getElem _ _ hk]
      exact List.getElem_mem hk
    have hv : (sA.map Int.toNat).getD k 0 < max A.length B.length := by
      rw [hsak]
      exact (hA _ hmem).2
    rw [← hsak, ← hsbk]
    exact solve_seed cfg rng _ _ _ (sA.map Int.toNat) (sB.map Int.toNat)
      (max A.length B.length) r hni h k hkm (by simpa using hlen) hnd hv

/-- C3 witness: the concrete seeded run `(c3A, c3B)` with the seed pair
`(1, 2)` returns `c3Res`, whose permutation maps vertex `1` to vertex `2`. -/
theorem C3_seed_correctness_witness :
    fit baryNaiveCfg rng0 c3A c3B [1] [2] none = Except.ok c3Res ∧
      c3Res.perm_inds_.getD 1 0 = 2 := by
  have hev : fit baryNaiveCfg rng0 c3A c3B [1] [2] none = Except.ok c3Res := by
    decide!
  exact ⟨hev, C3_seed_correctness baryNaiveCfg rng0 c3A c3B [1] [2] none c3Res
    (by decide) hev 0 (by decide)⟩

/-- C6: `fit` fails with `ValueError`, before any optimization work is
reached, whenever the seed inputs are malformed (unequal lengths,
out-of-range or negative indices, duplicates — every violation of
`seedsOk`), for every configuration and random stream; a non-1-D seed
array likewise fails with `ValueError` immediately. -/
theorem C6_seed_validation :
    (∀ cfg rng A B sA sB S, ¬ seedsOk sA sB (max A.length B.length) →
        fit cfg rng A B sA sB S = Except.error Err.valueError) ∧
    (∀ cfg rng A B s rows S,
        fitNd cfg rng A B (NdArray.mat rows) s S = Except.error Err.valueError ∧
        fitNd cfg rng A B s (NdArray.mat rows) S = Except.error Err.valueError) := by
  constructor
  · intro cfg rng A B sA sB S hseeds
    simp only [fit]
    split_ifs with h1 <;> rfl
  · intro cfg rng A B s rows S
    constructor
    · cases s <;> rfl
    · cases s <;> rfl

/-- C6 witness: unequal-length seed lists are rejected, and a 2-D seed
array is rejected. -/
theorem C6_seed_validation_witness :
    fit baryNaiveCfg rng0 c3A c3B [0] [0, 1] none =
      Except.error Err.valueError ∧
    fitNd baryNaiveCfg rng0 c3A c3B (NdArray.mat [[0], [1]])
      (NdArray.vec [0, 1]) none = Except.error Err.valueError :=
  ⟨C6_seed_validation.1 baryNaiveCfg rng0 c3A c3B [0] [0, 1] none (by decide),
   (C6_seed_validation.2 baryNaiveCfg rng0 c3A c3B (NdArray.vec [0, 1])
      [[0], [1]] none).1⟩

/-- C7: constructing `GraphMatch` with an `eps` that is not a positive
number raises `TypeError` (with the remaining arguments at their §6
defaults); in particular `eps = -1`, an out-of-domain integer, raises
`TypeError` — which is distinct from `ValueError`. -/
theorem C7_eps_typeerror :
    (∀ eps, ¬ isPosNum eps →
        mkGraphMatch defaultNInit defaultInit defaultMaxIter defaultShuffle eps
          defaultGmp defaultPadding = Except.error Err.typeError) ∧
    mkGraphMatch defaultNInit defaultInit defaultMaxIter defaultShuffle
      (PyVal.int (-1)) defaultGmp defaultPadding =
        Except.error Err.typeError ∧
    Err.typeError ≠ Err.valueError := by
  refine ⟨?_, by decide, by decide⟩
  intro eps h
  simp only [mkGraphMatch, defaultNInit, defaultInit, defaultMaxIter,
    defaultShuffle, defaultGmp, defaultPadding]
  rw [if_neg (by decide), if_pos h]

/-- C7 witness: the general clause applied at `eps = -1`. -/
theorem C7_eps_typeerror_witness :
    mkGraphMatch defaultNInit defaultInit defaultMaxIter defaultShuffle
      (PyVal.int (-1)) defaultGmp defaultPadding =
        Except.error Err.typeError :=
  C7_eps_typeerror.1 (PyVal.int (-1)) (by decide)

/-- C8: with `n_init = 1`, an explicit initializer matrix and
`shuffle_input = false`, the matcher consumes no randomness, so two runs on
the same inputs — regardless of the random streams supplied — produce the
identical result (`perm_inds_`, `score_` and `n_iter_`). -/
theorem C8_fixed_init_deterministic (cfg : Config) (rngA rngB : Nat → Nat)
    (M A B : Mat) (sA sB : List Int) (S : Option Mat)
    (hinit : cfg.init = InitStrategy.explicitM M)
    (hsh : cfg.shuffle_input = false) (hni : cfg.n_init = 1) :
    fit cfg rngA A B sA sB S = fit cfg rngB A B sA sB S := by
  have hro : ∀ (r1 r2 : Nat → Nat) (s : List Nat) (n : Nat),
      runOrder cfg.shuffle_input r1 s n = runOrder cfg.shuffle_input r2 s n := by
    intro r1 r2 s n
    rw [hsh]
    rfl
  have hrun : ∀ Ar Br Sr k n i,
      oneRun cfg rngA Ar Br Sr k n i = oneRun cfg rngB Ar Br Sr k n i := by
    intro Ar Br Sr k n i
    simp only [oneRun, hinit, initMat]
  have hms : ∀ Ar Br Sr k n,
      multiStart cfg rngA Ar Br Sr k n = multiStart cfg rngB Ar Br Sr k n := by
    intro Ar Br Sr k n
    simp only [multiStart]
    rw [funext (hrun Ar Br Sr k n)]
  have hsolve : ∀ Ap Bp Sp sa sb n,
      solve cfg rngA Ap Bp Sp sa sb n = solve cfg rngB Ap Bp Sp sa sb n := by
    intro Ap Bp Sp sa sb n
    simp only [solve]
    rw [hro (fun t => rngA (2 * t)) (fun t => rngB (2 * t)) sa n,
      hro (fun t => rngA (2 * t + 1)) (fun t => rngB (2 * t + 1)) sb n,
      hms]
  simp only [fit]
  split_ifs <;> first | rfl | exact hsolve _ _ _ _ _ _

/-- C8 witness: the chr12c custom-initializer configuration run under two
different random streams. -/
theorem C8_fixed_init_deterministic_witness :
    fit c2Config rng0 chr12cA chr12cB [] [] none =
      fit c2Config rng1 chr12cA chr12cB [] [] none :=
  C8_fixed_init_deterministic c2Config rng0 rng1 (permToMat chr12cPi)
    chr12cA chr12cB [] [] none rfl rfl rfl

end Graspologic

namespace Graphstats

/-- C9: executing `omni.py` top to bottom raises `NameError` at the
`class OmnibusEmbed` statement, because the default-argument expression
`selectSVD` of `__init__` is evaluated at class-creation time and neither
`selectSVD` nor `_reduce_dim` is ever bound anywhere in the module; hence
the module cannot be imported and no caller can construct an
`OmnibusEmbed`. -/
theorem C9_omni_unusable :
    execModule [] omniModule = Except.error PyErr.nameError ∧
    PyName.selectSVD ∉ boundNames omniModule ∧
    PyName.underReduceDim ∉ boundNames omniModule := by
  decide

theorem getOmniMatrix_entry (gs : List NDMat) (n : Nat) (hne : gs ≠ [])
    (hsh : ∀ g ∈ gs, npShape g = (n, n)) (r c : Nat) :
    (getOmniMatrix gs).entry r c =
      ((gs.getD (c / n) ndDefault).entry (r % n) (c % n) +
        (gs.getD (r / n) ndDefault).entry (r % n) (c % n)) / 2 := by
  obtain ⟨g0, t, rfl⟩ := List.exists_cons_of_ne_nil hne
  have h0 := hsh g0 (List.mem_cons_self g0 t)
  have hr0 : g0.rows = n := congrArg Prod.fst h0
  have hc0 : g0.cols = n := congrArg Prod.snd h0
  simp only [getOmniMatrix, tileV, tileH, hstack, vstack, List.getD_cons_zero,
    hr0, hc0]

/-- C10: for a non-empty list of same-shape `n × n` graphs the omnibus
matrix is `(m·n) × (m·n)` with `(i, j)` block `(A_i + A_j) / 2`, and is
symmetric whenever every input graph is; `_check_valid_graphs` raises
`ValueError` exactly when the list is empty or two graphs differ in shape. -/
theorem C10_omni_matrix :
    (∀ gs n, gs ≠ [] → (∀ g ∈ gs, npShape g = (n, n)) → omniBlockProp gs n) ∧
    (∀ gs : List NDMat, checkValidGraphs gs = Except.error PyErr.valueError ↔
      gs = [] ∨ ∃ g ∈ gs, ∃ g2 ∈ gs, npShape g ≠ npShape g2) := by
  constructor
  · intro gs n hne hsh
    refine ⟨?_, ?_, ?_⟩
    · obtain ⟨g0, t, rfl⟩ := List.exists_cons_of_ne_nil hne
      have h0 := hsh g0 (List.mem_cons_self g0 t)
      have hr0 : g0.rows = n := congrArg Prod.fst h0
      have hc0 : g0.cols = n := congrArg Prod.snd h0
      simp only [getOmniMatrix, tileV, tileH, hstack, vstack, npShape,
        List.getD_cons_zero, hr0, hc0]
    · intro i j a b hi hj ha hb
      have hn : 0 < n := by omega
      rw [getOmniMatrix_entry gs n hne hsh]
      have e1 : (i * n + a) / n = i := by
        rw [Nat.mul_comm, Nat.mul_add_div hn, Nat.div_eq_of_lt ha, Nat.add_zero]
      have e2 : (i * n + a) % n = a := by
        rw [Nat.mul_comm, Nat.mul_add_mod, Nat.mod_eq_of_lt ha]
      have e3 : (j * n + b) / n = j := by
        rw [Nat.mul_comm, Nat.mul_add_div hn, Nat.div_eq_of_lt hb, Nat.add_zero]
      have e4 : (j * n + b) % n = b := by
        rw [Nat.mul_comm, Nat.mul_add_mod, Nat.mod_eq_of_lt hb]
      rw [e1, e2, e3, e4, add_comm ((gs.getD j ndDefault).entry a b)]
    · intro hg r c hrlt hclt
      have hn : 0 < n := by
        rcases Nat.eq_zero_or_pos n with h0 | h0
        · subst h0; simp at hrlt
        · exact h0
      rw [getOmniMatrix_entry gs n hne hsh, getOmniMatrix_entry gs n hne hsh]
      have hcm : c / n < gs.length := (Nat.div_lt_iff_lt_mul hn).mpr hclt
      have hrm : r / n < gs.length := (Nat.div_lt_iff_lt_mul hn).mpr hrlt
      have m1 : gs.getD (c / n) ndDefault ∈ gs := by
        rw [List.getD_eq_getElem _ _ hcm]
        exact List.getElem_mem hcm
      have m2 : gs.getD (r / n) ndDefault ∈ gs := by
        rw [List.getD_eq_getElem _ _ hrm]
        exact List.getElem_mem hrm
      rw [hg _ m1 (r % n) (c % n), hg _ m2 (r % n) (c % n), add_comm]
  · intro gs
    have hiff : 1 < ((gs.map npShape).dedup).length ↔
        ∃ g ∈ gs, ∃ g2 ∈ gs, npShape g ≠ npShape g2 := by
      constructor
      · intro h1
        rcases hd : (gs.map npShape).dedup with _ | ⟨x, t2⟩
        · rw [hd] at h1; simp at h1
        · rcases t2 with _ | ⟨y, t3⟩
          · rw [hd] at h1; simp at h1
          · have hx : x ∈ gs.map npShape :=
              List.mem_dedup.mp (by rw [hd]; exact List.mem_cons_self _ _)
            have hy : y ∈ gs.map npShape :=
              List.mem_dedup.mp
                (by rw [hd]; exact List.mem_cons_of_mem _ (List.mem_cons_self _ _))
            have hnd := List.nodup_dedup (gs.map npShape)
            rw [hd] at hnd
            have hxy : x ≠ y := by
              intro he
              subst he
              exact (List.nodup_cons.mp hnd).1 (List.mem_cons_self _ _)
            obtain ⟨g, hgm, hgx⟩ := List.mem_map.mp hx
            obtain ⟨g2, hg2m, hg2y⟩ := List.mem_map.mp hy
            exact ⟨g, hgm, g2, hg2m, by rw [hgx, hg2y]; exact hxy⟩
      · rintro ⟨g, hgm, g2, hg2m, hne2⟩
        by_contra hle
        push_neg at hle
        have hx : npShape g ∈ (gs.map npShape).dedup :=
          List.mem_dedup.mpr (List.mem_map_of_mem _ hgm)
        have hy : npShape g2 ∈ (gs.map npShape).dedup :=
          List.mem_dedup.mpr (List.mem_map_of_mem _ hg2m)
        rcases hd : (gs.map npShape).dedup with _ | ⟨x, t2⟩
        · rw [hd] at hx; simp at hx
        · rw [hd] at hle hx hy
          rcases t2 with _ | ⟨y, t3⟩
          · simp at hx hy
            exact hne2 (hx.trans hy.symm)
          · simp at hle
    have hzero : ((gs.map npShape).dedup).length = 0 ↔ gs = [] := by
      rw [List.length_eq_zero, List.dedup_eq_nil, List.map_eq_nil_iff]
    simp only [checkValidGraphs]
    split_ifs with h1 h2
    · exact iff_of_true rfl (Or.inr (hiff.mp h1))
    · exact iff_of_true rfl (Or.inl (hzero.mp h2))
    · refine iff_of_false (by simp) ?_
      rintro (rfl | hex)
      · exact h2 (hzero.mpr rfl)
      · exact h1 (hiff.mpr hex)

/-- C10 witness: the general clauses applied to a concrete pair of 2 × 2
graphs and to the empty list. -/
theorem C10_omni_matrix_witness :
    (omniW ≠ [] ∧ ∀ g ∈ omniW, npShape g = (2, 2)) ∧ omniBlockProp omniW 2 ∧
      (checkValidGraphs ([] : List NDMat) = Except.error PyErr.valueError ↔
        ([] : List NDMat) = [] ∨
          ∃ g ∈ ([] : List NDMat), ∃ g2 ∈ ([] : List NDMat),
            npShape g ≠ npShape g2) :=
  ⟨⟨List.cons_ne_nil _ _, by decide⟩,
   C10_omni_matrix.1 omniW 2 (List.cons_ne_nil _ _) (by decide),
   C10_omni_matrix.2 []⟩

end Graphstats
